import Mathlib

set_option maxRecDepth 8000

/-!
# go-docker-manager: the Docker client over an HTTP transport

A shallow embedding of `pkg/httpclient` and `pkg/dockerclient` (with
`pkg/dockerclient/models`), and the status-code contracts of the nine
operations of `SimpleDocker`.

Conventions of the embedding.

* A Go `string` and a Go `[]byte` are both finite byte sequences, so both are
  `List UInt8`; the conversions `string(b)` between them are the identity.
* A Go result pair `(v, err)` is a Lean pair whose second component is an
  `Option GoError`, `none` being `nil`.
* The `HttpClient` interface talks to the outside world.  Its methods take the
  state of that world and return the new state next to their result, and the
  operations of `SimpleDocker` thread that state through.
* `encoding/json` is not part of the repository: the operations take it as a
  parameter (`EncodingJson`).  `goJson` is an executable model of it.
-/

/-- Go `string` and `[]byte`: a finite sequence of bytes. -/
abbrev GoString := List UInt8

/-- Go slice of `α`; `none` is the `nil` slice. -/
abbrev GoSlice (α : Type) := Option (List α)

/-- Bytes of a string literal of the source (Go source text is UTF-8). -/
def lit (s : String) : GoString := s.data.flatMap String.utf8EncodeChar

/-- Expansion of a format made of literal text and `%s` verbs, each verb
taking the next string operand, as `fmt.Sprintf` does for the formats of this
repository. -/
def sprintfChars : List Char → List GoString → GoString
  | '%' :: 's' :: rest, a :: as => a ++ sprintfChars rest as
  | c :: rest, as => String.utf8EncodeChar c ++ sprintfChars rest as
  | [], _ => []

/-- Model of `fmt.Sprintf` on `%s` verbs with string operands. -/
def Sprintf (format : String) (operands : List GoString) : GoString :=
  sprintfChars format.data operands

/-- Go `error` values that occur in the program.

The first seven are the sentinel variables of `simpleDocker.go`.
`SyntaxError` and `UnmarshalTypeError` stand for the two error types of
`encoding/json` met when decoding, `other` for any other error value made
outside the package (by the HTTP transport, say), carried by its text.
`Errorf format operands err` is the fresh error value built by
`fmt.Errorf(format, operands..., err)`: it is equal to no sentinel. -/
inductive GoError where
  | ErrDockerInternalServerError
  | ErrImageDoesNotExist
  | ErrContainerAlreadyExist
  | ErrContainerDoesNotExist
  | ErrContainerIsRunning
  | ErrContainerIsStopped
  | ErrExecInstanceDoesNotExist
  | SyntaxError
  | UnmarshalTypeError
  | other (text : GoString)
  | Errorf (format : String) (operands : List GoString) (err : GoError)
  deriving DecidableEq, Repr

namespace httpclient

/-- The struct `HttpResponse` of `http.go`. -/
structure HttpResponse where
  /-- Response code of the HTTP request. -/
  StatusCode : Int
  /-- Body returned by the HTTP query. -/
  Body : GoString
  deriving DecidableEq, Repr

/-- Go `map[string]string` of request headers; the `nil` map is `[]`. -/
abbrev Headers := List (GoString × GoString)

/-- The interface `HttpClient` of `http.go`, over a world of type `σ`.

The one implementation of the repository, `SimpleHttpClient.runRequest`,
returns either `(nil, err)` or `(&HttpResponse, nil)`, hence `Except`. -/
structure HttpClient (σ : Type) where
  /-- HTTP GET on `urlEndpoint` with `headers`. -/
  Get : (urlEndpoint : GoString) → (headers : Headers) → σ → Except GoError HttpResponse × σ
  /-- HTTP POST on `urlEndpoint` with `headers` and `body`. -/
  Post : (urlEndpoint : GoString) → (headers : Headers) → (body : GoString) → σ →
    Except GoError HttpResponse × σ
  /-- HTTP DELETE on `urlEndpoint` with `headers`. -/
  Delete : (urlEndpoint : GoString) → (headers : Headers) → σ → Except GoError HttpResponse × σ

end httpclient

namespace models

/-- Request body when creating a container (`requests.go`). -/
structure CreateContainerBody where
  Cmd : GoSlice GoString
  Image : GoString
  deriving DecidableEq, Repr

/-- Request body when creating an exec instance (`requests.go`). -/
structure GenerateExecInstanceBody where
  AttachStdin : Bool
  AttachStdout : Bool
  AttachStderr : Bool
  Tty : Bool
  Cmd : GoSlice GoString
  deriving DecidableEq, Repr

/-- Request body when starting an exec instance (`requests.go`). -/
structure StartExecInstance where
  Detach : Bool
  Tty : Bool
  deriving DecidableEq, Repr

/-- Response body of the daemon when creating a container (`responses.go`). -/
structure CreateContainerResponseBody where
  ID : GoString
  Warnings : GoSlice GoString
  deriving DecidableEq, Repr

/-- The anonymous struct of the field `State` of `CheckContainerStatusBody`. -/
structure ContainerState where
  Status : GoString
  Running : Bool
  deriving DecidableEq, Repr

/-- Response body of the daemon when inspecting a container (`responses.go`). -/
structure CheckContainerStatusBody where
  State : ContainerState
  deriving DecidableEq, Repr

/-- Response body of the daemon when creating an exec instance (`responses.go`). -/
structure CreateExecResponseBody where
  ID : GoString
  deriving DecidableEq, Repr

end models

/-- The functions of `encoding/json` the client calls, one per Go type they
are called at.  `Unmarshal…` starts from the zero value of its struct, as the
call sites do. -/
structure EncodingJson where
  MarshalCreateContainerBody : models.CreateContainerBody → Except GoError GoString
  MarshalGenerateExecInstanceBody : models.GenerateExecInstanceBody → Except GoError GoString
  MarshalStartExecInstance : models.StartExecInstance → Except GoError GoString
  UnmarshalCreateContainerResponseBody : GoString → Except GoError models.CreateContainerResponseBody
  UnmarshalCheckContainerStatusBody : GoString → Except GoError models.CheckContainerStatusBody
  UnmarshalCreateExecResponseBody : GoString → Except GoError models.CreateExecResponseBody

/-!
## The package `encoding/json`

An executable model of `json.Marshal` and `json.Unmarshal` at the six types
the client uses them at, after the behaviour of the Go library (Go 1.22): the
grammar and nesting limit of its scanner, the unquoting of strings with
malformed UTF-8 turned into U+FFFD, the matching of object keys with field
names up to case, `null` leaving a field as it is, and HTML-safe escaping on
output.  The statements about the client hold for every `EncodingJson`; this
model gives them concrete instances.
-/

namespace gojson

/-- Size of the UTF-8 sequence that starts with `c` and goes on with `rest`,
as `utf8.DecodeRune` finds it; `1` also when the bytes are no valid
encoding. -/
def utf8Size (c : UInt8) (rest : List UInt8) : Nat :=
  let cont (b : UInt8) : Bool := 0x80 ≤ b && b ≤ 0xBF
  if c < 0x80 then 1
  else if c < 0xC2 then 1
  else if c ≤ 0xDF then
    match rest with
    | b1 :: _ => if cont b1 then 2 else 1
    | _ => 1
  else if c ≤ 0xEF then
    match rest with
    | b1 :: b2 :: _ =>
      let lo : UInt8 := if c = 0xE0 then 0xA0 else 0x80
      let hi : UInt8 := if c = 0xED then 0x9F else 0xBF
      if lo ≤ b1 && b1 ≤ hi && cont b2 then 3 else 1
    | _ => 1
  else if c ≤ 0xF4 then
    match rest with
    | b1 :: b2 :: b3 :: _ =>
      let lo : UInt8 := if c = 0xF0 then 0x90 else 0x80
      let hi : UInt8 := if c = 0xF4 then 0x8F else 0xBF
      if lo ≤ b1 && b1 ≤ hi && cont b2 && cont b3 then 4 else 1
    | _ => 1
  else 1

/-- UTF-8 bytes of U+FFFD, the rune `utf8.RuneError`. -/
def replacement : GoString := [0xEF, 0xBF, 0xBD]

/-- UTF-8 bytes of the rune `r`, as `utf8.EncodeRune` writes them: those of
U+FFFD for a surrogate or a value beyond U+10FFFF. -/
def encodeRune (r : Nat) : GoString :=
  if r < 0x80 then [r.toUInt8]
  else if r < 0x800 then [(0xC0 + r / 64).toUInt8, (0x80 + r % 64).toUInt8]
  else if 0xD800 ≤ r ∧ r < 0xE000 then replacement
  else if r < 0x10000 then
    [(0xE0 + r / 4096).toUInt8, (0x80 + r / 64 % 64).toUInt8, (0x80 + r % 64).toUInt8]
  else if r < 0x110000 then
    [(0xF0 + r / 262144).toUInt8, (0x80 + r / 4096 % 64).toUInt8,
      (0x80 + r / 64 % 64).toUInt8, (0x80 + r % 64).toUInt8]
  else replacement

/-- Value of a hexadecimal digit. -/
def hexVal (c : UInt8) : Option Nat :=
  if 0x30 ≤ c ∧ c ≤ 0x39 then some (c.toNat - 0x30)
  else if 0x61 ≤ c ∧ c ≤ 0x66 then some (c.toNat - 0x61 + 10)
  else if 0x41 ≤ c ∧ c ≤ 0x46 then some (c.toNat - 0x41 + 10)
  else none

/-- The function `getu4` of `decode.go`: the number spelled by a `\\uXXXX` escape
at the start of the bytes, `none` when they do not start with one. -/
def getu4 : List UInt8 → Option Nat
  | bs :: u :: a :: b :: c :: d :: _ =>
    if bs = 0x5C ∧ u = 0x75 then
      match hexVal a, hexVal b, hexVal c, hexVal d with
      | some x, some y, some z, some t => some (((x * 16 + y) * 16 + z) * 16 + t)
      | _, _, _, _ => none
    else none
  | _ => none

/-- One round of the loop of `unquoteBytes` at byte `c` followed by `rest`:
the bytes written and the number of bytes read, or `none` where the loop
gives up. -/
def unquoteStep (c : UInt8) (rest : List UInt8) : Option (GoString × Nat) :=
  if c = 0x5C then
    match rest with
    | [] => none
    | e :: _ =>
      if e = 0x22 ∨ e = 0x5C ∨ e = 0x2F then some ([e], 2)
      else if e = 0x62 then some ([0x08], 2)
      else if e = 0x66 then some ([0x0C], 2)
      else if e = 0x6E then some ([0x0A], 2)
      else if e = 0x72 then some ([0x0D], 2)
      else if e = 0x74 then some ([0x09], 2)
      else if e = 0x75 then
        match getu4 (c :: rest) with
        | none => none
        | some rr =>
          if 0xD800 ≤ rr ∧ rr < 0xE000 then
            match getu4 (rest.drop 5) with
            | some rr1 =>
              if rr < 0xDC00 ∧ 0xDC00 ≤ rr1 ∧ rr1 < 0xE000 then
                some (encodeRune ((rr - 0xD800) * 1024 + (rr1 - 0xDC00) + 0x10000), 12)
              else some (replacement, 6)
            | none => some (replacement, 6)
          else some (encodeRune rr, 6)
      else none
  else if c = 0x22 ∨ c < 0x20 then none
  else if c < 0x80 then some ([c], 1)
  else
    let size := utf8Size c rest
    if size = 1 then some (replacement, 1) else some (c :: rest.take (size - 1), size)

/-- The loop of `unquoteBytes`; `skip` counts the bytes the last round has
read beyond the current one. -/
def unquoteFrom : Nat → List UInt8 → Option GoString
  | _, [] => some []
  | skip + 1, _ :: rest => unquoteFrom skip rest
  | 0, c :: rest =>
    match unquoteStep c rest with
    | none => none
    | some (out, size) => (out ++ ·) <$> unquoteFrom (size - 1) rest

/-- The content of a string literal, given the bytes between its quotes;
`none` when they hold a bad escape, a quote or a control character. -/
def unquote (s : List UInt8) : Option GoString := unquoteFrom 0 s

/-- JSON values, as the grammar of `scanner.go` reads them. -/
inductive Value where
  | null
  | bool (b : Bool)
  | number (text : GoString)
  | string (s : GoString)
  | array (items : List Value)
  | object (members : List (GoString × Value))

/-- Lexical units of a JSON text. -/
inductive Token where
  | beginObject
  | endObject
  | beginArray
  | endArray
  | colon
  | comma
  | string (s : GoString)
  | number (text : GoString)
  | tTrue
  | tFalse
  | tNull

/-- White space of JSON. -/
def isSpace (c : UInt8) : Bool := c = 0x20 || c = 0x09 || c = 0x0D || c = 0x0A

/-- Decimal digit. -/
def isDigit (c : UInt8) : Bool := 0x30 ≤ c && c ≤ 0x39

/-- Optional exponent, then the end of the number. -/
def validExp : List UInt8 → Bool
  | [] => true
  | c :: r =>
    (c = 0x65 || c = 0x45) &&
      (match r with
        | s :: r1 => if s = 0x2B ∨ s = 0x2D then r1 != [] && r1.all isDigit
          else r != [] && r.all isDigit
        | [] => false)

/-- Optional fraction, then `validExp`. -/
def validFrac : List UInt8 → Bool
  | c :: r => if c = 0x2E then (r.takeWhile isDigit) != [] && validExp (r.dropWhile isDigit)
    else validExp (c :: r)
  | [] => true

/-- Integer part without sign, then `validFrac`. -/
def validInt : List UInt8 → Bool
  | c :: r => if c = 0x30 then validFrac r
    else if 0x31 ≤ c ∧ c ≤ 0x39 then validFrac (r.dropWhile isDigit)
    else false
  | [] => false

/-- The number grammar of the scanner. -/
def isValidNumber : List UInt8 → Bool
  | c :: r => if c = 0x2D then validInt r else validInt (c :: r)
  | [] => false

/-- The token of a punctuation byte. -/
def punct (c : UInt8) : Option Token :=
  if c = 0x7B then some .beginObject
  else if c = 0x7D then some .endObject
  else if c = 0x5B then some .beginArray
  else if c = 0x5D then some .endArray
  else if c = 0x3A then some .colon
  else if c = 0x2C then some .comma
  else none

/-- The token spelled by a run of bytes that is neither a string nor
punctuation: a literal name or a number. -/
def wordToken (w : List UInt8) : Option Token :=
  if w = lit "true" then some .tTrue
  else if w = lit "false" then some .tFalse
  else if w = lit "null" then some .tNull
  else if isValidNumber w then some (.number w)
  else none

/-- Where the lexer stands: between tokens, in a name or number, in a string,
or right after a backslash in a string; the bytes read so far of the current
token are kept in reverse. -/
inductive LexMode where
  | ground
  | word (rev : List UInt8)
  | str (rev : List UInt8)
  | strEsc (rev : List UInt8)

/-- Tokens of a JSON text, `none` on a lexical error. -/
def lex : LexMode → List UInt8 → Option (List Token)
  | .ground, [] => some []
  | .word rev, [] => (fun t => [t]) <$> wordToken rev.reverse
  | .str _, [] => none
  | .strEsc _, [] => none
  | .ground, c :: cs =>
    if isSpace c then lex .ground cs
    else match punct c with
      | some p => (p :: ·) <$> lex .ground cs
      | none => if c = 0x22 then lex (.str []) cs else lex (.word [c]) cs
  | .word rev, c :: cs =>
    if isSpace c then
      match wordToken rev.reverse with
      | some t => (t :: ·) <$> lex .ground cs
      | none => none
    else match punct c with
      | some p =>
        match wordToken rev.reverse with
        | some t => (fun ts => t :: p :: ts) <$> lex .ground cs
        | none => none
      | none => if c = 0x22 then none else lex (.word (c :: rev)) cs
  | .str rev, c :: cs =>
    if c = 0x22 then
      match unquote rev.reverse with
      | some s => (Token.string s :: ·) <$> lex .ground cs
      | none => none
    else if c = 0x5C then lex (.strEsc (c :: rev)) cs
    else lex (.str (c :: rev)) cs
  | .strEsc rev, c :: cs => lex (.str (c :: rev)) cs

/-- An array or object under construction: what it holds so far, in reverse,
and for an object the key whose value is awaited. -/
inductive Frame where
  | array (rev : List Value)
  | object (rev : List (GoString × Value)) (key : GoString)

/-- What the grammar allows next. -/
inductive Expect where
  | value
  | valueOrEnd
  | keyOrEnd
  | key
  | colon
  | commaOrEnd
  | done
  deriving DecidableEq

/-- State of the parser: open arrays and objects, innermost first, what may
come next, and the top-level value once complete. -/
structure ParseState where
  stack : List Frame
  expect : Expect
  result : Option Value

/-- The constant `maxNestingDepth` of `scanner.go`. -/
def maxNestingDepth : Nat := 10000

/-- A value is complete: hand it to the innermost open array or object. -/
def complete (v : Value) : List Frame → ParseState
  | [] => { stack := [], expect := .done, result := some v }
  | .array rev :: st => { stack := .array (v :: rev) :: st, expect := .commaOrEnd, result := none }
  | .object rev key :: st =>
    { stack := .object ((key, v) :: rev) key :: st, expect := .commaOrEnd, result := none }

/-- Open an array or object, unless that nests too deep. -/
def push (f : Frame) (e : Expect) (stack : List Frame) : Option ParseState :=
  if stack.length + 1 ≤ maxNestingDepth then
    some { stack := f :: stack, expect := e, result := none }
  else none

/-- A token that starts a value, where a value may start. -/
def beginValue (stack : List Frame) : Token → Option ParseState
  | .string s => some (complete (.string s) stack)
  | .number t => some (complete (.number t) stack)
  | .tTrue => some (complete (.bool true) stack)
  | .tFalse => some (complete (.bool false) stack)
  | .tNull => some (complete .null stack)
  | .beginArray => push (.array []) .valueOrEnd stack
  | .beginObject => push (.object [] []) .keyOrEnd stack
  | _ => none

/-- Close the innermost array. -/
def closeArray : List Frame → Option ParseState
  | .array rev :: st => some (complete (.array rev.reverse) st)
  | _ => none

/-- Close the innermost object. -/
def closeObject : List Frame → Option ParseState
  | .object rev _ :: st => some (complete (.object rev.reverse) st)
  | _ => none

/-- One token. -/
def step (p : ParseState) (t : Token) : Option ParseState :=
  match p.expect, t with
  | .value, t => beginValue p.stack t
  | .valueOrEnd, .endArray => closeArray p.stack
  | .valueOrEnd, t => beginValue p.stack t
  | .keyOrEnd, .endObject => closeObject p.stack
  | .keyOrEnd, .string k | .key, .string k =>
    match p.stack with
    | .object rev _ :: st => some { stack := .object rev k :: st, expect := .colon, result := none }
    | _ => none
  | .colon, .colon => some { p with expect := .value }
  | .commaOrEnd, .comma =>
    match p.stack with
    | .array _ :: _ => some { p with expect := .value }
    | .object _ _ :: _ => some { p with expect := .key }
    | [] => none
  | .commaOrEnd, .endArray => closeArray p.stack
  | .commaOrEnd, .endObject => closeObject p.stack
  | _, _ => none

/-- The JSON value a text spells, `none` when `checkValid` rejects the text. -/
def parse (data : List UInt8) : Option Value :=
  match lex .ground data with
  | none => none
  | some tokens =>
    match tokens.foldlM step { stack := [], expect := .value, result := none } with
    | some p => if p.expect = .done then p.result else none
    | none => none


/-- One round of `foldName` at byte `c` followed by `rest`: the folded bytes
and the number of bytes read.  ASCII letters go to upper case; the two runes
outside ASCII whose case orbit holds an ASCII letter, U+017F and U+212A, go to
`S` and `K`.  Any other rune is left as it is: it folds to no ASCII letter, so
this does not change whether the folded name is a given ASCII name. -/
def foldStep (c : UInt8) (rest : List UInt8) : GoString × Nat :=
  if 0x61 ≤ c ∧ c ≤ 0x7A then ([c - 0x20], 1)
  else if c = 0xC5 ∧ rest.take 1 = [0xBF] then ([0x53], 2)
  else if c = 0xE2 ∧ rest.take 2 = [0x84, 0xAA] then ([0x4B], 3)
  else ([c], 1)

/-- The loop of `foldName`, with the skip counter of `unquoteFrom`. -/
def foldFrom : Nat → List UInt8 → GoString
  | _, [] => []
  | skip + 1, _ :: rest => foldFrom skip rest
  | 0, c :: rest => (foldStep c rest).1 ++ foldFrom ((foldStep c rest).2 - 1) rest

/-- Case folding of an object key before it is matched with a field name. -/
def foldName (key : GoString) : GoString := foldFrom 0 key

/-- Decoding into a field of type `string`: the new value of the field and
whether the JSON value fits. -/
def storeString (old : GoString) : Value → GoString × Bool
  | .string s => (s, true)
  | .null => (old, true)
  | _ => (old, false)

/-- Decoding into a field of type `bool`. -/
def storeBool (old : Bool) : Value → Bool × Bool
  | .bool b => (b, true)
  | .null => (old, true)
  | _ => (old, false)

/-- Decoding into a field of type `[]string`.  The elements of an array are
decoded into the elements the slice already has, then into empty strings
(an element a previous value of the same field left beyond the length of the
slice is taken to be empty). -/
def storeStrings (old : GoSlice GoString) : Value → GoSlice GoString × Bool
  | .null => (none, true)
  | .array items =>
    let stored := items.enum.map fun (i, v) => storeString (((old.getD []).get? i).getD []) v
    (some (stored.map Prod.fst), stored.all Prod.snd)
  | _ => (old, false)

open models

/-- One member of an object decoded into a `CreateContainerResponseBody`. -/
def storeCreateContainerResponseBody (acc : CreateContainerResponseBody × Bool)
    (member : GoString × Value) : CreateContainerResponseBody × Bool :=
  if foldName member.1 = lit "ID" then
    let r := storeString acc.1.ID member.2
    ({ acc.1 with ID := r.1 }, acc.2 && r.2)
  else if foldName member.1 = lit "WARNINGS" then
    let r := storeStrings acc.1.Warnings member.2
    ({ acc.1 with Warnings := r.1 }, acc.2 && r.2)
  else acc

/-- One member of an object decoded into a `CreateExecResponseBody`. -/
def storeCreateExecResponseBody (acc : CreateExecResponseBody × Bool)
    (member : GoString × Value) : CreateExecResponseBody × Bool :=
  if foldName member.1 = lit "ID" then
    let r := storeString acc.1.ID member.2
    ({ ID := r.1 }, acc.2 && r.2)
  else acc

/-- One member of an object decoded into the struct of the field `State`. -/
def storeContainerStateField (acc : ContainerState × Bool) (member : GoString × Value) :
    ContainerState × Bool :=
  if foldName member.1 = lit "STATUS" then
    let r := storeString acc.1.Status member.2
    ({ acc.1 with Status := r.1 }, acc.2 && r.2)
  else if foldName member.1 = lit "RUNNING" then
    let r := storeBool acc.1.Running member.2
    ({ acc.1 with Running := r.1 }, acc.2 && r.2)
  else acc

/-- Decoding into the field `State`, a struct. -/
def storeContainerState (old : ContainerState) : Value → ContainerState × Bool
  | .object members => members.foldl storeContainerStateField (old, true)
  | .null => (old, true)
  | _ => (old, false)

/-- One member of an object decoded into a `CheckContainerStatusBody`. -/
def storeCheckContainerStatusBody (acc : CheckContainerStatusBody × Bool)
    (member : GoString × Value) : CheckContainerStatusBody × Bool :=
  if foldName member.1 = lit "STATE" then
    let r := storeContainerState acc.1.State member.2
    ({ State := r.1 }, acc.2 && r.2)
  else acc

/-- Model of `json.Unmarshal(data, &v)` for `v` a struct holding `zero`:
a text that is not valid JSON is a `SyntaxError`; `null` leaves the struct as
it is; the members of an object are stored in turn, members that match no
field being skipped; a value that does not fit its target is an
`UnmarshalTypeError`. -/
def Unmarshal {α : Type} (storeField : α × Bool → GoString × Value → α × Bool) (zero : α)
    (data : GoString) : Except GoError α :=
  match parse data with
  | none => .error .SyntaxError
  | some .null => .ok zero
  | some (.object members) =>
    if (members.foldl storeField (zero, true)).2 then
      .ok (members.foldl storeField (zero, true)).1
    else .error .UnmarshalTypeError
  | some _ => .error .UnmarshalTypeError

/-- Lower-case hexadecimal digit. -/
def hexDigit (n : Nat) : UInt8 := if n < 10 then (0x30 + n).toUInt8 else (0x61 + (n - 10)).toUInt8

/-- One round of the loop that writes a string: the bytes written for the
byte `c` followed by `rest`, and the number of bytes read. -/
def appendStringStep (c : UInt8) (rest : List UInt8) : GoString × Nat :=
  if c < 0x80 then
    if c = 0x5C ∨ c = 0x22 then ([0x5C, c], 1)
    else if c = 0x08 then (lit "\\b", 1)
    else if c = 0x0C then (lit "\\f", 1)
    else if c = 0x0A then (lit "\\n", 1)
    else if c = 0x0D then (lit "\\r", 1)
    else if c = 0x09 then (lit "\\t", 1)
    else if c < 0x20 ∨ c = 0x3C ∨ c = 0x3E ∨ c = 0x26 then
      (lit "\\u00" ++ [hexDigit (c.toNat / 16), hexDigit (c.toNat % 16)], 1)
    else ([c], 1)
  else if utf8Size c rest = 1 then (lit "\\ufffd", 1)
  else if c = 0xE2 ∧ rest.take 2 = [0x80, 0xA8] then (lit "\\u2028", 3)
  else if c = 0xE2 ∧ rest.take 2 = [0x80, 0xA9] then (lit "\\u2029", 3)
  else (c :: rest.take (utf8Size c rest - 1), utf8Size c rest)

/-- The loop that writes a string, with the skip counter of `unquoteFrom`. -/
def appendStringFrom : Nat → List UInt8 → GoString
  | _, [] => []
  | skip + 1, _ :: rest => appendStringFrom skip rest
  | 0, c :: rest => (appendStringStep c rest).1 ++ appendStringFrom ((appendStringStep c rest).2 - 1) rest

/-- JSON text of a Go string, as `Marshal` writes it (HTML escaping on). -/
def encodeString (s : GoString) : GoString := lit "\"" ++ appendStringFrom 0 s ++ lit "\""

/-- JSON text of a Go `bool`. -/
def encodeBool (b : Bool) : GoString := if b then lit "true" else lit "false"

/-- JSON text of a Go `[]string`; the `nil` slice is `null`. -/
def encodeStrings : GoSlice GoString → GoString
  | none => lit "null"
  | some xs => lit "[" ++ List.intercalate (lit ",") (xs.map encodeString) ++ lit "]"

/-- Model of `json.Marshal` at `CreateContainerBody`. -/
def MarshalCreateContainerBody (v : CreateContainerBody) : Except GoError GoString :=
  .ok (lit "\x7b\"Cmd\":" ++ encodeStrings v.Cmd ++ lit ",\"Image\":" ++ encodeString v.Image ++
    lit "\x7d")

/-- Model of `json.Marshal` at `GenerateExecInstanceBody`. -/
def MarshalGenerateExecInstanceBody (v : GenerateExecInstanceBody) : Except GoError GoString :=
  .ok (lit "\x7b\"AttachStdin\":" ++ encodeBool v.AttachStdin ++
    lit ",\"AttachStdout\":" ++ encodeBool v.AttachStdout ++
    lit ",\"AttachStderr\":" ++ encodeBool v.AttachStderr ++
    lit ",\"Tty\":" ++ encodeBool v.Tty ++
    lit ",\"Cmd\":" ++ encodeStrings v.Cmd ++ lit "\x7d")

/-- Model of `json.Marshal` at `StartExecInstance`. -/
def MarshalStartExecInstance (v : StartExecInstance) : Except GoError GoString :=
  .ok (lit "\x7b\"Detach\":" ++ encodeBool v.Detach ++ lit ",\"Tty\":" ++ encodeBool v.Tty ++ lit "\x7d")

end gojson

/-- Executable model of the package `encoding/json` at the types of the client. -/
def goJson : EncodingJson where
  MarshalCreateContainerBody := gojson.MarshalCreateContainerBody
  MarshalGenerateExecInstanceBody := gojson.MarshalGenerateExecInstanceBody
  MarshalStartExecInstance := gojson.MarshalStartExecInstance
  UnmarshalCreateContainerResponseBody :=
    gojson.Unmarshal gojson.storeCreateContainerResponseBody { ID := [], Warnings := none }
  UnmarshalCheckContainerStatusBody :=
    gojson.Unmarshal gojson.storeCheckContainerStatusBody { State := { Status := [], Running := false } }
  UnmarshalCreateExecResponseBody := gojson.Unmarshal gojson.storeCreateExecResponseBody { ID := [] }

namespace dockerclient

open httpclient GoError

/-- The struct `SimpleDocker` of `simpleDocker.go`. -/
structure SimpleDocker (σ : Type) where
  /-- Docker daemon endpoint to connect to. -/
  DockerEndpoint : GoString
  /-- Implementation of the interface `HttpClient`. -/
  HttpClient : HttpClient σ

/-- The constructor `NewSimpeDocker`. -/
def NewSimpeDocker {σ : Type} (dockerEndpoint : GoString) (httpClient : HttpClient σ) :
    SimpleDocker σ :=
  { DockerEndpoint := dockerEndpoint, HttpClient := httpClient }

/-- The method `SimpleDocker.CheckIfImageAlreadyExists` of `simpleDocker.go`. -/
def CheckIfImageAlreadyExists {σ : Type} (s : SimpleDocker σ) (dockerImage tag : GoString)
    (w : σ) : (Bool × Option GoError) × σ :=
  match s.HttpClient.Get (Sprintf "%s/images/%s:%s/json" [s.DockerEndpoint, dockerImage, tag]) [] w with
  | (.error err, w1) =>
    ((false, some (Errorf
      "there was an issue with HTTP client when performing GET on %s/images/%s:%s/json - %s"
      [s.DockerEndpoint, dockerImage, tag] err)), w1)
  | (.ok httpResponse, w1) =>
    if httpResponse.StatusCode = 200 then ((true, none), w1)
    else if httpResponse.StatusCode = 404 then ((false, none), w1)
    else ((false, some ErrDockerInternalServerError), w1)

/-- The method `SimpleDocker.PullImageFromRegistry` of `simpleDocker.go`. -/
def PullImageFromRegistry {σ : Type} (s : SimpleDocker σ) (dockerImage tag arch : GoString)
    (w : σ) : Option GoError × σ :=
  match s.HttpClient.Post
      (Sprintf "%s/images/create?fromImage=%s&tag=%s&platform=%s"
        [s.DockerEndpoint, dockerImage, tag, arch])
      [] (lit "") w with
  | (.error err, w1) =>
    (some (Errorf
      "there was an issue with HTTP client when performing POST on %s/images/create?fromImage=%s&tag=%s&platform=%s - %s"
      [s.DockerEndpoint, dockerImage, tag, arch] err), w1)
  | (.ok httpResponse, w1) =>
    if httpResponse.StatusCode = 200 then (none, w1)
    else if httpResponse.StatusCode = 404 then (some ErrImageDoesNotExist, w1)
    else (some ErrDockerInternalServerError, w1)

/-- The method `SimpleDocker.CreateContainer` of `simpleDocker.go`. -/
def CreateContainer {σ : Type} (json : EncodingJson) (s : SimpleDocker σ)
    (containerName image tag : GoString) (cmd : GoSlice GoString) (w : σ) :
    (GoString × Option GoError) × σ :=
  let httpRequestBody : models.CreateContainerBody :=
    { Cmd := cmd, Image := Sprintf "%s:%s" [image, tag] }
  match json.MarshalCreateContainerBody httpRequestBody with
  | .error err =>
    ((lit "", some (Errorf "json marshall issue when creating container - %s" [] err)), w)
  | .ok jsonBodyRequest =>
    match s.HttpClient.Post
        (Sprintf "%s/containers/create?name=%s" [s.DockerEndpoint, containerName])
        [(lit "Content-Type", lit "application/json")] jsonBodyRequest w with
    | (.error err, w1) =>
      ((lit "", some (Errorf
        "there was an issue with HTTP client performing POST on %s/containers/create?name=%s - %s"
        [s.DockerEndpoint, containerName] err)), w1)
    | (.ok httpResponse, w1) =>
      if httpResponse.StatusCode = 201 then
        match json.UnmarshalCreateContainerResponseBody httpResponse.Body with
        | .error err =>
          ((lit "", some (Errorf "json unmarshalling issue when creating container - %s" [] err)),
            w1)
        | .ok responseBody => ((responseBody.ID, none), w1)
      else if httpResponse.StatusCode = 404 then ((lit "", some ErrImageDoesNotExist), w1)
      else if httpResponse.StatusCode = 409 then ((lit "", some ErrContainerAlreadyExist), w1)
      else ((lit "", some ErrDockerInternalServerError), w1)

/-- The method `SimpleDocker.RunContainer` of `simpleDocker.go`. -/
def RunContainer {σ : Type} (s : SimpleDocker σ) (containerID : GoString) (w : σ) :
    Option GoError × σ :=
  match s.HttpClient.Post (Sprintf "%s/containers/%s/start" [s.DockerEndpoint, containerID])
      [] (lit "") w with
  | (.error err, w1) =>
    (some (Errorf
      "there was an issue with HTTP client when performing POST on %s/containers/%s/start - %s"
      [s.DockerEndpoint, containerID] err), w1)
  | (.ok httpResponse, w1) =>
    if httpResponse.StatusCode = 204 ∨ httpResponse.StatusCode = 304 then (none, w1)
    else if httpResponse.StatusCode = 404 then (some ErrContainerDoesNotExist, w1)
    else (some ErrDockerInternalServerError, w1)

/-- The method `SimpleDocker.CheckIfContainerIsReady` of `simpleDocker.go`. -/
def CheckIfContainerIsReady {σ : Type} (json : EncodingJson) (s : SimpleDocker σ)
    (containerID : GoString) (w : σ) : (Bool × Option GoError) × σ :=
  match s.HttpClient.Get (Sprintf "%s/containers/%s/json" [s.DockerEndpoint, containerID]) [] w with
  | (.error err, w1) =>
    ((false, some (Errorf
      "there was an issue with HTTP client when performing GET on %s/containers/%s/json - %s"
      [s.DockerEndpoint, containerID] err)), w1)
  | (.ok httpResponse, w1) =>
    if httpResponse.StatusCode = 200 then
      match json.UnmarshalCheckContainerStatusBody httpResponse.Body with
      | .error err =>
        ((false, some (Errorf
          "json unmarshalling issue when checking if container ready - %s" [] err)), w1)
      | .ok containerStatus =>
        if containerStatus.State.Status = lit "running" then ((true, none), w1)
        else ((false, none), w1)
    else if httpResponse.StatusCode = 404 then ((false, some ErrContainerDoesNotExist), w1)
    else ((false, some ErrDockerInternalServerError), w1)

/-- The method `SimpleDocker.GenerateExecInstance` of `simpleDocker.go`. -/
def GenerateExecInstance {σ : Type} (json : EncodingJson) (s : SimpleDocker σ)
    (containerID : GoString) (commands : GoSlice GoString) (w : σ) :
    (GoString × Option GoError) × σ :=
  let httpRequestBody : models.GenerateExecInstanceBody :=
    { AttachStdin := false, AttachStdout := true, AttachStderr := true, Tty := true,
      Cmd := commands }
  match json.MarshalGenerateExecInstanceBody httpRequestBody with
  | .error err =>
    ((lit "", some (Errorf "json marshall issue when generating exec instance - %s" [] err)), w)
  | .ok jsonBodyRequest =>
    match s.HttpClient.Post (Sprintf "%s/containers/%s/exec" [s.DockerEndpoint, containerID])
        [(lit "Content-Type", lit "application/json")] jsonBodyRequest w with
    | (.error err, w1) =>
      ((lit "", some (Errorf
        "there was an issue with HTTP client when performing POST on %s/containers/%s/exec - %s"
        [s.DockerEndpoint, containerID] err)), w1)
    | (.ok httpResponse, w1) =>
      if httpResponse.StatusCode = 201 then
        match json.UnmarshalCreateExecResponseBody httpResponse.Body with
        | .error err =>
          ((lit "", some (Errorf
            "json unmarshalling issue when generating exec instance - %s" [] err)), w1)
        | .ok responseBody => ((responseBody.ID, none), w1)
      else if httpResponse.StatusCode = 404 then ((lit "", some ErrContainerDoesNotExist), w1)
      else if httpResponse.StatusCode = 409 then ((lit "", some ErrContainerIsStopped), w1)
      else ((lit "", some ErrDockerInternalServerError), w1)

/-- The method `SimpleDocker.StartExecInstance` of `simpleDocker.go`. -/
def StartExecInstance {σ : Type} (json : EncodingJson) (s : SimpleDocker σ)
    (execInstanceID : GoString) (w : σ) : (GoString × Option GoError) × σ :=
  let httpRequestBody : models.StartExecInstance := { Detach := false, Tty := true }
  match json.MarshalStartExecInstance httpRequestBody with
  | .error err =>
    ((lit "", some (Errorf "json marshalling issue when starting exec instance - %s" [] err)), w)
  | .ok jsonBodyRequest =>
    match s.HttpClient.Post (Sprintf "%s/exec/%s/start" [s.DockerEndpoint, execInstanceID])
        [(lit "Content-Type", lit "application/json")] jsonBodyRequest w with
    | (.error err, w1) =>
      ((lit "", some (Errorf
        "there was an issue with HTTP client when performing POST on %s/exec/%s/start - %s"
        [s.DockerEndpoint, execInstanceID] err)), w1)
    | (.ok httpResponse, w1) =>
      if httpResponse.StatusCode = 200 then ((httpResponse.Body, none), w1)
      else if httpResponse.StatusCode = 404 then ((lit "", some ErrExecInstanceDoesNotExist), w1)
      else if httpResponse.StatusCode = 409 then ((lit "", some ErrContainerIsStopped), w1)
      else ((lit "", some ErrDockerInternalServerError), w1)

/-- The method `SimpleDocker.StopContainer` of `simpleDocker.go`. -/
def StopContainer {σ : Type} (s : SimpleDocker σ) (containerID : GoString) (w : σ) :
    (Bool × Option GoError) × σ :=
  match s.HttpClient.Post (Sprintf "%s/containers/%s/stop" [s.DockerEndpoint, containerID])
      [] (lit "") w with
  | (.error err, w1) =>
    ((false, some (Errorf
      "there was an issue with HTTP client when performing POST on %s/containers/%s/stop - %s"
      [s.DockerEndpoint, containerID] err)), w1)
  | (.ok httpResponse, w1) =>
    if httpResponse.StatusCode = 204 then ((true, none), w1)
    else if httpResponse.StatusCode = 304 then ((false, none), w1)
    else if httpResponse.StatusCode = 404 then ((false, some ErrContainerDoesNotExist), w1)
    else ((false, some ErrDockerInternalServerError), w1)

/-- The method `SimpleDocker.RemoveContainer` of `simpleDocker.go`. -/
def RemoveContainer {σ : Type} (s : SimpleDocker σ) (containerID : GoString) (w : σ) :
    Option GoError × σ :=
  match s.HttpClient.Delete (Sprintf "%s/containers/%s" [s.DockerEndpoint, containerID]) [] w with
  | (.error err, w1) =>
    (some (Errorf
      "there was an issue with HTTP client when performing DELETE on %s/containers/%s - %s"
      [s.DockerEndpoint, containerID] err), w1)
  | (.ok httpResponse, w1) =>
    if httpResponse.StatusCode = 204 then (none, w1)
    else if httpResponse.StatusCode = 404 then (some ErrContainerDoesNotExist, w1)
    else if httpResponse.StatusCode = 409 then (some ErrContainerIsRunning, w1)
    else (some ErrDockerInternalServerError, w1)

end dockerclient

/-!
## The interface `Docker` and observers

The driver in `cmd/dockermanager` talks to the daemon through the interface
`Docker` of `docker.go`.  Two observers are used to state what a run does:
`recorder` is an `HttpClient` that keeps the list of the calls made to it, and
`traced` wraps a `Docker` so that the world also holds the list of the calls
made, each with its arguments and its result.
-/

namespace httpclient

/-- A call of a method of the interface `HttpClient`, with its arguments. -/
inductive Request where
  | Get (urlEndpoint : GoString) (headers : Headers)
  | Post (urlEndpoint : GoString) (headers : Headers) (body : GoString)
  | Delete (urlEndpoint : GoString) (headers : Headers)
  deriving DecidableEq, Repr

/-- An `HttpClient` whose world is the list of the calls made to it so far, in
order.  The result of a call is `answer log request`, where `log` holds the
earlier calls. -/
def recorder (answer : List Request → Request → Except GoError HttpResponse) :
    HttpClient (List Request) where
  Get := fun urlEndpoint headers log =>
    (answer log (.Get urlEndpoint headers), log ++ [.Get urlEndpoint headers])
  Post := fun urlEndpoint headers body log =>
    (answer log (.Post urlEndpoint headers body), log ++ [.Post urlEndpoint headers body])
  Delete := fun urlEndpoint headers log =>
    (answer log (.Delete urlEndpoint headers), log ++ [.Delete urlEndpoint headers])

/-- The policy of a daemon that gives the answers of `script` in turn, and
refuses the connection once the script is over. -/
def scripted (script : List (Except GoError HttpResponse)) (log : List Request) (_ : Request) :
    Except GoError HttpResponse :=
  (script.get? log.length).getD (.error (.other (lit "connection refused")))

end httpclient

namespace dockerclient

open httpclient GoError

/-- The interface `Docker` of `docker.go`, over a world of type `σ`. -/
structure Docker (σ : Type) where
  CheckIfImageAlreadyExists : (dockerImage tag : GoString) → σ → (Bool × Option GoError) × σ
  PullImageFromRegistry : (dockerImage tag arch : GoString) → σ → Option GoError × σ
  CreateContainer : (containerName image tag : GoString) → (cmd : GoSlice GoString) → σ →
    (GoString × Option GoError) × σ
  RunContainer : (containerID : GoString) → σ → Option GoError × σ
  CheckIfContainerIsReady : (containerID : GoString) → σ → (Bool × Option GoError) × σ
  GenerateExecInstance : (containerID : GoString) → (commands : GoSlice GoString) → σ →
    (GoString × Option GoError) × σ
  StartExecInstance : (execInstanceID : GoString) → σ → (GoString × Option GoError) × σ
  StopContainer : (containerID : GoString) → σ → (Bool × Option GoError) × σ
  RemoveContainer : (containerID : GoString) → σ → Option GoError × σ

/-- The struct `SimpleDocker` as an implementation of the interface `Docker`. -/
def asDocker {σ : Type} (json : EncodingJson) (s : SimpleDocker σ) : Docker σ where
  CheckIfImageAlreadyExists := CheckIfImageAlreadyExists s
  PullImageFromRegistry := PullImageFromRegistry s
  CreateContainer := CreateContainer json s
  RunContainer := RunContainer s
  CheckIfContainerIsReady := CheckIfContainerIsReady json s
  GenerateExecInstance := GenerateExecInstance json s
  StartExecInstance := StartExecInstance json s
  StopContainer := StopContainer s
  RemoveContainer := RemoveContainer s

/-- A call of a method of the interface `Docker`: its arguments and what it
returned. -/
inductive Call where
  | CheckIfImageAlreadyExists (dockerImage tag : GoString) (result : Bool × Option GoError)
  | PullImageFromRegistry (dockerImage tag arch : GoString) (err : Option GoError)
  | CreateContainer (containerName image tag : GoString) (cmd : GoSlice GoString)
      (result : GoString × Option GoError)
  | RunContainer (containerID : GoString) (err : Option GoError)
  | CheckIfContainerIsReady (containerID : GoString) (result : Bool × Option GoError)
  | GenerateExecInstance (containerID : GoString) (commands : GoSlice GoString)
      (result : GoString × Option GoError)
  | StartExecInstance (execInstanceID : GoString) (result : GoString × Option GoError)
  | StopContainer (containerID : GoString) (result : Bool × Option GoError)
  | RemoveContainer (containerID : GoString) (err : Option GoError)
  deriving DecidableEq, Repr

/-- The error a call returned. -/
def Call.err : Call → Option GoError
  | .CheckIfImageAlreadyExists _ _ result => result.2
  | .PullImageFromRegistry _ _ _ err => err
  | .CreateContainer _ _ _ _ result => result.2
  | .RunContainer _ err => err
  | .CheckIfContainerIsReady _ result => result.2
  | .GenerateExecInstance _ _ result => result.2
  | .StartExecInstance _ result => result.2
  | .StopContainer _ result => result.2
  | .RemoveContainer _ err => err

/-- Whether a call is one of the two calls of the teardown. -/
def Call.isTeardown : Call → Bool
  | .StopContainer _ _ => true
  | .RemoveContainer _ _ => true
  | _ => false

/-- The client `d` with every call written down: the world is that of `d`
next to the list of the calls made so far, in order. -/
def traced {σ : Type} (d : Docker σ) : Docker (σ × List Call) where
  CheckIfImageAlreadyExists := fun dockerImage tag w =>
    ((d.CheckIfImageAlreadyExists dockerImage tag w.1).1,
      ((d.CheckIfImageAlreadyExists dockerImage tag w.1).2,
        w.2 ++ [.CheckIfImageAlreadyExists dockerImage tag
          (d.CheckIfImageAlreadyExists dockerImage tag w.1).1]))
  PullImageFromRegistry := fun dockerImage tag arch w =>
    ((d.PullImageFromRegistry dockerImage tag arch w.1).1,
      ((d.PullImageFromRegistry dockerImage tag arch w.1).2,
        w.2 ++ [.PullImageFromRegistry dockerImage tag arch
          (d.PullImageFromRegistry dockerImage tag arch w.1).1]))
  CreateContainer := fun containerName image tag cmd w =>
    ((d.CreateContainer containerName image tag cmd w.1).1,
      ((d.CreateContainer containerName image tag cmd w.1).2,
        w.2 ++ [.CreateContainer containerName image tag cmd
          (d.CreateContainer containerName image tag cmd w.1).1]))
  RunContainer := fun containerID w =>
    ((d.RunContainer containerID w.1).1,
      ((d.RunContainer containerID w.1).2,
        w.2 ++ [.RunContainer containerID (d.RunContainer containerID w.1).1]))
  CheckIfContainerIsReady := fun containerID w =>
    ((d.CheckIfContainerIsReady containerID w.1).1,
      ((d.CheckIfContainerIsReady containerID w.1).2,
        w.2 ++ [.CheckIfContainerIsReady containerID (d.CheckIfContainerIsReady containerID w.1).1]))
  GenerateExecInstance := fun containerID commands w =>
    ((d.GenerateExecInstance containerID commands w.1).1,
      ((d.GenerateExecInstance containerID commands w.1).2,
        w.2 ++ [.GenerateExecInstance containerID commands
          (d.GenerateExecInstance containerID commands w.1).1]))
  StartExecInstance := fun execInstanceID w =>
    ((d.StartExecInstance execInstanceID w.1).1,
      ((d.StartExecInstance execInstanceID w.1).2,
        w.2 ++ [.StartExecInstance execInstanceID (d.StartExecInstance execInstanceID w.1).1]))
  StopContainer := fun containerID w =>
    ((d.StopContainer containerID w.1).1,
      ((d.StopContainer containerID w.1).2,
        w.2 ++ [.StopContainer containerID (d.StopContainer containerID w.1).1]))
  RemoveContainer := fun containerID w =>
    ((d.RemoveContainer containerID w.1).1,
      ((d.RemoveContainer containerID w.1).2,
        w.2 ++ [.RemoveContainer containerID (d.RemoveContainer containerID w.1).1]))

end dockerclient

/-!
## The driver `cmd/dockermanager`

A run of the driver is decided by its command line and environment, by the
client, and by what the Go scheduler and the terminal do.  The last part is
an input of the model, a `Schedule`: the ticker events the readiness loop
selects, the lines on standard input, and the number of ticks the display loop
selects before it receives the shutdown signal.  A schedule is finite; a run
that is still waiting when its schedule is used up has the outcome `running`.
-/

namespace dockermanager

open httpclient dockerclient

/-- The constant `DockerImage` of `main.go`. -/
def DockerImage : GoString := lit "ubuntu"

/-- The constant `DockerImageTag` of `main.go`. -/
def DockerImageTag : GoString := lit "20.04"

/-- The constant `DockerImageArch` of `main.go`. -/
def DockerImageArch : GoString := lit "x86-64"

/-- The constant `DockerContainerName` of `main.go`. -/
def DockerContainerName : GoString := lit "ubuntu2004"

/-- The constant `DefaultDockerEndpoint` of `main.go`. -/
def DefaultDockerEndpoint : GoString := lit "http://localhost:2375"

/-- What the process writes: a message handed to the package `log`, an error
handed to it, a text written to the live terminal writer, or the usage text. -/
inductive Output where
  | log (text : GoString)
  | logError (err : GoError)
  | screen (text : GoString)
  | usage
  deriving DecidableEq, Repr

/-- How a run ends: `main` returns, `log.Fatal` exits the process, or the run
is still going when its schedule is used up. -/
inductive Outcome where
  | returned
  | fatal
  | running
  deriving DecidableEq, Repr

/-- State of the process: the world of the client and what was written so
far, in order. -/
structure Process (σ : Type) where
  world : σ
  output : List Output

/-- Result of a part of `main`: go on with a value, or the run has ended. -/
inductive Flow (α : Type) where
  | next (a : α)
  | halt (o : Outcome)

/-- The channel a `select` of the readiness loop receives from. -/
inductive ReadyEvent where
  | timeout
  | check
  deriving DecidableEq, Repr

/-- What the scheduler and the terminal contribute to a run. -/
structure Schedule where
  /-- Ticker events selected by the readiness loop, in order. -/
  ready : List ReadyEvent
  /-- Lines the scanner reads from standard input, in order. -/
  stdin : List GoString
  /-- Number of ticks the display loop selects before it selects `done`. -/
  ticks : Nat

/-- Command line and environment, as `flag.Parse` and `os.LookupEnv` see them. -/
structure Invocation where
  /-- Value of the flag `-h`. -/
  h : Bool
  /-- Value of the flag `-e`, when the flag is given. -/
  e : Option GoString
  /-- Value of the variable `DOCKER_MANAGER_ENDPOINT`, when it is present. -/
  env : Option GoString

/-- Write `o`. -/
def Process.print {σ : Type} (p : Process σ) (o : Output) : Process σ :=
  { p with output := p.output ++ [o] }

/-- The call `log.Fatal(err)`: the error is logged and the process exits. -/
def logFatal {σ α : Type} (err : GoError) (p : Process σ) : Flow α × Process σ :=
  (.halt .fatal, p.print (.logError err))

/-- The function `readKeyboardEvent` of `main.go`, on the lines the scanner
yields: the values sent on the channel `done` and the lines left unread. -/
def readKeyboardEvent : List GoString → List Bool × List GoString
  | [] => ([], [])
  | text :: rest => if text = lit "e" then ([true], rest) else readKeyboardEvent rest

/-- The function `executeCommandAndPrint` of `main.go`.  Its `select` takes
the ticker `ticks` times, then the channel `done` if a value is sent on it. -/
def executeCommandAndPrint {σ : Type} (dockerClient : Docker σ) (containerID : GoString)
    (done : List Bool) : Nat → Process σ → Flow Unit × Process σ
  | 0, p =>
    match done with
    | [] => (.halt .running, p)
    | _ :: _ => (.next (), p)
  | ticks + 1, p =>
    match dockerClient.GenerateExecInstance containerID
        (some [lit "/bin/sh", lit "-c", lit "top -b -n 1 | head -4 | tail -2"]) p.world with
    | ((_, some err), w1) => logFatal err { p with world := w1 }
    | ((execID, none), w1) =>
      match dockerClient.StartExecInstance execID w1 with
      | ((_, some err), w2) => logFatal err { p with world := w2 }
      | ((output, none), w2) =>
        executeCommandAndPrint dockerClient containerID done ticks
          (Process.print { p with world := w2 }
            (.screen (Sprintf "Type \"e\" and press ENTER to finish\n%s" [output])))

/-- Lines 55 to 66 of `main`: the image is looked up, and pulled when it is
not there. -/
def ensureImage {σ : Type} (dockerClient : Docker σ) (p : Process σ) : Flow Unit × Process σ :=
  match dockerClient.CheckIfImageAlreadyExists DockerImage DockerImageTag p.world with
  | ((_, some err), w1) => logFatal err { p with world := w1 }
  | ((true, none), w1) => (.next (), { p with world := w1 })
  | ((false, none), w1) =>
    match dockerClient.PullImageFromRegistry DockerImage DockerImageTag DockerImageArch w1 with
    | (some err, w2) =>
      logFatal err { world := w2, output := p.output ++
        [.log (Sprintf "couldn't find image %s:%s locally, downloading..."
          [DockerImage, DockerImageTag])] }
    | (none, w2) =>
      (.next (), { world := w2, output := p.output ++
        [.log (Sprintf "couldn't find image %s:%s locally, downloading..."
          [DockerImage, DockerImageTag])] })

/-- Lines 68 to 77 of `main`: the container is created and started. -/
def createAndRun {σ : Type} (dockerClient : Docker σ) (p : Process σ) :
    Flow GoString × Process σ :=
  match dockerClient.CreateContainer DockerContainerName DockerImage DockerImageTag
      (some [lit "sleep", lit "infinity"]) p.world with
  | ((_, some err), w1) =>
    logFatal err { world := w1, output := p.output ++
      [.log (Sprintf "initiating container %s from image %s:%s"
        [DockerContainerName, DockerImage, DockerImageTag])] }
  | ((containerID, none), w1) =>
    match dockerClient.RunContainer containerID w1 with
    | (some err, w2) =>
      logFatal err { world := w2, output := p.output ++
        [.log (Sprintf "initiating container %s from image %s:%s"
          [DockerContainerName, DockerImage, DockerImageTag])] }
    | (none, w2) =>
      (.next containerID, { world := w2, output := p.output ++
        [.log (Sprintf "initiating container %s from image %s:%s"
          [DockerContainerName, DockerImage, DockerImageTag])] })

/-- The loop labelled `out` of `main` (lines 82 to 96), on the ticker events
its `select` receives. -/
def waitLoop {σ : Type} (dockerClient : Docker σ) (containerID : GoString) :
    List ReadyEvent → Process σ → Flow Unit × Process σ
  | [], p => (.halt .running, p)
  | .timeout :: _, p =>
    (.halt .fatal,
      p.print (.log (lit "the container didn't get into running status for 180s")))
  | .check :: rest, p =>
    match dockerClient.CheckIfContainerIsReady containerID p.world with
    | ((_, some err), w1) => logFatal err { p with world := w1 }
    | ((true, none), w1) => (.next (), { p with world := w1 })
    | ((false, none), w1) => waitLoop dockerClient containerID rest { p with world := w1 }

/-- Lines 79 to 96 of `main`: the wait for the container to be running. -/
def waitReady {σ : Type} (dockerClient : Docker σ) (containerID : GoString)
    (events : List ReadyEvent) (p : Process σ) : Flow Unit × Process σ :=
  waitLoop dockerClient containerID events
    (p.print (.log (lit "waiting for container to be in running state...")))

/-- Lines 98 to 110 of `main`: the two goroutines and the wait for both.
The display loop returns once it has received the signal the keyboard loop
sends, and by then the keyboard loop has returned too. -/
def interactive {σ : Type} (dockerClient : Docker σ) (containerID : GoString)
    (sched : Schedule) (p : Process σ) : Flow Unit × Process σ :=
  executeCommandAndPrint dockerClient containerID (readKeyboardEvent sched.stdin).1
    sched.ticks p

/-- Lines 112 to 122 of `main`: the container is stopped and removed. -/
def teardown {σ : Type} (dockerClient : Docker σ) (containerID : GoString) (p : Process σ) :
    Outcome × Process σ :=
  match dockerClient.StopContainer containerID p.world with
  | ((_, some err), w1) =>
    (.fatal, { world := w1, output := p.output ++
      [.log (lit "Stopping the container, please wait..."), .logError err] })
  | ((_, none), w1) =>
    match dockerClient.RemoveContainer containerID w1 with
    | (some err, w2) =>
      (.fatal, { world := w2, output := p.output ++
        [.log (lit "Stopping the container, please wait..."),
          .log (lit "Removing the container, please wait..."), .logError err] })
    | (none, w2) =>
      (.returned, { world := w2, output := p.output ++
        [.log (lit "Stopping the container, please wait..."),
          .log (lit "Removing the container, please wait...")] })

/-- Lines 55 to 122 of `main`, for a client `dockerClient`. -/
def mainBody {σ : Type} (dockerClient : Docker σ) (sched : Schedule) (p : Process σ) :
    Outcome × Process σ :=
  match ensureImage dockerClient p with
  | (.halt o, p1) => (o, p1)
  | (.next (), p1) =>
    match createAndRun dockerClient p1 with
    | (.halt o, p2) => (o, p2)
    | (.next containerID, p2) =>
      match waitReady dockerClient containerID sched.ready p2 with
      | (.halt o, p3) => (o, p3)
      | (.next (), p3) =>
        match interactive dockerClient containerID sched p3 with
        | (.halt o, p4) => (o, p4)
        | (.next (), p4) => teardown dockerClient containerID p4

/-- The function `main` of `main.go`.  The HTTP client that
`httpclient.NewSimpleHttpClient()` returns is the parameter `httpClient`. -/
def main {σ : Type} (json : EncodingJson) (httpClient : HttpClient σ) (inv : Invocation)
    (sched : Schedule) (w : σ) : Outcome × Process σ :=
  let printHelp := inv.h
  let dockerEndpoint := inv.e.getD DefaultDockerEndpoint
  if printHelp then (.returned, { world := w, output := [.usage] })
  else
    let dockerEndpoint :=
      match inv.env with
      | some envVar => envVar
      | none => dockerEndpoint
    let simpleHttpClient := httpClient
    let dockerClient := NewSimpeDocker dockerEndpoint simpleHttpClient
    mainBody (asDocker json dockerClient) sched
      { world := w, output := [.log (Sprintf "docker manager set to %s" [dockerEndpoint])] }

/-- The world after `n` calls of `CheckIfContainerIsReady` in a row that all
return `(false, nil)`; `none` when one of them returns something else. -/
def stillWaiting {σ : Type} (dockerClient : Docker σ) (containerID : GoString) :
    Nat → σ → Option σ
  | 0, w => some w
  | n + 1, w =>
    match dockerClient.CheckIfContainerIsReady containerID w with
    | ((false, none), w1) => stillWaiting dockerClient containerID n w1
    | _ => none

/-- No call of the list returned an error. -/
def Clean (calls : List Call) : Prop := ∀ c ∈ calls, c.err = none

instance (calls : List Call) : Decidable (Clean calls) :=
  inferInstanceAs (Decidable (∀ c ∈ calls, c.err = none))

/-- The last call of the list returned an error, no call before it did, and
that error is the last thing the process wrote, through `log.Fatal`. -/
def FailedAt (calls : List Call) (output : List Output) : Prop :=
  ∃ before c err, calls = before ++ [c] ∧ Clean before ∧ c.err = some err ∧
    output.getLast? = some (.logError err)

/-- The calls of `ticks` rounds of the display loop without error: for each
round the exec ID created and the output of its start. -/
def execRounds (containerID : GoString) (rounds : List (GoString × GoString)) : List Call :=
  rounds.flatMap fun r =>
    [.GenerateExecInstance containerID
        (some [lit "/bin/sh", lit "-c", lit "top -b -n 1 | head -4 | tail -2"]) (r.1, none),
      .StartExecInstance r.1 (r.2, none)]

/-- The calls of a run up to the start of the container, with no error: the
image is looked up, and pulled when it was not found, and the container is
created and started. -/
def callsUntilStarted (found : Bool) (containerID : GoString) : List Call :=
  .CheckIfImageAlreadyExists DockerImage DockerImageTag (found, none) ::
    (if found then []
      else [.PullImageFromRegistry DockerImage DockerImageTag DockerImageArch none]) ++
  [.CreateContainer DockerContainerName DockerImage DockerImageTag
      (some [lit "sleep", lit "infinity"]) (containerID, none),
    .RunContainer containerID none]

/-- The calls of a run up to the end of the display loop, with no error:
those of `callsUntilStarted`, then the container is found not running `n`
times and running once, and the display loop goes through `rounds`. -/
def callsUntilShutdown (found : Bool) (containerID : GoString) (n : Nat)
    (rounds : List (GoString × GoString)) : List Call :=
  callsUntilStarted found containerID ++
  (List.replicate n (.CheckIfContainerIsReady containerID (false, none)) ++
    [.CheckIfContainerIsReady containerID (true, none)]) ++
  execRounds containerID rounds

/-- Every method of the client `d`, whose world is a list, only adds to the
end of that list. -/
def Extending {α : Type} (d : Docker (List α)) : Prop :=
  (∀ dockerImage tag w, ∃ more, (d.CheckIfImageAlreadyExists dockerImage tag w).2 = w ++ more) ∧
  (∀ dockerImage tag arch w, ∃ more,
    (d.PullImageFromRegistry dockerImage tag arch w).2 = w ++ more) ∧
  (∀ containerName image tag cmd w, ∃ more,
    (d.CreateContainer containerName image tag cmd w).2 = w ++ more) ∧
  (∀ containerID w, ∃ more, (d.RunContainer containerID w).2 = w ++ more) ∧
  (∀ containerID w, ∃ more, (d.CheckIfContainerIsReady containerID w).2 = w ++ more) ∧
  (∀ containerID commands w, ∃ more,
    (d.GenerateExecInstance containerID commands w).2 = w ++ more) ∧
  (∀ execInstanceID w, ∃ more, (d.StartExecInstance execInstanceID w).2 = w ++ more) ∧
  (∀ containerID w, ∃ more, (d.StopContainer containerID w).2 = w ++ more) ∧
  (∀ containerID w, ∃ more, (d.RemoveContainer containerID w).2 = w ++ more)

end dockermanager

/-!
## Concrete clients

`cannedClient answer` gives `answer` to every request and counts the requests
it has served; the world is that count.
-/

namespace dockerclient

open httpclient GoError

/-- An `HttpClient` that answers every request with `answer`; its world is
the number of requests served. -/
def cannedClient (answer : Except GoError HttpResponse) : HttpClient Nat where
  Get := fun _ _ n => (answer, n + 1)
  Post := fun _ _ _ n => (answer, n + 1)
  Delete := fun _ _ n => (answer, n + 1)

/-- The client of the tests: `SimpleDocker` on the endpoint
`http://localhost:2375`, here over a daemon that answers `answer`. -/
def cannedDocker (answer : Except GoError HttpResponse) : SimpleDocker Nat :=
  NewSimpeDocker (lit "http://localhost:2375") (cannedClient answer)

/-- Body of the daemon's answer to the inspection of a running container
(abridged). -/
def inspectRunningBody : GoString :=
  lit "\x7b\"Id\":\"e90e34656806\",\"State\":\x7b\"Status\":\"running\",\"Running\":true,\"Pid\":4242\x7d,\"Args\":[\"infinity\"]\x7d"

/-- Body of the daemon's answer to the creation of a container. -/
def createdBody : GoString := lit "\x7b\"Id\":\"e90e34656806\",\"Warnings\":[]\x7d"

end dockerclient

namespace dockermanager

open httpclient dockerclient

/-- Body of the daemon's answer to the creation of an exec instance. -/
def execCreatedBody : GoString := lit "\x7b\"Id\":\"29a8f3b1\"\x7d"

/-- Body of the daemon's answer to the inspection of a container that is
created and not yet running (abridged). -/
def createdStateBody : GoString :=
  lit "\x7b\"Id\":\"e90e34656806\",\"State\":\x7b\"Status\":\"created\",\"Running\":false\x7d\x7d"

/-- Output of the command the display loop runs (abridged). -/
def topOutput : GoString := lit "  PID USER      PR  NI\r\n    1 root      20   0\r\n"

/-- Answers of a daemon on a run where all goes well: the image is there, the
container is created and started, is found running at the first check, one
exec instance is created and started, the container is stopped and removed. -/
def fullScript : List (Except GoError HttpResponse) :=
  [.ok { StatusCode := 200, Body := [] },
    .ok { StatusCode := 201, Body := createdBody },
    .ok { StatusCode := 204, Body := [] },
    .ok { StatusCode := 200, Body := inspectRunningBody },
    .ok { StatusCode := 201, Body := execCreatedBody },
    .ok { StatusCode := 200, Body := topOutput },
    .ok { StatusCode := 204, Body := [] },
    .ok { StatusCode := 204, Body := [] }]

/-- Answers of a daemon that fails, with status 500, the creation of the
first exec instance of the display loop. -/
def failingExecScript : List (Except GoError HttpResponse) :=
  [.ok { StatusCode := 200, Body := [] },
    .ok { StatusCode := 201, Body := createdBody },
    .ok { StatusCode := 204, Body := [] },
    .ok { StatusCode := 200, Body := inspectRunningBody },
    .ok { StatusCode := 500, Body := [] }]

/-- Answers of a daemon on a run where all goes well until the container is
to be stopped: the stop is answered with status 404. -/
def failingStopScript : List (Except GoError HttpResponse) :=
  [.ok { StatusCode := 200, Body := [] },
    .ok { StatusCode := 201, Body := createdBody },
    .ok { StatusCode := 204, Body := [] },
    .ok { StatusCode := 200, Body := inspectRunningBody },
    .ok { StatusCode := 201, Body := execCreatedBody },
    .ok { StatusCode := 200, Body := topOutput },
    .ok { StatusCode := 404, Body := [] }]

/-- The container is checked once, one tick of the display loop is taken, and
the user types `e`. -/
def oneTickSchedule : Schedule := { ready := [.check], stdin := [lit "e"], ticks := 1 }

/-- The client of a run on the endpoint `endpoint` over a daemon that follows
`script`, with the calls to the client and the requests both written down. -/
def scriptedDocker (endpoint : GoString) (script : List (Except GoError HttpResponse)) :
    Docker (List Request × List Call) :=
  traced (asDocker goJson (NewSimpeDocker endpoint (recorder (scripted script))))

/-- The process when `main` has set up its client, nothing being called yet. -/
def atStart : Process (List Request × List Call) := { world := ([], []), output := [] }

/-- The run on `fullScript` after `ensureImage`. -/
def fullRun1 : Process (List Request × List Call) :=
  (ensureImage (scriptedDocker DefaultDockerEndpoint fullScript) atStart).2

/-- The run on `fullScript` after `createAndRun`. -/
def fullRun2 : Process (List Request × List Call) :=
  (createAndRun (scriptedDocker DefaultDockerEndpoint fullScript) fullRun1).2

/-- The run on `fullScript` after `waitReady`. -/
def fullRun3 : Process (List Request × List Call) :=
  (waitReady (scriptedDocker DefaultDockerEndpoint fullScript) (lit "e90e34656806")
    oneTickSchedule.ready fullRun2).2

/-- The run on `fullScript` after `interactive`. -/
def fullRun4 : Process (List Request × List Call) :=
  (interactive (scriptedDocker DefaultDockerEndpoint fullScript) (lit "e90e34656806")
    oneTickSchedule fullRun3).2

end dockermanager

namespace dockerclient

open httpclient GoError

/-!
## Checks of the model of `encoding/json`
-/

/-- The daemon spells the key `Id`; it is matched with the field `ID` up to
case, and members that match no field are skipped. -/
theorem goJson_key_up_to_case :
    goJson.UnmarshalCreateExecResponseBody (lit "\x7b\"Id\":\"29a8f3b1\",\"Extra\":[1,2.5e3,null]\x7d")
      = .ok { ID := lit "29a8f3b1" } := rfl

/-- An object without the member, and `null`, leave the struct at its zero
value and are no error. -/
theorem goJson_absent_member :
    goJson.UnmarshalCreateContainerResponseBody (lit "\x7b\x7d")
      = .ok { ID := lit "", Warnings := none } ∧
    goJson.UnmarshalCreateContainerResponseBody (lit "null")
      = .ok { ID := lit "", Warnings := none } := ⟨rfl, rfl⟩

/-- A text that is cut short, or is followed by more text, is a syntax error. -/
theorem goJson_syntax_error :
    goJson.UnmarshalCreateContainerResponseBody (lit "\x7b\"Id\":\"e90e") = .error .SyntaxError ∧
    goJson.UnmarshalCreateContainerResponseBody (lit "\x7b\x7d\x7b\x7d") = .error .SyntaxError ∧
    goJson.UnmarshalCreateContainerResponseBody (lit "") = .error .SyntaxError :=
  ⟨rfl, rfl, rfl⟩

/-- A member whose value does not fit its field, and a text that is no
object, are type errors. -/
theorem goJson_type_error :
    goJson.UnmarshalCreateContainerResponseBody (lit "\x7b\"Id\":5\x7d")
      = .error .UnmarshalTypeError ∧
    goJson.UnmarshalCheckContainerStatusBody (lit "\x7b\"State\":\"running\"\x7d")
      = .error .UnmarshalTypeError ∧
    goJson.UnmarshalCreateContainerResponseBody (lit "[]") = .error .UnmarshalTypeError :=
  ⟨rfl, rfl, rfl⟩

/-- The three request bodies of the driver, as they are written. -/
theorem goJson_request_bodies :
    goJson.MarshalCreateContainerBody
      { Cmd := some [lit "sleep", lit "infinity"], Image := lit "ubuntu:20.04" }
      = .ok (lit "\x7b\"Cmd\":[\"sleep\",\"infinity\"],\"Image\":\"ubuntu:20.04\"\x7d") ∧
    goJson.MarshalGenerateExecInstanceBody
      { AttachStdin := false, AttachStdout := true, AttachStderr := true, Tty := true,
        Cmd := some [lit "/bin/sh", lit "-c", lit "top -b -n 1 | head -4 | tail -2"] }
      = .ok (lit "\x7b\"AttachStdin\":false,\"AttachStdout\":true,\"AttachStderr\":true,\"Tty\":true,\"Cmd\":[\"/bin/sh\",\"-c\",\"top -b -n 1 | head -4 | tail -2\"]\x7d") ∧
    goJson.MarshalStartExecInstance { Detach := false, Tty := true }
      = .ok (lit "\x7b\"Detach\":false,\"Tty\":true\x7d") :=
  ⟨rfl, rfl, rfl⟩

/-!
## Status-code contracts
-/

/-- C1. `StopContainer`, for every container ID and every response the HTTP
client returns without error: `(true, nil)` on status 204, `(false, nil)` on
304, `(false, ErrContainerDoesNotExist)` on 404, and
`(false, ErrDockerInternalServerError)` on every other status code, 500 among
them. -/
theorem StopContainer_status_contract {σ : Type} (s : SimpleDocker σ) (containerID : GoString)
    (w w1 : σ) (httpResponse : HttpResponse)
    (h : s.HttpClient.Post (Sprintf "%s/containers/%s/stop" [s.DockerEndpoint, containerID])
      [] (lit "") w = (.ok httpResponse, w1)) :
    (httpResponse.StatusCode = 204 → StopContainer s containerID w = ((true, none), w1)) ∧
    (httpResponse.StatusCode = 304 → StopContainer s containerID w = ((false, none), w1)) ∧
    (httpResponse.StatusCode = 404 →
      StopContainer s containerID w = ((false, some ErrContainerDoesNotExist), w1)) ∧
    (httpResponse.StatusCode ≠ 204 → httpResponse.StatusCode ≠ 304 →
      httpResponse.StatusCode ≠ 404 →
      StopContainer s containerID w = ((false, some ErrDockerInternalServerError), w1)) ∧
    (httpResponse.StatusCode = 500 →
      StopContainer s containerID w = ((false, some ErrDockerInternalServerError), w1)) := by
  unfold StopContainer
  rw [h]
  refine ⟨?_, ?_, ?_, ?_, ?_⟩
  · intro h204
    simp [h204]
  · intro h304
    simp [h304]
  · intro h404
    simp [h404]
  · intro n204 n304 n404
    simp [n204, n304, n404]
  · intro h500
    simp [h500]

/-- Witness of C1: a daemon answering 204 to the stop request. -/
theorem StopContainer_status_contract_witness :
    StopContainer (cannedDocker (.ok { StatusCode := 204, Body := [] })) (lit "e90e34656806") 0
      = ((true, none), 1) :=
  (StopContainer_status_contract (cannedDocker (.ok { StatusCode := 204, Body := [] }))
    (lit "e90e34656806") 0 1 { StatusCode := 204, Body := [] } rfl).1 rfl

/-- C3. `CheckIfImageAlreadyExists`, for every image name, tag and every
response the HTTP client returns without error: the result is `(true, nil)`
exactly when the status code is 200, `(false, nil)` exactly when it is 404,
and `(false, ErrDockerInternalServerError)` for every other status code.  The
body plays no part: two responses with the same status code give the same
result whatever their bodies. -/
theorem CheckIfImageAlreadyExists_status_contract {σ : Type} (s : SimpleDocker σ)
    (dockerImage tag : GoString) (w w1 : σ) (httpResponse : HttpResponse)
    (h : s.HttpClient.Get (Sprintf "%s/images/%s:%s/json" [s.DockerEndpoint, dockerImage, tag])
      [] w = (.ok httpResponse, w1)) :
    (CheckIfImageAlreadyExists s dockerImage tag w = ((true, none), w1) ↔
      httpResponse.StatusCode = 200) ∧
    (CheckIfImageAlreadyExists s dockerImage tag w = ((false, none), w1) ↔
      httpResponse.StatusCode = 404) ∧
    (httpResponse.StatusCode ≠ 200 → httpResponse.StatusCode ≠ 404 →
      CheckIfImageAlreadyExists s dockerImage tag w =
        ((false, some ErrDockerInternalServerError), w1)) ∧
    (∀ (s2 : SimpleDocker σ) (w2 : σ) (httpResponse2 : HttpResponse),
      s2.HttpClient.Get (Sprintf "%s/images/%s:%s/json" [s2.DockerEndpoint, dockerImage, tag])
        [] w2 = (.ok httpResponse2, w1) →
      httpResponse2.StatusCode = httpResponse.StatusCode →
      CheckIfImageAlreadyExists s2 dockerImage tag w2 =
        CheckIfImageAlreadyExists s dockerImage tag w) := by
  refine ⟨?_, ?_, ?_, ?_⟩
  · unfold CheckIfImageAlreadyExists
    rw [h]
    by_cases h200 : httpResponse.StatusCode = 200
    · simp [h200]
    · by_cases h404 : httpResponse.StatusCode = 404
      · simp [h404]
      · simp [h200, h404]
  · unfold CheckIfImageAlreadyExists
    rw [h]
    by_cases h200 : httpResponse.StatusCode = 200
    · simp [h200]
    · by_cases h404 : httpResponse.StatusCode = 404
      · simp [h404]
      · simp [h200, h404]
  · intro n200 n404
    unfold CheckIfImageAlreadyExists
    rw [h]
    simp [n200, n404]
  · intro s2 w2 httpResponse2 h2 hcode
    unfold CheckIfImageAlreadyExists
    rw [h, h2]
    simp only [hcode]

/-- Witness of C3: a daemon answering 404 to the image inspection, with a body. -/
theorem CheckIfImageAlreadyExists_status_contract_witness :
    CheckIfImageAlreadyExists
      (cannedDocker (.ok { StatusCode := 404, Body := lit "no such image" }))
      (lit "centos") (lit "7") 0 = ((false, none), 1) :=
  (CheckIfImageAlreadyExists_status_contract
    (cannedDocker (.ok { StatusCode := 404, Body := lit "no such image" }))
    (lit "centos") (lit "7") 0 1 { StatusCode := 404, Body := lit "no such image" } rfl).2.1.2 rfl

/-- C6. `RunContainer`, for every container ID and every response the HTTP
client returns without error: the error is `nil` exactly when the status code
is 204 or 304 (starting a started container is no error), it is
`ErrContainerDoesNotExist` on 404 and `ErrDockerInternalServerError` on every
other status code. -/
theorem RunContainer_status_contract {σ : Type} (s : SimpleDocker σ) (containerID : GoString)
    (w w1 : σ) (httpResponse : HttpResponse)
    (h : s.HttpClient.Post (Sprintf "%s/containers/%s/start" [s.DockerEndpoint, containerID])
      [] (lit "") w = (.ok httpResponse, w1)) :
    (RunContainer s containerID w = (none, w1) ↔
      httpResponse.StatusCode = 204 ∨ httpResponse.StatusCode = 304) ∧
    (httpResponse.StatusCode = 404 →
      RunContainer s containerID w = (some ErrContainerDoesNotExist, w1)) ∧
    (httpResponse.StatusCode ≠ 204 → httpResponse.StatusCode ≠ 304 →
      httpResponse.StatusCode ≠ 404 →
      RunContainer s containerID w = (some ErrDockerInternalServerError, w1)) := by
  unfold RunContainer
  rw [h]
  refine ⟨?_, ?_, ?_⟩
  · by_cases hok : httpResponse.StatusCode = 204 ∨ httpResponse.StatusCode = 304
    · simp [hok]
    · by_cases h404 : httpResponse.StatusCode = 404
      · simp [hok, h404]
      · simp [hok, h404]
  · intro h404
    simp [h404]
  · intro n204 n304 n404
    simp [n204, n304, n404]

/-- Witness of C6: a daemon answering 304 to the start request. -/
theorem RunContainer_status_contract_witness :
    RunContainer (cannedDocker (.ok { StatusCode := 304, Body := [] })) (lit "e90e34656806") 0
      = (none, 1) :=
  (RunContainer_status_contract (cannedDocker (.ok { StatusCode := 304, Body := [] }))
    (lit "e90e34656806") 0 1 { StatusCode := 304, Body := [] } rfl).1.2 (Or.inr rfl)

/-- C7. `RemoveContainer`, for every container ID and every response the HTTP
client returns without error: the error is `nil` exactly when the status code
is 204, `ErrContainerDoesNotExist` on 404, `ErrContainerIsRunning` on 409 and
`ErrDockerInternalServerError` on every other status code; 200 and 304 are
errors for this operation. -/
theorem RemoveContainer_status_contract {σ : Type} (s : SimpleDocker σ) (containerID : GoString)
    (w w1 : σ) (httpResponse : HttpResponse)
    (h : s.HttpClient.Delete (Sprintf "%s/containers/%s" [s.DockerEndpoint, containerID])
      [] w = (.ok httpResponse, w1)) :
    (RemoveContainer s containerID w = (none, w1) ↔ httpResponse.StatusCode = 204) ∧
    (httpResponse.StatusCode = 404 →
      RemoveContainer s containerID w = (some ErrContainerDoesNotExist, w1)) ∧
    (httpResponse.StatusCode = 409 →
      RemoveContainer s containerID w = (some ErrContainerIsRunning, w1)) ∧
    (httpResponse.StatusCode ≠ 204 → httpResponse.StatusCode ≠ 404 →
      httpResponse.StatusCode ≠ 409 →
      RemoveContainer s containerID w = (some ErrDockerInternalServerError, w1)) ∧
    (httpResponse.StatusCode = 200 ∨ httpResponse.StatusCode = 304 →
      RemoveContainer s containerID w = (some ErrDockerInternalServerError, w1)) := by
  unfold RemoveContainer
  rw [h]
  refine ⟨?_, ?_, ?_, ?_, ?_⟩
  · by_cases h204 : httpResponse.StatusCode = 204
    · simp [h204]
    · by_cases h404 : httpResponse.StatusCode = 404
      · simp [h404]
      · by_cases h409 : httpResponse.StatusCode = 409
        · simp [h409]
        · simp [h204, h404, h409]
  · intro h404
    simp [h404]
  · intro h409
    simp [h409]
  · intro n204 n404 n409
    simp [n204, n404, n409]
  · rintro (h200 | h304)
    · simp [h200]
    · simp [h304]

/-- Witness of C7: a daemon answering 409 to the removal of a running
container. -/
theorem RemoveContainer_status_contract_witness :
    RemoveContainer (cannedDocker (.ok { StatusCode := 409, Body := [] })) (lit "e90e34656806") 0
      = (some ErrContainerIsRunning, 1) :=
  (RemoveContainer_status_contract (cannedDocker (.ok { StatusCode := 409, Body := [] }))
    (lit "e90e34656806") 0 1 { StatusCode := 409, Body := [] } rfl).2.2.1 rfl

/-- C10. `PullImageFromRegistry`, for every image name, tag, architecture and
every response the HTTP client returns without error: the error is `nil`
exactly when the status code is 200, `ErrImageDoesNotExist` on 404 and
`ErrDockerInternalServerError` on every other status code.  The body plays no
part: two responses with the same status code give the same result whatever
their bodies. -/
theorem PullImageFromRegistry_status_contract {σ : Type} (s : SimpleDocker σ)
    (dockerImage tag arch : GoString) (w w1 : σ) (httpResponse : HttpResponse)
    (h : s.HttpClient.Post
      (Sprintf "%s/images/create?fromImage=%s&tag=%s&platform=%s"
        [s.DockerEndpoint, dockerImage, tag, arch])
      [] (lit "") w = (.ok httpResponse, w1)) :
    (PullImageFromRegistry s dockerImage tag arch w = (none, w1) ↔
      httpResponse.StatusCode = 200) ∧
    (httpResponse.StatusCode = 404 →
      PullImageFromRegistry s dockerImage tag arch w = (some ErrImageDoesNotExist, w1)) ∧
    (httpResponse.StatusCode ≠ 200 → httpResponse.StatusCode ≠ 404 →
      PullImageFromRegistry s dockerImage tag arch w =
        (some ErrDockerInternalServerError, w1)) ∧
    (∀ (s2 : SimpleDocker σ) (w2 : σ) (httpResponse2 : HttpResponse),
      s2.HttpClient.Post
        (Sprintf "%s/images/create?fromImage=%s&tag=%s&platform=%s"
          [s2.DockerEndpoint, dockerImage, tag, arch])
        [] (lit "") w2 = (.ok httpResponse2, w1) →
      httpResponse2.StatusCode = httpResponse.StatusCode →
      PullImageFromRegistry s2 dockerImage tag arch w2 =
        PullImageFromRegistry s dockerImage tag arch w) := by
  refine ⟨?_, ?_, ?_, ?_⟩
  · unfold PullImageFromRegistry
    rw [h]
    by_cases h200 : httpResponse.StatusCode = 200
    · simp [h200]
    · by_cases h404 : httpResponse.StatusCode = 404
      · simp [h404]
      · simp [h200, h404]
  · intro h404
    unfold PullImageFromRegistry
    rw [h]
    simp [h404]
  · intro n200 n404
    unfold PullImageFromRegistry
    rw [h]
    simp [n200, n404]
  · intro s2 w2 httpResponse2 h2 hcode
    unfold PullImageFromRegistry
    rw [h, h2]
    simp only [hcode]

/-- Witness of C10: a daemon answering 404 to the pull of a tag that does not
exist. -/
theorem PullImageFromRegistry_status_contract_witness :
    PullImageFromRegistry
      (cannedDocker (.ok { StatusCode := 404, Body := lit "manifest unknown" }))
      (lit "ubuntu") (lit "20.07") (lit "x86-64") 0 = (some ErrImageDoesNotExist, 1) :=
  (PullImageFromRegistry_status_contract
    (cannedDocker (.ok { StatusCode := 404, Body := lit "manifest unknown" }))
    (lit "ubuntu") (lit "20.07") (lit "x86-64") 0 1
    { StatusCode := 404, Body := lit "manifest unknown" } rfl).2.1 rfl

/-- C8. `StartExecInstance`, for every exec ID and every response the HTTP
client returns without error: on status 200 the result is the body itself,
byte for byte, with a `nil` error; on 404 it is
`("", ErrExecInstanceDoesNotExist)`, on 409 `("", ErrContainerIsStopped)`, on
every other status code `("", ErrDockerInternalServerError)`. -/
theorem StartExecInstance_status_contract {σ : Type} (json : EncodingJson) (s : SimpleDocker σ)
    (execInstanceID jsonBodyRequest : GoString) (w w1 : σ) (httpResponse : HttpResponse)
    (hm : json.MarshalStartExecInstance { Detach := false, Tty := true } = .ok jsonBodyRequest)
    (h : s.HttpClient.Post (Sprintf "%s/exec/%s/start" [s.DockerEndpoint, execInstanceID])
      [(lit "Content-Type", lit "application/json")] jsonBodyRequest w = (.ok httpResponse, w1)) :
    (httpResponse.StatusCode = 200 →
      StartExecInstance json s execInstanceID w = ((httpResponse.Body, none), w1)) ∧
    (httpResponse.StatusCode = 404 →
      StartExecInstance json s execInstanceID w =
        ((lit "", some ErrExecInstanceDoesNotExist), w1)) ∧
    (httpResponse.StatusCode = 409 →
      StartExecInstance json s execInstanceID w = ((lit "", some ErrContainerIsStopped), w1)) ∧
    (httpResponse.StatusCode ≠ 200 → httpResponse.StatusCode ≠ 404 →
      httpResponse.StatusCode ≠ 409 →
      StartExecInstance json s execInstanceID w =
        ((lit "", some ErrDockerInternalServerError), w1)) := by
  unfold StartExecInstance
  simp only [hm, h]
  refine ⟨?_, ?_, ?_, ?_⟩
  · intro h200
    simp [h200]
  · intro h404
    simp [h404]
  · intro h409
    simp [h409]
  · intro n200 n404 n409
    simp [n200, n404, n409]

/-- Witness of C8: the output of an exec instance, with bytes that are no
UTF-8 text and white space at both ends, comes back as it is. -/
theorem StartExecInstance_status_contract_witness :
    StartExecInstance goJson
      (cannedDocker (.ok { StatusCode := 200, Body := [0x20, 0x0A, 0xFF, 0x00, 0xC3, 0x0D, 0x0A] }))
      (lit "29a8f3b1") 0 = (([0x20, 0x0A, 0xFF, 0x00, 0xC3, 0x0D, 0x0A], none), 1) :=
  (StartExecInstance_status_contract goJson
    (cannedDocker (.ok { StatusCode := 200, Body := [0x20, 0x0A, 0xFF, 0x00, 0xC3, 0x0D, 0x0A] }))
    (lit "29a8f3b1") (lit "\x7b\"Detach\":false,\"Tty\":true\x7d") 0 1
    { StatusCode := 200, Body := [0x20, 0x0A, 0xFF, 0x00, 0xC3, 0x0D, 0x0A] } rfl rfl).1 rfl

/-- C2. `CheckIfContainerIsReady`, for every container ID and every response
the HTTP client returns without error: the result is `(true, nil)` exactly
when the status code is 200 and the body decodes to a `State.Status` equal to
`"running"`; on status 200 with a body that decodes to any other
`State.Status` it is `(false, nil)`; on 404 it is
`(false, ErrContainerDoesNotExist)`; on every other status code it is
`(false, ErrDockerInternalServerError)`. -/
theorem CheckIfContainerIsReady_status_contract {σ : Type} (json : EncodingJson)
    (s : SimpleDocker σ) (containerID : GoString) (w w1 : σ) (httpResponse : HttpResponse)
    (h : s.HttpClient.Get (Sprintf "%s/containers/%s/json" [s.DockerEndpoint, containerID])
      [] w = (.ok httpResponse, w1)) :
    (CheckIfContainerIsReady json s containerID w = ((true, none), w1) ↔
      httpResponse.StatusCode = 200 ∧
        ∃ containerStatus, json.UnmarshalCheckContainerStatusBody httpResponse.Body =
            .ok containerStatus ∧ containerStatus.State.Status = lit "running") ∧
    (∀ containerStatus, httpResponse.StatusCode = 200 →
      json.UnmarshalCheckContainerStatusBody httpResponse.Body = .ok containerStatus →
      containerStatus.State.Status ≠ lit "running" →
      CheckIfContainerIsReady json s containerID w = ((false, none), w1)) ∧
    (httpResponse.StatusCode = 404 →
      CheckIfContainerIsReady json s containerID w =
        ((false, some ErrContainerDoesNotExist), w1)) ∧
    (httpResponse.StatusCode ≠ 200 → httpResponse.StatusCode ≠ 404 →
      CheckIfContainerIsReady json s containerID w =
        ((false, some ErrDockerInternalServerError), w1)) := by
  unfold CheckIfContainerIsReady
  rw [h]
  refine ⟨?_, ?_, ?_, ?_⟩
  · by_cases h200 : httpResponse.StatusCode = 200
    · cases hu : json.UnmarshalCheckContainerStatusBody httpResponse.Body with
      | error err => simp [h200, hu]
      | ok containerStatus =>
        by_cases hs : containerStatus.State.Status = lit "running"
        · simp [h200, hu, hs]
        · simp [h200, hu, hs]
    · by_cases h404 : httpResponse.StatusCode = 404
      · simp [h404]
      · simp [h200, h404]
  · intro containerStatus h200 hu hs
    simp [h200, hu, hs]
  · intro h404
    simp [h404]
  · intro n200 n404
    simp [n200, n404]

/-- Witness of C2: the inspection of a running container. -/
theorem CheckIfContainerIsReady_status_contract_witness :
    CheckIfContainerIsReady goJson
      (cannedDocker (.ok { StatusCode := 200, Body := inspectRunningBody }))
      (lit "e90e34656806") 0 = ((true, none), 1) :=
  (CheckIfContainerIsReady_status_contract goJson
    (cannedDocker (.ok { StatusCode := 200, Body := inspectRunningBody }))
    (lit "e90e34656806") 0 1
    { StatusCode := 200, Body := inspectRunningBody }
    rfl).1.2 ⟨rfl, { State := { Status := lit "running", Running := true } }, rfl, rfl⟩

/-- C4. `CreateContainer`, for every name, image, tag, command list and every
response the HTTP client returns without error: on status 201 with a body
that decodes, the result is the `ID` field of the decoded body with a `nil`
error; on 404 it is `("", ErrImageDoesNotExist)`, on 409
`("", ErrContainerAlreadyExist)`, on every other status code
`("", ErrDockerInternalServerError)`. -/
theorem CreateContainer_status_contract {σ : Type} (json : EncodingJson) (s : SimpleDocker σ)
    (containerName image tag : GoString) (cmd : GoSlice GoString) (jsonBodyRequest : GoString)
    (w w1 : σ) (httpResponse : HttpResponse)
    (hm : json.MarshalCreateContainerBody { Cmd := cmd, Image := Sprintf "%s:%s" [image, tag] } =
      .ok jsonBodyRequest)
    (h : s.HttpClient.Post
      (Sprintf "%s/containers/create?name=%s" [s.DockerEndpoint, containerName])
      [(lit "Content-Type", lit "application/json")] jsonBodyRequest w = (.ok httpResponse, w1)) :
    (∀ responseBody, httpResponse.StatusCode = 201 →
      json.UnmarshalCreateContainerResponseBody httpResponse.Body = .ok responseBody →
      CreateContainer json s containerName image tag cmd w = ((responseBody.ID, none), w1)) ∧
    (httpResponse.StatusCode = 404 →
      CreateContainer json s containerName image tag cmd w =
        ((lit "", some ErrImageDoesNotExist), w1)) ∧
    (httpResponse.StatusCode = 409 →
      CreateContainer json s containerName image tag cmd w =
        ((lit "", some ErrContainerAlreadyExist), w1)) ∧
    (httpResponse.StatusCode ≠ 201 → httpResponse.StatusCode ≠ 404 →
      httpResponse.StatusCode ≠ 409 →
      CreateContainer json s containerName image tag cmd w =
        ((lit "", some ErrDockerInternalServerError), w1)) := by
  unfold CreateContainer
  simp only [hm, h]
  refine ⟨?_, ?_, ?_, ?_⟩
  · intro responseBody h201 hu
    simp [h201, hu]
  · intro h404
    simp [h404]
  · intro h409
    simp [h409]
  · intro n201 n404 n409
    simp [n201, n404, n409]

/-- Witness of C4: the daemon answers 201 with the identifier under the key
`Id`. -/
theorem CreateContainer_status_contract_witness :
    CreateContainer goJson
      (cannedDocker (.ok { StatusCode := 201, Body := createdBody }))
      (lit "ubuntu2004") (lit "ubuntu") (lit "20.04") (some [lit "sleep", lit "infinity"]) 0
      = ((lit "e90e34656806", none), 1) :=
  (CreateContainer_status_contract goJson
    (cannedDocker (.ok { StatusCode := 201, Body := createdBody }))
    (lit "ubuntu2004") (lit "ubuntu") (lit "20.04") (some [lit "sleep", lit "infinity"])
    (lit "\x7b\"Cmd\":[\"sleep\",\"infinity\"],\"Image\":\"ubuntu:20.04\"\x7d") 0 1
    { StatusCode := 201, Body := createdBody }
    rfl rfl).1 { ID := lit "e90e34656806", Warnings := some [] } rfl rfl

/-- C9. `GenerateExecInstance`, for every container ID, command list and every
response the HTTP client returns without error: on status 201 with a body
that decodes, the result is the `ID` field of the decoded body with a `nil`
error; on 404 it is `("", ErrContainerDoesNotExist)`, on 409
`("", ErrContainerIsStopped)`, on every other status code
`("", ErrDockerInternalServerError)`. -/
theorem GenerateExecInstance_status_contract {σ : Type} (json : EncodingJson)
    (s : SimpleDocker σ) (containerID : GoString) (commands : GoSlice GoString)
    (jsonBodyRequest : GoString) (w w1 : σ) (httpResponse : HttpResponse)
    (hm : json.MarshalGenerateExecInstanceBody
      { AttachStdin := false, AttachStdout := true, AttachStderr := true, Tty := true,
        Cmd := commands } = .ok jsonBodyRequest)
    (h : s.HttpClient.Post (Sprintf "%s/containers/%s/exec" [s.DockerEndpoint, containerID])
      [(lit "Content-Type", lit "application/json")] jsonBodyRequest w = (.ok httpResponse, w1)) :
    (∀ responseBody, httpResponse.StatusCode = 201 →
      json.UnmarshalCreateExecResponseBody httpResponse.Body = .ok responseBody →
      GenerateExecInstance json s containerID commands w = ((responseBody.ID, none), w1)) ∧
    (httpResponse.StatusCode = 404 →
      GenerateExecInstance json s containerID commands w =
        ((lit "", some ErrContainerDoesNotExist), w1)) ∧
    (httpResponse.StatusCode = 409 →
      GenerateExecInstance json s containerID commands w =
        ((lit "", some ErrContainerIsStopped), w1)) ∧
    (httpResponse.StatusCode ≠ 201 → httpResponse.StatusCode ≠ 404 →
      httpResponse.StatusCode ≠ 409 →
      GenerateExecInstance json s containerID commands w =
        ((lit "", some ErrDockerInternalServerError), w1)) := by
  unfold GenerateExecInstance
  simp only [hm, h]
  refine ⟨?_, ?_, ?_, ?_⟩
  · intro responseBody h201 hu
    simp [h201, hu]
  · intro h404
    simp [h404]
  · intro h409
    simp [h409]
  · intro n201 n404 n409
    simp [n201, n404, n409]

/-- Witness of C9: an exec instance asked of a stopped container. -/
theorem GenerateExecInstance_status_contract_witness :
    GenerateExecInstance goJson
      (cannedDocker (.ok { StatusCode := 409, Body := lit "container is not running" }))
      (lit "e90e34656806") (some [lit "/bin/sh", lit "-c", lit "top -b -n 1 | head -4 | tail -2"]) 0
      = ((lit "", some ErrContainerIsStopped), 1) :=
  (GenerateExecInstance_status_contract goJson
    (cannedDocker (.ok { StatusCode := 409, Body := lit "container is not running" }))
    (lit "e90e34656806") (some [lit "/bin/sh", lit "-c", lit "top -b -n 1 | head -4 | tail -2"])
    (lit "\x7b\"AttachStdin\":false,\"AttachStdout\":true,\"AttachStderr\":true,\"Tty\":true,\"Cmd\":[\"/bin/sh\",\"-c\",\"top -b -n 1 | head -4 | tail -2\"]\x7d")
    0 1 { StatusCode := 409, Body := lit "container is not running" } rfl rfl).2.2.1 rfl

end dockerclient

/-!
## Errors, requests and request bodies of the client
-/

namespace dockerclient

open httpclient GoError

/-- C11. For each of the six operations of `SimpleDocker` that return a value
next to their error, and for every outcome of the HTTP call (an error of the
client, any status code, any body, one that does not decode included): when
the error returned is not `nil`, the value returned is the zero value, `false`
for the boolean results and the empty string for the string results. -/
theorem zero_value_on_error {σ : Type} (json : EncodingJson) (s : SimpleDocker σ) :
    (∀ (dockerImage tag : GoString) (w : σ),
      (CheckIfImageAlreadyExists s dockerImage tag w).1.2 ≠ none →
      (CheckIfImageAlreadyExists s dockerImage tag w).1.1 = false) ∧
    (∀ (containerName image tag : GoString) (cmd : GoSlice GoString) (w : σ),
      (CreateContainer json s containerName image tag cmd w).1.2 ≠ none →
      (CreateContainer json s containerName image tag cmd w).1.1 = lit "") ∧
    (∀ (containerID : GoString) (w : σ),
      (CheckIfContainerIsReady json s containerID w).1.2 ≠ none →
      (CheckIfContainerIsReady json s containerID w).1.1 = false) ∧
    (∀ (containerID : GoString) (commands : GoSlice GoString) (w : σ),
      (GenerateExecInstance json s containerID commands w).1.2 ≠ none →
      (GenerateExecInstance json s containerID commands w).1.1 = lit "") ∧
    (∀ (execInstanceID : GoString) (w : σ),
      (StartExecInstance json s execInstanceID w).1.2 ≠ none →
      (StartExecInstance json s execInstanceID w).1.1 = lit "") ∧
    (∀ (containerID : GoString) (w : σ),
      (StopContainer s containerID w).1.2 ≠ none →
      (StopContainer s containerID w).1.1 = false) := by
  refine ⟨?_, ?_, ?_, ?_, ?_, ?_⟩
  · intro dockerImage tag w
    unfold CheckIfImageAlreadyExists
    split
    · simp
    · split_ifs <;> simp
  · intro containerName image tag cmd w
    simp only [CreateContainer]
    split
    · simp
    · split
      · simp
      · split_ifs
        · split <;> simp
        · simp
        · simp
        · simp
  · intro containerID w
    unfold CheckIfContainerIsReady
    split
    · simp
    · split_ifs
      · split
        · simp
        · split_ifs <;> simp
      · simp
      · simp
  · intro containerID commands w
    simp only [GenerateExecInstance]
    split
    · simp
    · split
      · simp
      · split_ifs
        · split <;> simp
        · simp
        · simp
        · simp
  · intro execInstanceID w
    simp only [StartExecInstance]
    split
    · simp
    · split
      · simp
      · split_ifs <;> simp
  · intro containerID w
    unfold StopContainer
    split
    · simp
    · split_ifs <;> simp

/-- Witness of C11: a body that does not decode, sent with status 201, makes
`CreateContainer` return an error and the empty string. -/
theorem zero_value_on_error_witness :
    (CreateContainer goJson (cannedDocker (.ok { StatusCode := 201, Body := lit "not json" }))
      (lit "ubuntu2004") (lit "ubuntu") (lit "20.04") (some [lit "sleep", lit "infinity"]) 0).1.2
      = some (Errorf "json unmarshalling issue when creating container - %s" [] SyntaxError) ∧
    (CreateContainer goJson (cannedDocker (.ok { StatusCode := 201, Body := lit "not json" }))
      (lit "ubuntu2004") (lit "ubuntu") (lit "20.04") (some [lit "sleep", lit "infinity"]) 0).1.1
      = lit "" :=
  ⟨rfl, (zero_value_on_error goJson
    (cannedDocker (.ok { StatusCode := 201, Body := lit "not json" }))).2.1
    (lit "ubuntu2004") (lit "ubuntu") (lit "20.04") (some [lit "sleep", lit "infinity"]) 0
    (by decide)⟩

/-- The URL of the image inspection is the endpoint followed by the template
with the operands put in as they are. -/
theorem Sprintf_images_json (dockerEndpoint dockerImage tag : GoString) :
    Sprintf "%s/images/%s:%s/json" [dockerEndpoint, dockerImage, tag] =
      dockerEndpoint ++ lit "/images/" ++ dockerImage ++ lit ":" ++ tag ++ lit "/json" := by
  simp [Sprintf, sprintfChars, lit, String.utf8EncodeChar]

/-- The URL of the image pull. -/
theorem Sprintf_images_create (dockerEndpoint dockerImage tag arch : GoString) :
    Sprintf "%s/images/create?fromImage=%s&tag=%s&platform=%s"
        [dockerEndpoint, dockerImage, tag, arch] =
      dockerEndpoint ++ lit "/images/create?fromImage=" ++ dockerImage ++ lit "&tag=" ++ tag ++
        lit "&platform=" ++ arch := by
  simp [Sprintf, sprintfChars, lit, String.utf8EncodeChar]

/-- The URL of the container creation. -/
theorem Sprintf_containers_create (dockerEndpoint containerName : GoString) :
    Sprintf "%s/containers/create?name=%s" [dockerEndpoint, containerName] =
      dockerEndpoint ++ lit "/containers/create?name=" ++ containerName := by
  simp [Sprintf, sprintfChars, lit, String.utf8EncodeChar]

/-- The URL of the container start. -/
theorem Sprintf_containers_start (dockerEndpoint containerID : GoString) :
    Sprintf "%s/containers/%s/start" [dockerEndpoint, containerID] =
      dockerEndpoint ++ lit "/containers/" ++ containerID ++ lit "/start" := by
  simp [Sprintf, sprintfChars, lit, String.utf8EncodeChar]

/-- The URL of the container inspection. -/
theorem Sprintf_containers_json (dockerEndpoint containerID : GoString) :
    Sprintf "%s/containers/%s/json" [dockerEndpoint, containerID] =
      dockerEndpoint ++ lit "/containers/" ++ containerID ++ lit "/json" := by
  simp [Sprintf, sprintfChars, lit, String.utf8EncodeChar]

/-- The URL of the creation of an exec instance. -/
theorem Sprintf_containers_exec (dockerEndpoint containerID : GoString) :
    Sprintf "%s/containers/%s/exec" [dockerEndpoint, containerID] =
      dockerEndpoint ++ lit "/containers/" ++ containerID ++ lit "/exec" := by
  simp [Sprintf, sprintfChars, lit, String.utf8EncodeChar]

/-- The URL of the start of an exec instance. -/
theorem Sprintf_exec_start (dockerEndpoint execInstanceID : GoString) :
    Sprintf "%s/exec/%s/start" [dockerEndpoint, execInstanceID] =
      dockerEndpoint ++ lit "/exec/" ++ execInstanceID ++ lit "/start" := by
  simp [Sprintf, sprintfChars, lit, String.utf8EncodeChar]

/-- The URL of the container stop. -/
theorem Sprintf_containers_stop (dockerEndpoint containerID : GoString) :
    Sprintf "%s/containers/%s/stop" [dockerEndpoint, containerID] =
      dockerEndpoint ++ lit "/containers/" ++ containerID ++ lit "/stop" := by
  simp [Sprintf, sprintfChars, lit, String.utf8EncodeChar]

/-- The URL of the container removal. -/
theorem Sprintf_containers (dockerEndpoint containerID : GoString) :
    Sprintf "%s/containers/%s" [dockerEndpoint, containerID] =
      dockerEndpoint ++ lit "/containers/" ++ containerID := by
  simp [Sprintf, sprintfChars, lit, String.utf8EncodeChar]

/-- The image reference of a container creation. -/
theorem Sprintf_image_tag (image tag : GoString) :
    Sprintf "%s:%s" [image, tag] = image ++ lit ":" ++ tag := by
  simp [Sprintf, sprintfChars, lit, String.utf8EncodeChar]

/-- The one call `CheckIfImageAlreadyExists` makes. -/
theorem CheckIfImageAlreadyExists_request
    (answer : List Request → Request → Except GoError HttpResponse)
    (dockerEndpoint : GoString) (log : List Request) (dockerImage tag : GoString) :
    (CheckIfImageAlreadyExists (NewSimpeDocker dockerEndpoint (recorder answer))
      dockerImage tag log).2 =
    log ++ [.Get (dockerEndpoint ++ lit "/images/" ++ dockerImage ++ lit ":" ++ tag ++
      lit "/json") []] := by
  simp only [CheckIfImageAlreadyExists, NewSimpeDocker, recorder, Sprintf_images_json]
  split
  · simp_all
  · split_ifs <;> simp_all

/-- The one call `PullImageFromRegistry` makes. -/
theorem PullImageFromRegistry_request
    (answer : List Request → Request → Except GoError HttpResponse)
    (dockerEndpoint : GoString) (log : List Request) (dockerImage tag arch : GoString) :
    (PullImageFromRegistry (NewSimpeDocker dockerEndpoint (recorder answer))
      dockerImage tag arch log).2 =
    log ++ [.Post (dockerEndpoint ++ lit "/images/create?fromImage=" ++ dockerImage ++
      lit "&tag=" ++ tag ++ lit "&platform=" ++ arch) [] (lit "")] := by
  simp only [PullImageFromRegistry, NewSimpeDocker, recorder, Sprintf_images_create]
  split
  · simp_all
  · split_ifs <;> simp_all

/-- The one call `CreateContainer` makes, once the body is marshalled. -/
theorem CreateContainer_request
    (answer : List Request → Request → Except GoError HttpResponse)
    (dockerEndpoint : GoString) (log : List Request) (json : EncodingJson)
    (containerName image tag : GoString) (cmd : GoSlice GoString) (jsonBodyRequest : GoString)
    (hm : json.MarshalCreateContainerBody { Cmd := cmd, Image := image ++ lit ":" ++ tag } =
      .ok jsonBodyRequest) :
    (CreateContainer json (NewSimpeDocker dockerEndpoint (recorder answer))
      containerName image tag cmd log).2 =
    log ++ [.Post (dockerEndpoint ++ lit "/containers/create?name=" ++ containerName)
      [(lit "Content-Type", lit "application/json")] jsonBodyRequest] := by
  simp only [CreateContainer, NewSimpeDocker, recorder, Sprintf_containers_create,
    Sprintf_image_tag, hm]
  split
  · simp_all
  · split_ifs
    · split <;> simp_all
    · simp_all
    · simp_all
    · simp_all

/-- The one call `RunContainer` makes. -/
theorem RunContainer_request
    (answer : List Request → Request → Except GoError HttpResponse)
    (dockerEndpoint : GoString) (log : List Request) (containerID : GoString) :
    (RunContainer (NewSimpeDocker dockerEndpoint (recorder answer)) containerID log).2 =
    log ++ [.Post (dockerEndpoint ++ lit "/containers/" ++ containerID ++ lit "/start")
      [] (lit "")] := by
  simp only [RunContainer, NewSimpeDocker, recorder, Sprintf_containers_start]
  split
  · simp_all
  · split_ifs <;> simp_all

/-- The one call `CheckIfContainerIsReady` makes. -/
theorem CheckIfContainerIsReady_request
    (answer : List Request → Request → Except GoError HttpResponse)
    (dockerEndpoint : GoString) (log : List Request) (json : EncodingJson)
    (containerID : GoString) :
    (CheckIfContainerIsReady json (NewSimpeDocker dockerEndpoint (recorder answer))
      containerID log).2 =
    log ++ [.Get (dockerEndpoint ++ lit "/containers/" ++ containerID ++ lit "/json") []] := by
  simp only [CheckIfContainerIsReady, NewSimpeDocker, recorder, Sprintf_containers_json]
  split
  · simp_all
  · split_ifs
    · split
      · simp_all
      · split_ifs <;> simp_all
    · simp_all
    · simp_all

/-- The one call `GenerateExecInstance` makes, once the body is marshalled. -/
theorem GenerateExecInstance_request
    (answer : List Request → Request → Except GoError HttpResponse)
    (dockerEndpoint : GoString) (log : List Request) (json : EncodingJson)
    (containerID : GoString) (commands : GoSlice GoString) (jsonBodyRequest : GoString)
    (hm : json.MarshalGenerateExecInstanceBody
      { AttachStdin := false, AttachStdout := true, AttachStderr := true, Tty := true,
        Cmd := commands } = .ok jsonBodyRequest) :
    (GenerateExecInstance json (NewSimpeDocker dockerEndpoint (recorder answer))
      containerID commands log).2 =
    log ++ [.Post (dockerEndpoint ++ lit "/containers/" ++ containerID ++ lit "/exec")
      [(lit "Content-Type", lit "application/json")] jsonBodyRequest] := by
  simp only [GenerateExecInstance, NewSimpeDocker, recorder, Sprintf_containers_exec, hm]
  split
  · simp_all
  · split_ifs
    · split <;> simp_all
    · simp_all
    · simp_all
    · simp_all

/-- The one call `StartExecInstance` makes, once the body is marshalled. -/
theorem StartExecInstance_request
    (answer : List Request → Request → Except GoError HttpResponse)
    (dockerEndpoint : GoString) (log : List Request) (json : EncodingJson)
    (execInstanceID jsonBodyRequest : GoString)
    (hm : json.MarshalStartExecInstance { Detach := false, Tty := true } =
      .ok jsonBodyRequest) :
    (StartExecInstance json (NewSimpeDocker dockerEndpoint (recorder answer))
      execInstanceID log).2 =
    log ++ [.Post (dockerEndpoint ++ lit "/exec/" ++ execInstanceID ++ lit "/start")
      [(lit "Content-Type", lit "application/json")] jsonBodyRequest] := by
  simp only [StartExecInstance, NewSimpeDocker, recorder, Sprintf_exec_start, hm]
  split
  · simp_all
  · split_ifs <;> simp_all

/-- The one call `StopContainer` makes. -/
theorem StopContainer_request
    (answer : List Request → Request → Except GoError HttpResponse)
    (dockerEndpoint : GoString) (log : List Request) (containerID : GoString) :
    (StopContainer (NewSimpeDocker dockerEndpoint (recorder answer)) containerID log).2 =
    log ++ [.Post (dockerEndpoint ++ lit "/containers/" ++ containerID ++ lit "/stop")
      [] (lit "")] := by
  simp only [StopContainer, NewSimpeDocker, recorder, Sprintf_containers_stop]
  split
  · simp_all
  · split_ifs <;> simp_all

/-- The one call `RemoveContainer` makes. -/
theorem RemoveContainer_request
    (answer : List Request → Request → Except GoError HttpResponse)
    (dockerEndpoint : GoString) (log : List Request) (containerID : GoString) :
    (RemoveContainer (NewSimpeDocker dockerEndpoint (recorder answer)) containerID log).2 =
    log ++ [.Delete (dockerEndpoint ++ lit "/containers/" ++ containerID) []] := by
  simp only [RemoveContainer, NewSimpeDocker, recorder, Sprintf_containers]
  split
  · simp_all
  · split_ifs <;> simp_all

/-- C18. Each of the nine operations of `SimpleDocker` makes exactly one call
to its `HttpClient` per invocation, whatever that call returns: on a client
that records its calls and answers by any policy, the record grows by one
entry.  The entry is a GET for `CheckIfImageAlreadyExists` and
`CheckIfContainerIsReady`, a DELETE for `RemoveContainer` and a POST for the
six others, on the URL made of the configured endpoint followed by the
template of the operation with the arguments put in as they are.  (For the
three operations that marshal a body, the single call is made once
`json.Marshal` has returned the body.) -/
theorem one_request_per_operation
    (answer : List Request → Request → Except GoError HttpResponse)
    (dockerEndpoint : GoString) (log : List Request) :
    (∀ dockerImage tag,
      (CheckIfImageAlreadyExists (NewSimpeDocker dockerEndpoint (recorder answer))
        dockerImage tag log).2 =
      log ++ [.Get (dockerEndpoint ++ lit "/images/" ++ dockerImage ++ lit ":" ++ tag ++
        lit "/json") []]) ∧
    (∀ dockerImage tag arch,
      (PullImageFromRegistry (NewSimpeDocker dockerEndpoint (recorder answer))
        dockerImage tag arch log).2 =
      log ++ [.Post (dockerEndpoint ++ lit "/images/create?fromImage=" ++ dockerImage ++
        lit "&tag=" ++ tag ++ lit "&platform=" ++ arch) [] (lit "")]) ∧
    (∀ (json : EncodingJson) containerName image tag cmd jsonBodyRequest,
      json.MarshalCreateContainerBody { Cmd := cmd, Image := image ++ lit ":" ++ tag } =
        .ok jsonBodyRequest →
      (CreateContainer json (NewSimpeDocker dockerEndpoint (recorder answer))
        containerName image tag cmd log).2 =
      log ++ [.Post (dockerEndpoint ++ lit "/containers/create?name=" ++ containerName)
        [(lit "Content-Type", lit "application/json")] jsonBodyRequest]) ∧
    (∀ containerID,
      (RunContainer (NewSimpeDocker dockerEndpoint (recorder answer)) containerID log).2 =
      log ++ [.Post (dockerEndpoint ++ lit "/containers/" ++ containerID ++ lit "/start")
        [] (lit "")]) ∧
    (∀ (json : EncodingJson) containerID,
      (CheckIfContainerIsReady json (NewSimpeDocker dockerEndpoint (recorder answer))
        containerID log).2 =
      log ++ [.Get (dockerEndpoint ++ lit "/containers/" ++ containerID ++ lit "/json") []]) ∧
    (∀ (json : EncodingJson) containerID commands jsonBodyRequest,
      json.MarshalGenerateExecInstanceBody
        { AttachStdin := false, AttachStdout := true, AttachStderr := true, Tty := true,
          Cmd := commands } = .ok jsonBodyRequest →
      (GenerateExecInstance json (NewSimpeDocker dockerEndpoint (recorder answer))
        containerID commands log).2 =
      log ++ [.Post (dockerEndpoint ++ lit "/containers/" ++ containerID ++ lit "/exec")
        [(lit "Content-Type", lit "application/json")] jsonBodyRequest]) ∧
    (∀ (json : EncodingJson) execInstanceID jsonBodyRequest,
      json.MarshalStartExecInstance { Detach := false, Tty := true } = .ok jsonBodyRequest →
      (StartExecInstance json (NewSimpeDocker dockerEndpoint (recorder answer))
        execInstanceID log).2 =
      log ++ [.Post (dockerEndpoint ++ lit "/exec/" ++ execInstanceID ++ lit "/start")
        [(lit "Content-Type", lit "application/json")] jsonBodyRequest]) ∧
    (∀ containerID,
      (StopContainer (NewSimpeDocker dockerEndpoint (recorder answer)) containerID log).2 =
      log ++ [.Post (dockerEndpoint ++ lit "/containers/" ++ containerID ++ lit "/stop")
        [] (lit "")]) ∧
    (∀ containerID,
      (RemoveContainer (NewSimpeDocker dockerEndpoint (recorder answer)) containerID log).2 =
      log ++ [.Delete (dockerEndpoint ++ lit "/containers/" ++ containerID) []]) :=
  ⟨CheckIfImageAlreadyExists_request answer dockerEndpoint log,
    PullImageFromRegistry_request answer dockerEndpoint log,
    CreateContainer_request answer dockerEndpoint log,
    RunContainer_request answer dockerEndpoint log,
    CheckIfContainerIsReady_request answer dockerEndpoint log,
    GenerateExecInstance_request answer dockerEndpoint log,
    StartExecInstance_request answer dockerEndpoint log,
    StopContainer_request answer dockerEndpoint log,
    RemoveContainer_request answer dockerEndpoint log⟩

/-- Witness of C18: the one request of a container creation on the endpoint
of the tests, made after an earlier request. -/
theorem one_request_per_operation_witness :
    (CreateContainer goJson
      (NewSimpeDocker (lit "http://localhost:2375")
        (recorder (scripted [.ok { StatusCode := 200, Body := [] },
          .ok { StatusCode := 201, Body := createdBody }])))
      (lit "ubuntu2004") (lit "ubuntu") (lit "20.04") (some [lit "sleep", lit "infinity"])
      [.Get (lit "http://localhost:2375/images/ubuntu:20.04/json") []]).2 =
    [.Get (lit "http://localhost:2375/images/ubuntu:20.04/json") []] ++
      [.Post (lit "http://localhost:2375" ++ lit "/containers/create?name=" ++ lit "ubuntu2004")
        [(lit "Content-Type", lit "application/json")]
        (lit "\x7b\"Cmd\":[\"sleep\",\"infinity\"],\"Image\":\"ubuntu:20.04\"\x7d")] :=
  (one_request_per_operation
    (scripted [.ok { StatusCode := 200, Body := [] },
      .ok { StatusCode := 201, Body := createdBody }])
    (lit "http://localhost:2375")
    [.Get (lit "http://localhost:2375/images/ubuntu:20.04/json") []]).2.2.1
    goJson (lit "ubuntu2004") (lit "ubuntu") (lit "20.04") (some [lit "sleep", lit "infinity"])
    (lit "\x7b\"Cmd\":[\"sleep\",\"infinity\"],\"Image\":\"ubuntu:20.04\"\x7d") rfl

/-- C19. The requests carry fixed functions of the arguments.
`CreateContainer` posts, with the header `Content-Type: application/json`,
the marshalled `CreateContainerBody` whose `Image` is `image:tag` and whose
`Cmd` is the command list given, in the same order; `GenerateExecInstance`
posts the marshalled body with `AttachStdin` false, `AttachStdout`,
`AttachStderr` and `Tty` true and `Cmd` the command list given;
`StartExecInstance` posts the one with `Detach` false and `Tty` true;
`PullImageFromRegistry`, `RunContainer` and `StopContainer` post the empty body
with no headers.  With `goJson` for `encoding/json` the three bodies are the
JSON objects written out below. -/
theorem request_bodies
    (answer : List Request → Request → Except GoError HttpResponse)
    (dockerEndpoint : GoString) (log : List Request) :
    (∀ (json : EncodingJson) containerName image tag cmd jsonBodyRequest,
      json.MarshalCreateContainerBody { Cmd := cmd, Image := image ++ lit ":" ++ tag } =
        .ok jsonBodyRequest →
      (CreateContainer json (NewSimpeDocker dockerEndpoint (recorder answer))
        containerName image tag cmd log).2 =
      log ++ [.Post (dockerEndpoint ++ lit "/containers/create?name=" ++ containerName)
        [(lit "Content-Type", lit "application/json")] jsonBodyRequest]) ∧
    (∀ containerName image tag (cmd : List GoString),
      (CreateContainer goJson (NewSimpeDocker dockerEndpoint (recorder answer))
        containerName image tag (some cmd) log).2 =
      log ++ [.Post (dockerEndpoint ++ lit "/containers/create?name=" ++ containerName)
        [(lit "Content-Type", lit "application/json")]
        (lit "\x7b\"Cmd\":[" ++ List.intercalate (lit ",") (cmd.map gojson.encodeString) ++
          lit "],\"Image\":" ++ gojson.encodeString (image ++ lit ":" ++ tag) ++ lit "\x7d")]) ∧
    (∀ (json : EncodingJson) containerID commands jsonBodyRequest,
      json.MarshalGenerateExecInstanceBody
        { AttachStdin := false, AttachStdout := true, AttachStderr := true, Tty := true,
          Cmd := commands } = .ok jsonBodyRequest →
      (GenerateExecInstance json (NewSimpeDocker dockerEndpoint (recorder answer))
        containerID commands log).2 =
      log ++ [.Post (dockerEndpoint ++ lit "/containers/" ++ containerID ++ lit "/exec")
        [(lit "Content-Type", lit "application/json")] jsonBodyRequest]) ∧
    (∀ containerID (commands : List GoString),
      (GenerateExecInstance goJson (NewSimpeDocker dockerEndpoint (recorder answer))
        containerID (some commands) log).2 =
      log ++ [.Post (dockerEndpoint ++ lit "/containers/" ++ containerID ++ lit "/exec")
        [(lit "Content-Type", lit "application/json")]
        (lit "\x7b\"AttachStdin\":false,\"AttachStdout\":true,\"AttachStderr\":true,\"Tty\":true,\"Cmd\":[" ++
          List.intercalate (lit ",") (commands.map gojson.encodeString) ++ lit "]\x7d")]) ∧
    (∀ (json : EncodingJson) execInstanceID jsonBodyRequest,
      json.MarshalStartExecInstance { Detach := false, Tty := true } = .ok jsonBodyRequest →
      (StartExecInstance json (NewSimpeDocker dockerEndpoint (recorder answer))
        execInstanceID log).2 =
      log ++ [.Post (dockerEndpoint ++ lit "/exec/" ++ execInstanceID ++ lit "/start")
        [(lit "Content-Type", lit "application/json")] jsonBodyRequest]) ∧
    (∀ execInstanceID,
      (StartExecInstance goJson (NewSimpeDocker dockerEndpoint (recorder answer))
        execInstanceID log).2 =
      log ++ [.Post (dockerEndpoint ++ lit "/exec/" ++ execInstanceID ++ lit "/start")
        [(lit "Content-Type", lit "application/json")]
        (lit "\x7b\"Detach\":false,\"Tty\":true\x7d")]) ∧
    (∀ dockerImage tag arch,
      (PullImageFromRegistry (NewSimpeDocker dockerEndpoint (recorder answer))
        dockerImage tag arch log).2 =
      log ++ [.Post (dockerEndpoint ++ lit "/images/create?fromImage=" ++ dockerImage ++
        lit "&tag=" ++ tag ++ lit "&platform=" ++ arch) [] (lit "")]) ∧
    (∀ containerID,
      (RunContainer (NewSimpeDocker dockerEndpoint (recorder answer)) containerID log).2 =
      log ++ [.Post (dockerEndpoint ++ lit "/containers/" ++ containerID ++ lit "/start")
        [] (lit "")]) ∧
    (∀ containerID,
      (StopContainer (NewSimpeDocker dockerEndpoint (recorder answer)) containerID log).2 =
      log ++ [.Post (dockerEndpoint ++ lit "/containers/" ++ containerID ++ lit "/stop")
        [] (lit "")]) := by
  refine ⟨CreateContainer_request answer dockerEndpoint log, ?_,
    GenerateExecInstance_request answer dockerEndpoint log, ?_,
    StartExecInstance_request answer dockerEndpoint log, ?_,
    PullImageFromRegistry_request answer dockerEndpoint log,
    RunContainer_request answer dockerEndpoint log,
    StopContainer_request answer dockerEndpoint log⟩
  · intro containerName image tag cmd
    refine CreateContainer_request answer dockerEndpoint log goJson containerName image tag
      (some cmd) _ ?_
    simp [goJson, gojson.MarshalCreateContainerBody, gojson.encodeStrings, lit,
      String.utf8EncodeChar]
  · intro containerID commands
    refine GenerateExecInstance_request answer dockerEndpoint log goJson containerID
      (some commands) _ ?_
    simp [goJson, gojson.MarshalGenerateExecInstanceBody, gojson.encodeStrings,
      gojson.encodeBool, lit, String.utf8EncodeChar]
  · intro execInstanceID
    exact StartExecInstance_request answer dockerEndpoint log goJson execInstanceID _ rfl

/-- Witness of C19: the request of the exec instance the display loop asks
for. -/
theorem request_bodies_witness :
    (GenerateExecInstance goJson
      (NewSimpeDocker (lit "http://localhost:2375")
        (recorder (scripted [.ok { StatusCode := 201, Body := createdBody }])))
      (lit "e90e34656806") (some [lit "/bin/sh", lit "-c", lit "top -b -n 1 | head -4 | tail -2"])
      []).2 =
    [] ++ [.Post (lit "http://localhost:2375" ++ lit "/containers/" ++ lit "e90e34656806" ++
        lit "/exec")
      [(lit "Content-Type", lit "application/json")]
      (lit "\x7b\"AttachStdin\":false,\"AttachStdout\":true,\"AttachStderr\":true,\"Tty\":true,\"Cmd\":[\"/bin/sh\",\"-c\",\"top -b -n 1 | head -4 | tail -2\"]\x7d")] :=
  (request_bodies (scripted [.ok { StatusCode := 201, Body := createdBody }])
    (lit "http://localhost:2375") []).2.2.1 goJson (lit "e90e34656806")
    (some [lit "/bin/sh", lit "-c", lit "top -b -n 1 | head -4 | tail -2"])
    (lit "\x7b\"AttachStdin\":false,\"AttachStdout\":true,\"AttachStderr\":true,\"Tty\":true,\"Cmd\":[\"/bin/sh\",\"-c\",\"top -b -n 1 | head -4 | tail -2\"]\x7d")
    rfl

end dockerclient

/-!
## The driver
-/

namespace dockermanager

open httpclient dockerclient GoError

/-- The readiness loop after `n` checks that found the container not yet
running. -/
theorem waitLoop_stillWaiting {σ : Type} (d : Docker σ) (containerID : GoString) (n : Nat)
    (rest : List ReadyEvent) (p : Process σ) (w : σ)
    (hw : stillWaiting d containerID n p.world = some w) :
    waitLoop d containerID (List.replicate n .check ++ rest) p =
      waitLoop d containerID rest { p with world := w } := by
  induction n generalizing p with
  | zero =>
    simp only [stillWaiting, Option.some.injEq] at hw
    subst hw
    simp
  | succ n ih =>
    simp only [stillWaiting] at hw
    simp only [List.replicate_succ, List.cons_append, waitLoop]
    split at hw
    · rename_i w1 hc
      rw [hc]
      exact ih { p with world := w1 } hw
    · exact absurd hw (by simp)

/-- C13. The readiness loop, on the sequence of ticker events it selects.
Let the first `n` events selected be checks on which `CheckIfContainerIsReady`
returns `(false, nil)`.  If the next event is a check on which it returns
`(true, nil)`, the loop exits normally at that event, whatever the events
after it, and `main` goes on to the interactive loop.  If the next event is a
timeout tick, the process exits through `log.Fatal` with the message that the
container did not get into running status for 180s.  A check that returns
`(false, nil)` leaves the loop waiting: with no further event the run is still
in the loop. -/
theorem readiness_loop {σ : Type} (d : Docker σ) (containerID : GoString) (n : Nat)
    (p : Process σ) (w : σ) (hw : stillWaiting d containerID n p.world = some w) :
    (∀ after w1, d.CheckIfContainerIsReady containerID w = ((true, none), w1) →
      waitReady d containerID (List.replicate n .check ++ .check :: after) p =
        (.next (), { world := w1, output := p.output ++
          [.log (lit "waiting for container to be in running state...")] })) ∧
    (∀ after,
      waitReady d containerID (List.replicate n .check ++ .timeout :: after) p =
        (.halt .fatal, { world := w, output := p.output ++
          [.log (lit "waiting for container to be in running state..."),
            .log (lit "the container didn't get into running status for 180s")] })) ∧
    (waitReady d containerID (List.replicate n .check) p =
        (.halt .running, { world := w, output := p.output ++
          [.log (lit "waiting for container to be in running state...")] })) ∧
    (∀ after w1, d.CheckIfContainerIsReady containerID w = ((false, none), w1) →
      waitReady d containerID (List.replicate n .check ++ .check :: after) p =
        waitLoop d containerID after { world := w1, output := p.output ++
          [.log (lit "waiting for container to be in running state...")] }) ∧
    (∀ (sched : Schedule) (p0 p1 : Process σ) after w1,
      ensureImage d p0 = (.next (), p1) → createAndRun d p1 = (.next containerID, p) →
      sched.ready = List.replicate n .check ++ .check :: after →
      d.CheckIfContainerIsReady containerID w = ((true, none), w1) →
      mainBody d sched p0 =
        match interactive d containerID sched { world := w1, output := p.output ++
            [.log (lit "waiting for container to be in running state...")] } with
        | (.halt o, p4) => (o, p4)
        | (.next (), p4) => teardown d containerID p4) ∧
    (∀ (sched : Schedule) (p0 p1 : Process σ) after,
      ensureImage d p0 = (.next (), p1) → createAndRun d p1 = (.next containerID, p) →
      sched.ready = List.replicate n .check ++ .timeout :: after →
      mainBody d sched p0 =
        (.fatal, { world := w, output := p.output ++
          [.log (lit "waiting for container to be in running state..."),
            .log (lit "the container didn't get into running status for 180s")] })) := by
  have hw2 : stillWaiting d containerID n
      (p.print (.log (lit "waiting for container to be in running state..."))).world =
        some w := hw
  have ready : ∀ after w1, d.CheckIfContainerIsReady containerID w = ((true, none), w1) →
      waitReady d containerID (List.replicate n .check ++ .check :: after) p =
        (.next (), { world := w1, output := p.output ++
          [.log (lit "waiting for container to be in running state...")] }) := by
    intro after w1 hc
    unfold waitReady
    rw [waitLoop_stillWaiting d containerID n _ _ w hw2]
    simp [waitLoop, hc, Process.print]
  have timeout : ∀ after,
      waitReady d containerID (List.replicate n .check ++ .timeout :: after) p =
        (.halt .fatal, { world := w, output := p.output ++
          [.log (lit "waiting for container to be in running state..."),
            .log (lit "the container didn't get into running status for 180s")] }) := by
    intro after
    unfold waitReady
    rw [waitLoop_stillWaiting d containerID n _ _ w hw2]
    simp [waitLoop, Process.print]
  refine ⟨ready, timeout, ?_, ?_, ?_, ?_⟩
  · unfold waitReady
    have h := waitLoop_stillWaiting d containerID n [] _ w hw2
    rw [List.append_nil] at h
    rw [h]
    simp [waitLoop, Process.print]
  · intro after w1 hc
    unfold waitReady
    rw [waitLoop_stillWaiting d containerID n _ _ w hw2]
    simp [waitLoop, hc, Process.print]
  · intro sched p0 p1 after w1 h1 h2 hs hc
    simp only [mainBody, h1, h2, hs, ready after w1 hc]
  · intro sched p0 p1 after h1 h2 hs
    simp only [mainBody, h1, h2, hs, timeout after]

/-- Witness of C13: after two checks that find the container created but not
running, a third finds it running and the loop exits, though a timeout tick
comes after. -/
theorem readiness_loop_witness :
    waitReady
      (asDocker goJson (NewSimpeDocker DefaultDockerEndpoint (recorder (scripted
        [.ok { StatusCode := 200, Body := createdStateBody },
          .ok { StatusCode := 200, Body := createdStateBody },
          .ok { StatusCode := 200, Body := inspectRunningBody }]))))
      (lit "e90e34656806") (List.replicate 2 .check ++ .check :: [.timeout])
      { world := [], output := [] } =
    (.next (),
      { world :=
          [.Get (lit "http://localhost:2375/containers/e90e34656806/json") [],
            .Get (lit "http://localhost:2375/containers/e90e34656806/json") [],
            .Get (lit "http://localhost:2375/containers/e90e34656806/json") []],
        output := [] ++ [.log (lit "waiting for container to be in running state...")] }) :=
  (readiness_loop
    (asDocker goJson (NewSimpeDocker DefaultDockerEndpoint (recorder (scripted
      [.ok { StatusCode := 200, Body := createdStateBody },
        .ok { StatusCode := 200, Body := createdStateBody },
        .ok { StatusCode := 200, Body := inspectRunningBody }]))))
    (lit "e90e34656806") 2 { world := [], output := [] }
    [.Get (lit "http://localhost:2375/containers/e90e34656806/json") [],
      .Get (lit "http://localhost:2375/containers/e90e34656806/json") []]
    rfl).1 [.timeout] _ rfl

/-- The client `SimpleDocker` over a recording `HttpClient` only adds to the
record. -/
theorem asDocker_recorder_extending (json : EncodingJson) (dockerEndpoint : GoString)
    (answer : List Request → Request → Except GoError HttpResponse) :
    Extending (asDocker json (NewSimpeDocker dockerEndpoint (recorder answer))) := by
  refine ⟨?_, ?_, ?_, ?_, ?_, ?_, ?_, ?_, ?_⟩
  · intro dockerImage tag w
    exact ⟨_, CheckIfImageAlreadyExists_request answer dockerEndpoint w dockerImage tag⟩
  · intro dockerImage tag arch w
    exact ⟨_, PullImageFromRegistry_request answer dockerEndpoint w dockerImage tag arch⟩
  · intro containerName image tag cmd w
    cases hm : json.MarshalCreateContainerBody { Cmd := cmd, Image := image ++ lit ":" ++ tag } with
    | error err =>
      exact ⟨[], by simp only [asDocker, CreateContainer, Sprintf_image_tag, hm, List.append_nil]⟩
    | ok jsonBodyRequest =>
      exact ⟨_, CreateContainer_request answer dockerEndpoint w json containerName image tag cmd
        jsonBodyRequest hm⟩
  · intro containerID w
    exact ⟨_, RunContainer_request answer dockerEndpoint w containerID⟩
  · intro containerID w
    exact ⟨_, CheckIfContainerIsReady_request answer dockerEndpoint w json containerID⟩
  · intro containerID commands w
    cases hm : json.MarshalGenerateExecInstanceBody
        { AttachStdin := false, AttachStdout := true, AttachStderr := true, Tty := true,
          Cmd := commands } with
    | error err =>
      exact ⟨[], by simp only [asDocker, GenerateExecInstance, hm, List.append_nil]⟩
    | ok jsonBodyRequest =>
      exact ⟨_, GenerateExecInstance_request answer dockerEndpoint w json containerID commands
        jsonBodyRequest hm⟩
  · intro execInstanceID w
    cases hm : json.MarshalStartExecInstance { Detach := false, Tty := true } with
    | error err =>
      exact ⟨[], by simp only [asDocker, StartExecInstance, hm, List.append_nil]⟩
    | ok jsonBodyRequest =>
      exact ⟨_, StartExecInstance_request answer dockerEndpoint w json execInstanceID
        jsonBodyRequest hm⟩
  · intro containerID w
    exact ⟨_, StopContainer_request answer dockerEndpoint w containerID⟩
  · intro containerID w
    exact ⟨_, RemoveContainer_request answer dockerEndpoint w containerID⟩

/-- The part `createAndRun` only adds to the world of an extending client. -/
theorem createAndRun_extends {α : Type} (d : Docker (List α)) (hd : Extending d)
    (p : Process (List α)) : ∃ more, (createAndRun d p).2.world = p.world ++ more := by
  obtain ⟨m1, hm1⟩ := hd.2.2.1 DockerContainerName DockerImage DockerImageTag
    (some [lit "sleep", lit "infinity"]) p.world
  rcases h1 : d.CreateContainer DockerContainerName DockerImage DockerImageTag
      (some [lit "sleep", lit "infinity"]) p.world with ⟨⟨containerID, err⟩, w1⟩
  rw [h1] at hm1
  simp only at hm1
  cases err with
  | some err => exact ⟨m1,
    by
      simp only [createAndRun, h1, logFatal, Process.print]
      simp [hm1]⟩
  | none =>
    obtain ⟨m2, hm2⟩ := hd.2.2.2.1 containerID w1
    rcases h2 : d.RunContainer containerID w1 with ⟨err, w2⟩
    rw [h2] at hm2
    simp only at hm2
    cases err with
    | some err =>
      exact ⟨m1 ++ m2,
        by
          simp only [createAndRun, h1, h2, logFatal, Process.print]
          simp [hm1, hm2]⟩
    | none => exact ⟨m1 ++ m2,
      by
        simp only [createAndRun, h1, h2]
        simp [hm1, hm2]⟩

/-- The readiness loop only adds to the world of an extending client. -/
theorem waitLoop_extends {α : Type} (d : Docker (List α)) (hd : Extending d)
    (containerID : GoString) (events : List ReadyEvent) (p : Process (List α)) :
    ∃ more, (waitLoop d containerID events p).2.world = p.world ++ more := by
  induction events generalizing p with
  | nil => exact ⟨[], by simp [waitLoop]⟩
  | cons ev rest ih =>
    cases ev with
    | timeout => exact ⟨[], by simp [waitLoop, Process.print]⟩
    | check =>
      obtain ⟨m1, hm1⟩ := hd.2.2.2.2.1 containerID p.world
      rcases h1 : d.CheckIfContainerIsReady containerID p.world with ⟨⟨status, err⟩, w1⟩
      rw [h1] at hm1
      simp only at hm1
      cases err with
      | some err => exact ⟨m1,
        by
          simp only [waitLoop, h1, logFatal, Process.print]
          simp [hm1]⟩
      | none =>
        cases status with
        | true => exact ⟨m1,
          by
            simp only [waitLoop, h1]
            simp [hm1]⟩
        | false =>
          obtain ⟨m2, hm2⟩ := ih { p with world := w1 }
          refine ⟨m1 ++ m2, ?_⟩
          simp only [waitLoop, h1]
          rw [hm2]
          simp [hm1]

/-- The display loop only adds to the world of an extending client. -/
theorem executeCommandAndPrint_extends {α : Type} (d : Docker (List α)) (hd : Extending d)
    (containerID : GoString) (done : List Bool) (ticks : Nat) (p : Process (List α)) :
    ∃ more, (executeCommandAndPrint d containerID done ticks p).2.world = p.world ++ more := by
  induction ticks generalizing p with
  | zero =>
    cases done with
    | nil => exact ⟨[], by simp [executeCommandAndPrint]⟩
    | cons v vs => exact ⟨[], by simp [executeCommandAndPrint]⟩
  | succ ticks ih =>
    obtain ⟨m1, hm1⟩ := hd.2.2.2.2.2.1 containerID
      (some [lit "/bin/sh", lit "-c", lit "top -b -n 1 | head -4 | tail -2"]) p.world
    rcases h1 : d.GenerateExecInstance containerID
        (some [lit "/bin/sh", lit "-c", lit "top -b -n 1 | head -4 | tail -2"]) p.world with
      ⟨⟨execID, err⟩, w1⟩
    rw [h1] at hm1
    simp only at hm1
    cases err with
    | some err =>
      exact ⟨m1,
        by
          simp only [executeCommandAndPrint, h1, logFatal, Process.print]
          simp [hm1]⟩
    | none =>
      obtain ⟨m2, hm2⟩ := hd.2.2.2.2.2.2.1 execID w1
      rcases h2 : d.StartExecInstance execID w1 with ⟨⟨output, err⟩, w2⟩
      rw [h2] at hm2
      simp only at hm2
      cases err with
      | some err =>
        exact ⟨m1 ++ m2,
          by
            simp only [executeCommandAndPrint, h1, h2, logFatal, Process.print]
            simp [hm1, hm2]⟩
      | none =>
        obtain ⟨m3, hm3⟩ := ih (Process.print { p with world := w2 }
          (.screen (Sprintf "Type \"e\" and press ENTER to finish\n%s" [output])))
        refine ⟨m1 ++ m2 ++ m3, ?_⟩
        simp only [executeCommandAndPrint, h1, h2]
        rw [hm3]
        simp [Process.print, hm1, hm2]

/-- The part `teardown` only adds to the world of an extending client. -/
theorem teardown_extends {α : Type} (d : Docker (List α)) (hd : Extending d)
    (containerID : GoString) (p : Process (List α)) :
    ∃ more, (teardown d containerID p).2.world = p.world ++ more := by
  obtain ⟨m1, hm1⟩ := hd.2.2.2.2.2.2.2.1 containerID p.world
  rcases h1 : d.StopContainer containerID p.world with ⟨⟨stopped, err⟩, w1⟩
  rw [h1] at hm1
  simp only at hm1
  cases err with
  | some err => exact ⟨m1,
    by
      simp only [teardown, h1]
      simp [hm1]⟩
  | none =>
    obtain ⟨m2, hm2⟩ := hd.2.2.2.2.2.2.2.2 containerID w1
    rcases h2 : d.RemoveContainer containerID w1 with ⟨err, w2⟩
    rw [h2] at hm2
    simp only at hm2
    cases err with
    | some err => exact ⟨m1 ++ m2,
      by
        simp only [teardown, h1, h2]
        simp [hm1, hm2]⟩
    | none => exact ⟨m1 ++ m2,
      by
        simp only [teardown, h1, h2]
        simp [hm1, hm2]⟩

/-- All that `mainBody` does after `ensureImage` only adds to the world of an
extending client. -/
theorem mainBody_extends {α : Type} (d : Docker (List α)) (hd : Extending d)
    (sched : Schedule) (p : Process (List α)) :
    ∃ more, (mainBody d sched p).2.world = (ensureImage d p).2.world ++ more := by
  rcases hr1 : ensureImage d p with ⟨f1, p1⟩
  cases f1 with
  | halt o => exact ⟨[], by simp [mainBody, hr1]⟩
  | next u =>
    obtain ⟨m2, hm2⟩ := createAndRun_extends d hd p1
    rcases hr2 : createAndRun d p1 with ⟨f2, p2⟩
    rw [hr2] at hm2
    simp only at hm2
    cases f2 with
    | halt o => exact ⟨m2,
      by
        simp only [mainBody, hr1, hr2]
        simp [hm2]⟩
    | next containerID =>
      obtain ⟨m3, hm3⟩ := waitLoop_extends d hd containerID sched.ready
        (p2.print (.log (lit "waiting for container to be in running state...")))
      rcases hr3 : waitReady d containerID sched.ready p2 with ⟨f3, p3⟩
      have hr3' : waitLoop d containerID sched.ready
          (p2.print (.log (lit "waiting for container to be in running state..."))) =
            (f3, p3) := hr3
      rw [hr3'] at hm3
      simp only [Process.print] at hm3
      cases f3 with
      | halt o => exact ⟨m2 ++ m3,
        by
          simp only [mainBody, hr1, hr2, hr3]
          simp [hm2, hm3]⟩
      | next u3 =>
        obtain ⟨m4, hm4⟩ := executeCommandAndPrint_extends d hd containerID
          (readKeyboardEvent sched.stdin).1 sched.ticks p3
        rcases hr4 : executeCommandAndPrint d containerID (readKeyboardEvent sched.stdin).1
          sched.ticks p3 with ⟨f4, p4⟩
        rw [hr4] at hm4
        simp only at hm4
        cases f4 with
        | halt o =>
          exact ⟨m2 ++ m3 ++ m4,
            by
              simp only [mainBody, hr1, hr2, hr3, interactive, hr4]
              simp [hm2, hm3, hm4]⟩
        | next u4 =>
          obtain ⟨m5, hm5⟩ := teardown_extends d hd containerID p4
          refine ⟨m2 ++ m3 ++ m4 ++ m5, ?_⟩
          simp only [mainBody, hr1, hr2, hr3, interactive, hr4]
          rw [hm5]
          simp [hm2, hm3, hm4]

/-- The first request of `ensureImage` on a recording client: the inspection
of the image `ubuntu:20.04` at the endpoint of the client. -/
theorem ensureImage_first_request (json : EncodingJson) (dockerEndpoint : GoString)
    (answer : List Request → Request → Except GoError HttpResponse)
    (p : Process (List Request)) :
    ∃ more, (ensureImage (asDocker json (NewSimpeDocker dockerEndpoint (recorder answer)))
        p).2.world =
      p.world ++ .Get (dockerEndpoint ++ lit "/images/ubuntu:20.04/json") [] :: more := by
  have hurl : dockerEndpoint ++ lit "/images/" ++ DockerImage ++ lit ":" ++ DockerImageTag ++
      lit "/json" = dockerEndpoint ++ lit "/images/ubuntu:20.04/json" := by
    simp [DockerImage, DockerImageTag, lit, String.utf8EncodeChar]
  have hm1 := CheckIfImageAlreadyExists_request answer dockerEndpoint p.world DockerImage
    DockerImageTag
  rw [hurl] at hm1
  rcases h1 : CheckIfImageAlreadyExists (NewSimpeDocker dockerEndpoint (recorder answer))
      DockerImage DockerImageTag p.world with ⟨⟨found, err⟩, w1⟩
  rw [h1] at hm1
  simp only at hm1
  cases err with
  | some err => exact ⟨[],
    by
      simp only [ensureImage, asDocker, h1, logFatal, Process.print]
      simp [hm1]⟩
  | none =>
    cases found with
    | true => exact ⟨[],
      by
        simp only [ensureImage, asDocker, h1]
        simp [hm1]⟩
    | false =>
      have hm2 := PullImageFromRegistry_request answer dockerEndpoint w1 DockerImage
        DockerImageTag DockerImageArch
      rcases h2 : PullImageFromRegistry (NewSimpeDocker dockerEndpoint (recorder answer))
          DockerImage DockerImageTag DockerImageArch w1 with ⟨err, w2⟩
      rw [h2] at hm2
      simp only at hm2
      cases err with
      | some err =>
        refine ⟨[.Post (dockerEndpoint ++ lit "/images/create?fromImage=" ++ DockerImage ++
          lit "&tag=" ++ DockerImageTag ++ lit "&platform=" ++ DockerImageArch) [] (lit "")], ?_⟩
        simp only [ensureImage, asDocker, h1, h2, logFatal, Process.print]
        simp [hm1, hm2]
      | none =>
        refine ⟨[.Post (dockerEndpoint ++ lit "/images/create?fromImage=" ++ DockerImage ++
          lit "&tag=" ++ DockerImageTag ++ lit "&platform=" ++ DockerImageArch) [] (lit "")], ?_⟩
        simp only [ensureImage, asDocker, h1, h2]
        simp [hm1, hm2]

/-- The first request of a run of `main` that does not print the usage text. -/
theorem main_first_request (json : EncodingJson)
    (answer : List Request → Request → Except GoError HttpResponse) (inv : Invocation)
    (sched : Schedule) (hh : inv.h = false) :
    ∃ more, (main json (recorder answer) inv sched []).2.world =
      .Get ((match inv.env with
          | some envVar => envVar
          | none => inv.e.getD DefaultDockerEndpoint) ++ lit "/images/ubuntu:20.04/json") [] ::
        more := by
  obtain ⟨m1, h1⟩ := ensureImage_first_request json
    (match inv.env with
      | some envVar => envVar
      | none => inv.e.getD DefaultDockerEndpoint)
    answer
    { world := [], output := [.log (Sprintf "docker manager set to %s"
      [match inv.env with
        | some envVar => envVar
        | none => inv.e.getD DefaultDockerEndpoint])] }
  obtain ⟨m2, h2⟩ := mainBody_extends
    (asDocker json (NewSimpeDocker
      (match inv.env with
        | some envVar => envVar
        | none => inv.e.getD DefaultDockerEndpoint)
      (recorder answer)))
    (asDocker_recorder_extending json _ answer) sched
    { world := [], output := [.log (Sprintf "docker manager set to %s"
      [match inv.env with
        | some envVar => envVar
        | none => inv.e.getD DefaultDockerEndpoint])] }
  refine ⟨m1 ++ m2, ?_⟩
  have hmain : main json (recorder answer) inv sched [] =
      mainBody
        (asDocker json (NewSimpeDocker
          (match inv.env with
            | some envVar => envVar
            | none => inv.e.getD DefaultDockerEndpoint)
          (recorder answer)))
        sched
        { world := [], output := [.log (Sprintf "docker manager set to %s"
          [match inv.env with
            | some envVar => envVar
            | none => inv.e.getD DefaultDockerEndpoint])] } := by
    simp [main, hh]
  rw [hmain, h2, h1]
  simp

/-- C15. The endpoint of the client `main` builds is a function of the flag
`-e` and of the variable `DOCKER_MANAGER_ENDPOINT`: the value of the variable
when it is present, be it empty, whatever the flag; else the value of the
flag when it is given; else `http://localhost:2375`.  It is the endpoint of
the client the rest of `main` runs on, and the first request of the run, the
inspection of the image, goes to it. -/
theorem endpoint_resolution {σ : Type} (json : EncodingJson) (httpClient : HttpClient σ)
    (inv : Invocation) (sched : Schedule) (w : σ) (hh : inv.h = false) :
    (∀ envVar, inv.env = some envVar →
      main json httpClient inv sched w =
        mainBody (asDocker json (NewSimpeDocker envVar httpClient)) sched
          { world := w, output := [.log (lit "docker manager set to " ++ envVar)] } ∧
      ∀ answer, ∃ more, (main json (recorder answer) inv sched []).2.world =
        .Get (envVar ++ lit "/images/ubuntu:20.04/json") [] :: more) ∧
    (∀ flagValue, inv.env = none → inv.e = some flagValue →
      main json httpClient inv sched w =
        mainBody (asDocker json (NewSimpeDocker flagValue httpClient)) sched
          { world := w, output := [.log (lit "docker manager set to " ++ flagValue)] } ∧
      ∀ answer, ∃ more, (main json (recorder answer) inv sched []).2.world =
        .Get (flagValue ++ lit "/images/ubuntu:20.04/json") [] :: more) ∧
    (inv.env = none → inv.e = none →
      main json httpClient inv sched w =
        mainBody (asDocker json (NewSimpeDocker (lit "http://localhost:2375") httpClient)) sched
          { world := w,
            output := [.log (lit "docker manager set to " ++ lit "http://localhost:2375")] } ∧
      ∀ answer, ∃ more, (main json (recorder answer) inv sched []).2.world =
        .Get (lit "http://localhost:2375" ++ lit "/images/ubuntu:20.04/json") [] :: more) := by
  have hfmt : ∀ x : GoString, Sprintf "docker manager set to %s" [x] =
      lit "docker manager set to " ++ x := by
    intro x
    simp [Sprintf, sprintfChars, lit, String.utf8EncodeChar]
  refine ⟨?_, ?_, ?_⟩
  · intro envVar he
    refine ⟨by simp [main, hh, he, hfmt], ?_⟩
    intro answer
    have h := main_first_request json answer inv sched hh
    rw [he] at h
    exact h
  · intro flagValue he hf
    refine ⟨by simp [main, hh, he, hf, hfmt], ?_⟩
    intro answer
    have h := main_first_request json answer inv sched hh
    rw [he, hf] at h
    exact h
  · intro he hf
    refine ⟨by simp [main, hh, he, hf, hfmt, DefaultDockerEndpoint], ?_⟩
    intro answer
    have h := main_first_request json answer inv sched hh
    rw [he, hf] at h
    exact h

/-- Witness of C15: with the variable present and empty, the endpoint is
empty though the flag is given, and the first request goes to the path
alone. -/
theorem endpoint_resolution_witness :
    main goJson (recorder (scripted []))
      { h := false, e := some (lit "http://10.0.0.7:2375"), env := some (lit "") }
      oneTickSchedule [] =
    (.fatal,
      { world := [.Get (lit "/images/ubuntu:20.04/json") []],
        output := [.log (lit "docker manager set to "),
          .logError (Errorf
            "there was an issue with HTTP client when performing GET on %s/images/%s:%s/json - %s"
            [lit "", lit "ubuntu", lit "20.04"] (.other (lit "connection refused")))] }) :=
  ((endpoint_resolution goJson (recorder (scripted []))
    { h := false, e := some (lit "http://10.0.0.7:2375"), env := some (lit "") }
    oneTickSchedule [] rfl).1 (lit "") rfl).1.trans rfl

/-!
### The calls of a run

The lemmas below say, for each part of `main` run on a traced client, which
calls it adds to the list of calls and how it ends.
-/

/-- The empty list of calls is clean. -/
theorem Clean_nil : Clean [] := by
  intro c hc
  cases hc

/-- A list of calls put after another is clean when both are. -/
theorem Clean_append {a b : List Call} : Clean (a ++ b) ↔ Clean a ∧ Clean b := by
  unfold Clean
  constructor
  · intro h
    exact ⟨fun c hc => h c (List.mem_append_left b hc), fun c hc => h c (List.mem_append_right a hc)⟩
  · rintro ⟨ha, hb⟩ c hc
    rcases List.mem_append.mp hc with h | h
    · exact ha c h
    · exact hb c h

/-- A list of calls is clean when its first call and the rest are. -/
theorem Clean_cons {c : Call} {a : List Call} : Clean (c :: a) ↔ c.err = none ∧ Clean a := by
  unfold Clean
  simp

/-- Clean calls before a list that failed at its last call: the whole failed at its last
call. -/
theorem FailedAt_append {a b : List Call} {output : List Output} (ha : Clean a)
    (hb : FailedAt b output) : FailedAt (a ++ b) output := by
  obtain ⟨before, c, err, hb1, hb2, hb3, hb4⟩ := hb
  refine ⟨a ++ before, c, err, ?_, Clean_append.mpr ⟨ha, hb2⟩, hb3, hb4⟩
  rw [hb1, List.append_assoc]

/-- One call that returned the error logged last. -/
theorem FailedAt_single {c : Call} {err : GoError} {output : List Output} (hc : c.err = some err)
    (ho : output.getLast? = some (.logError err)) : FailedAt [c] output :=
  ⟨[], c, err, rfl, Clean_nil, hc, ho⟩

/-- A list of calls that is clean, or ends with the call that failed, has its
only call with an error at the end. -/
theorem error_is_last {calls : List Call} {output : List Output} {o : Outcome}
    (h : Clean calls ∨ (o = .fatal ∧ FailedAt calls output))
    (before : List Call) (c : Call) (after : List Call) (hc : calls = before ++ c :: after)
    (he : c.err ≠ none) :
    after = [] ∧ o = .fatal ∧ Clean before ∧
      ∃ err, c.err = some err ∧ output.getLast? = some (.logError err) := by
  rcases h with h | ⟨ho, pre, c1, err, h1, h2, h3, h4⟩
  · exact absurd (h c (by simp [hc])) he
  · have hlen : after = [] := by
      rcases List.eq_nil_or_concat after with h0 | ⟨init, z, hz⟩
      · exact h0
      · exfalso
        rw [hz] at hc
        rw [h1] at hc
        have hc2 : pre ++ [c1] = (before ++ c :: init) ++ [z] := by simp [hc]
        have hpre : pre = before ++ c :: init := List.append_inj_left' hc2 rfl
        exact he (h2 c (by simp [hpre]))
    subst hlen
    rw [h1] at hc
    have hc2 : pre ++ [c1] = before ++ [c] := hc
    have hpre : pre = before := List.append_inj_left' hc2 rfl
    have hcc : [c1] = [c] := List.append_inj_right' hc2 rfl
    simp only [List.cons.injEq, and_true] at hcc
    subst hpre
    subst hcc
    exact ⟨rfl, ho, h2, err, h3, h4⟩

/-- The calls of `ensureImage`. -/
theorem ensureImage_traced {σ : Type} (d : Docker σ) (p : Process (σ × List Call)) :
    ∃ new, (ensureImage (traced d) p).2.world.2 = p.world.2 ++ new ∧
      (∀ c ∈ new, c.isTeardown = false) ∧
      (((ensureImage (traced d) p).1 = .next () ∧ ∃ found,
          new = .CheckIfImageAlreadyExists DockerImage DockerImageTag (found, none) ::
            (if found then []
              else [.PullImageFromRegistry DockerImage DockerImageTag DockerImageArch none])) ∨
        ((ensureImage (traced d) p).1 = .halt .fatal ∧
          FailedAt new (ensureImage (traced d) p).2.output)) := by
  rcases h1 : d.CheckIfImageAlreadyExists DockerImage DockerImageTag p.world.1 with
    ⟨⟨found, err⟩, w1⟩
  cases err with
  | some err =>
    refine ⟨[.CheckIfImageAlreadyExists DockerImage DockerImageTag (found, some err)], ?_, ?_,
      Or.inr ⟨?_, ?_⟩⟩
    · simp [ensureImage, traced, h1, logFatal, Process.print]
    · simp [Call.isTeardown]
    · simp [ensureImage, traced, h1, logFatal]
    · exact FailedAt_single rfl (by simp [ensureImage, traced, h1, logFatal, Process.print])
  | none =>
    cases found with
    | true =>
      refine ⟨[.CheckIfImageAlreadyExists DockerImage DockerImageTag (true, none)], ?_, ?_,
        Or.inl ⟨?_, true, rfl⟩⟩
      · simp [ensureImage, traced, h1]
      · simp [Call.isTeardown]
      · simp [ensureImage, traced, h1]
    | false =>
      rcases h2 : d.PullImageFromRegistry DockerImage DockerImageTag DockerImageArch w1 with
        ⟨err, w2⟩
      cases err with
      | some err =>
        refine ⟨[.CheckIfImageAlreadyExists DockerImage DockerImageTag (false, none),
          .PullImageFromRegistry DockerImage DockerImageTag DockerImageArch (some err)], ?_, ?_,
          Or.inr ⟨?_, ?_⟩⟩
        · simp [ensureImage, traced, h1, h2, logFatal, Process.print]
        · simp [Call.isTeardown]
        · simp [ensureImage, traced, h1, h2, logFatal]
        · refine ⟨[.CheckIfImageAlreadyExists DockerImage DockerImageTag (false, none)], _, err,
            rfl, ?_, rfl, ?_⟩
          · simp [Clean, Call.err]
          · simp [ensureImage, traced, h1, h2, logFatal, Process.print]
      | none =>
        refine ⟨[.CheckIfImageAlreadyExists DockerImage DockerImageTag (false, none),
          .PullImageFromRegistry DockerImage DockerImageTag DockerImageArch none], ?_, ?_,
          Or.inl ⟨?_, false, rfl⟩⟩
        · simp [ensureImage, traced, h1, h2]
        · simp [Call.isTeardown]
        · simp [ensureImage, traced, h1, h2]

/-- The calls of `createAndRun`. -/
theorem createAndRun_traced {σ : Type} (d : Docker σ) (p : Process (σ × List Call)) :
    ∃ new, (createAndRun (traced d) p).2.world.2 = p.world.2 ++ new ∧
      (∀ c ∈ new, c.isTeardown = false) ∧
      ((∃ containerID, (createAndRun (traced d) p).1 = .next containerID ∧
          new = [.CreateContainer DockerContainerName DockerImage DockerImageTag
              (some [lit "sleep", lit "infinity"]) (containerID, none),
            .RunContainer containerID none]) ∨
        ((createAndRun (traced d) p).1 = .halt .fatal ∧
          FailedAt new (createAndRun (traced d) p).2.output)) := by
  rcases h1 : d.CreateContainer DockerContainerName DockerImage DockerImageTag
      (some [lit "sleep", lit "infinity"]) p.world.1 with ⟨⟨containerID, err⟩, w1⟩
  cases err with
  | some err =>
    refine ⟨[.CreateContainer DockerContainerName DockerImage DockerImageTag
      (some [lit "sleep", lit "infinity"]) (containerID, some err)], ?_, ?_, Or.inr ⟨?_, ?_⟩⟩
    · simp [createAndRun, traced, h1, logFatal, Process.print]
    · simp [Call.isTeardown]
    · simp [createAndRun, traced, h1, logFatal]
    · exact FailedAt_single rfl (by simp [createAndRun, traced, h1, logFatal, Process.print])
  | none =>
    rcases h2 : d.RunContainer containerID w1 with ⟨err, w2⟩
    cases err with
    | some err =>
      refine ⟨[.CreateContainer DockerContainerName DockerImage DockerImageTag
          (some [lit "sleep", lit "infinity"]) (containerID, none),
        .RunContainer containerID (some err)], ?_, ?_, Or.inr ⟨?_, ?_⟩⟩
      · simp [createAndRun, traced, h1, h2, logFatal, Process.print]
      · simp [Call.isTeardown]
      · simp [createAndRun, traced, h1, h2, logFatal]
      · refine ⟨[.CreateContainer DockerContainerName DockerImage DockerImageTag
          (some [lit "sleep", lit "infinity"]) (containerID, none)], _, err, rfl, ?_, rfl, ?_⟩
        · simp [Clean, Call.err]
        · simp [createAndRun, traced, h1, h2, logFatal, Process.print]
    | none =>
      refine ⟨[.CreateContainer DockerContainerName DockerImage DockerImageTag
          (some [lit "sleep", lit "infinity"]) (containerID, none),
        .RunContainer containerID none], ?_, ?_, Or.inl ⟨containerID, ?_, rfl⟩⟩
      · simp [createAndRun, traced, h1, h2]
      · simp [Call.isTeardown]
      · simp [createAndRun, traced, h1, h2]

/-- The calls of `teardown`. -/
theorem teardown_traced {σ : Type} (d : Docker σ) (containerID : GoString)
    (p : Process (σ × List Call)) :
    ∃ result later, (teardown (traced d) containerID p).2.world.2 =
        p.world.2 ++ .StopContainer containerID result :: later ∧
      ((∃ err, result.2 = some err ∧ later = [] ∧
          (teardown (traced d) containerID p).1 = .fatal ∧
          (teardown (traced d) containerID p).2.output.getLast? = some (.logError err)) ∨
        (result.2 = none ∧ ∃ err, later = [.RemoveContainer containerID (some err)] ∧
          (teardown (traced d) containerID p).1 = .fatal ∧
          (teardown (traced d) containerID p).2.output.getLast? = some (.logError err)) ∨
        (result.2 = none ∧ later = [.RemoveContainer containerID none] ∧
          (teardown (traced d) containerID p).1 = .returned)) := by
  rcases h1 : d.StopContainer containerID p.world.1 with ⟨⟨stopped, err⟩, w1⟩
  cases err with
  | some err =>
    refine ⟨(stopped, some err), [], ?_, Or.inl ⟨err, rfl, rfl, ?_, ?_⟩⟩
    · simp [teardown, traced, h1]
    · simp [teardown, traced, h1]
    · simp [teardown, traced, h1]
  | none =>
    rcases h2 : d.RemoveContainer containerID w1 with ⟨err, w2⟩
    cases err with
    | some err =>
      refine ⟨(stopped, none), [.RemoveContainer containerID (some err)], ?_,
        Or.inr (Or.inl ⟨rfl, err, rfl, ?_, ?_⟩)⟩
      · simp [teardown, traced, h1, h2]
      · simp [teardown, traced, h1, h2]
      · simp [teardown, traced, h1, h2]
    | none =>
      refine ⟨(stopped, none), [.RemoveContainer containerID none], ?_,
        Or.inr (Or.inr ⟨rfl, rfl, ?_⟩)⟩
      · simp [teardown, traced, h1, h2]
      · simp [teardown, traced, h1, h2]

/-- The calls of the readiness loop. -/
theorem waitLoop_traced {σ : Type} (d : Docker σ) (containerID : GoString)
    (events : List ReadyEvent) (p : Process (σ × List Call)) :
    ∃ new, (waitLoop (traced d) containerID events p).2.world.2 = p.world.2 ++ new ∧
      (∀ c ∈ new, c.isTeardown = false) ∧
      (((waitLoop (traced d) containerID events p).1 = .next () ∧ ∃ n,
          new = List.replicate n (.CheckIfContainerIsReady containerID (false, none)) ++
            [.CheckIfContainerIsReady containerID (true, none)]) ∨
        (∃ o, (waitLoop (traced d) containerID events p).1 = .halt o ∧ o ≠ .returned ∧
          ((∃ n, new = List.replicate n (.CheckIfContainerIsReady containerID (false, none))) ∨
            (o = .fatal ∧ FailedAt new (waitLoop (traced d) containerID events p).2.output)))) := by
  induction events generalizing p with
  | nil =>
    exact ⟨[], by simp [waitLoop], by simp, Or.inr ⟨.running, by simp [waitLoop], by simp,
      Or.inl ⟨0, rfl⟩⟩⟩
  | cons ev rest ih =>
    cases ev with
    | timeout =>
      exact ⟨[], by simp [waitLoop, Process.print], by simp,
        Or.inr ⟨.fatal, by simp [waitLoop], by simp, Or.inl ⟨0, rfl⟩⟩⟩
    | check =>
      rcases h1 : d.CheckIfContainerIsReady containerID p.world.1 with ⟨⟨status, err⟩, w1⟩
      cases err with
      | some err =>
        refine ⟨[.CheckIfContainerIsReady containerID (status, some err)], ?_, ?_,
          Or.inr ⟨.fatal, ?_, by simp, Or.inr ⟨rfl, ?_⟩⟩⟩
        · simp [waitLoop, traced, h1, logFatal, Process.print]
        · simp [Call.isTeardown]
        · simp [waitLoop, traced, h1, logFatal]
        · exact FailedAt_single rfl (by simp [waitLoop, traced, h1, logFatal, Process.print])
      | none =>
        cases status with
        | true =>
          refine ⟨[.CheckIfContainerIsReady containerID (true, none)], ?_, ?_,
            Or.inl ⟨?_, 0, by simp⟩⟩
          · simp [waitLoop, traced, h1]
          · simp [Call.isTeardown]
          · simp [waitLoop, traced, h1]
        | false =>
          have hstep : waitLoop (traced d) containerID (.check :: rest) p =
              waitLoop (traced d) containerID rest
                { p with world := (w1, p.world.2 ++
                  [.CheckIfContainerIsReady containerID (false, none)]) } := by
            simp [waitLoop, traced, h1]
          obtain ⟨new, hcalls, hno, hend⟩ := ih
            { p with world := (w1, p.world.2 ++
              [.CheckIfContainerIsReady containerID (false, none)]) }
          rw [hstep]
          refine ⟨.CheckIfContainerIsReady containerID (false, none) :: new, ?_, ?_, ?_⟩
          · rw [hcalls]
            simp
          · intro c hc
            rcases List.mem_cons.mp hc with h | h
            · subst h
              rfl
            · exact hno c h
          · rcases hend with ⟨hnext, n, hn⟩ | ⟨o, ho, hne, hclean⟩
            · exact Or.inl ⟨hnext, n + 1, by simp [hn, List.replicate_succ]⟩
            · refine Or.inr ⟨o, ho, hne, ?_⟩
              rcases hclean with ⟨n, hn⟩ | ⟨hf, hfail⟩
              · exact Or.inl ⟨n + 1, by simp [hn, List.replicate_succ]⟩
              · refine Or.inr ⟨hf, ?_⟩
                have := FailedAt_append (a := [.CheckIfContainerIsReady containerID (false, none)])
                  (by simp [Clean, Call.err]) hfail
                simpa using this

/-- The calls of `waitReady`. -/
theorem waitReady_traced {σ : Type} (d : Docker σ) (containerID : GoString)
    (events : List ReadyEvent) (p : Process (σ × List Call)) :
    ∃ new, (waitReady (traced d) containerID events p).2.world.2 = p.world.2 ++ new ∧
      (∀ c ∈ new, c.isTeardown = false) ∧
      (((waitReady (traced d) containerID events p).1 = .next () ∧ ∃ n,
          new = List.replicate n (.CheckIfContainerIsReady containerID (false, none)) ++
            [.CheckIfContainerIsReady containerID (true, none)]) ∨
        (∃ o, (waitReady (traced d) containerID events p).1 = .halt o ∧ o ≠ .returned ∧
          ((∃ n, new = List.replicate n (.CheckIfContainerIsReady containerID (false, none))) ∨
            (o = .fatal ∧
              FailedAt new (waitReady (traced d) containerID events p).2.output)))) :=
  waitLoop_traced d containerID events
    (p.print (.log (lit "waiting for container to be in running state...")))

/-- The calls of rounds of the display loop without error are clean. -/
theorem Clean_execRounds (containerID : GoString) (rounds : List (GoString × GoString)) :
    Clean (execRounds containerID rounds) := by
  intro c hc
  simp only [execRounds, List.mem_flatMap, List.mem_cons, List.mem_singleton] at hc
  obtain ⟨r, _, h | h | h⟩ := hc
  · subst h
    rfl
  · subst h
    rfl
  · cases h

/-- The calls of one more round of the display loop. -/
theorem execRounds_cons (containerID : GoString) (r : GoString × GoString)
    (rounds : List (GoString × GoString)) :
    execRounds containerID (r :: rounds) =
      .GenerateExecInstance containerID
          (some [lit "/bin/sh", lit "-c", lit "top -b -n 1 | head -4 | tail -2"]) (r.1, none) ::
        .StartExecInstance r.1 (r.2, none) :: execRounds containerID rounds := by
  simp [execRounds]

/-- The calls of the display loop. -/
theorem executeCommandAndPrint_traced {σ : Type} (d : Docker σ) (containerID : GoString)
    (done : List Bool) (ticks : Nat) (p : Process (σ × List Call)) :
    ∃ new, (executeCommandAndPrint (traced d) containerID done ticks p).2.world.2 =
        p.world.2 ++ new ∧
      (∀ c ∈ new, c.isTeardown = false) ∧
      (((executeCommandAndPrint (traced d) containerID done ticks p).1 = .next () ∧
          ∃ rounds, new = execRounds containerID rounds ∧ rounds.length = ticks) ∨
        (∃ o, (executeCommandAndPrint (traced d) containerID done ticks p).1 = .halt o ∧
          o ≠ .returned ∧
          ((o = .running ∧ ∃ rounds, new = execRounds containerID rounds) ∨ (o = .fatal ∧
            FailedAt new (executeCommandAndPrint (traced d) containerID done ticks p).2.output)))) := by
  induction ticks generalizing p with
  | zero =>
    cases done with
    | nil =>
      exact ⟨[], by simp [executeCommandAndPrint], by simp,
        Or.inr ⟨.running, by simp [executeCommandAndPrint], by simp,
          Or.inl ⟨rfl, [], by simp [execRounds]⟩⟩⟩
    | cons v vs =>
      exact ⟨[], by simp [executeCommandAndPrint], by simp,
        Or.inl ⟨by simp [executeCommandAndPrint], [], by simp [execRounds], rfl⟩⟩
  | succ ticks ih =>
    rcases h1 : d.GenerateExecInstance containerID
        (some [lit "/bin/sh", lit "-c", lit "top -b -n 1 | head -4 | tail -2"]) p.world.1 with
      ⟨⟨execID, err⟩, w1⟩
    cases err with
    | some err =>
      refine ⟨[.GenerateExecInstance containerID
          (some [lit "/bin/sh", lit "-c", lit "top -b -n 1 | head -4 | tail -2"])
          (execID, some err)], ?_, ?_, Or.inr ⟨.fatal, ?_, by simp, Or.inr ⟨rfl, ?_⟩⟩⟩
      · simp [executeCommandAndPrint, traced, h1, logFatal, Process.print]
      · simp [Call.isTeardown]
      · simp [executeCommandAndPrint, traced, h1, logFatal]
      · exact FailedAt_single rfl
          (by simp [executeCommandAndPrint, traced, h1, logFatal, Process.print])
    | none =>
      rcases h2 : d.StartExecInstance execID w1 with ⟨⟨output, err⟩, w2⟩
      cases err with
      | some err =>
        refine ⟨[.GenerateExecInstance containerID
            (some [lit "/bin/sh", lit "-c", lit "top -b -n 1 | head -4 | tail -2"])
            (execID, none), .StartExecInstance execID (output, some err)], ?_, ?_,
          Or.inr ⟨.fatal, ?_, by simp, Or.inr ⟨rfl, ?_⟩⟩⟩
        · simp [executeCommandAndPrint, traced, h1, h2, logFatal, Process.print]
        · simp [Call.isTeardown]
        · simp [executeCommandAndPrint, traced, h1, h2, logFatal]
        · refine ⟨[.GenerateExecInstance containerID
            (some [lit "/bin/sh", lit "-c", lit "top -b -n 1 | head -4 | tail -2"])
            (execID, none)], _, err, rfl, ?_, rfl, ?_⟩
          · simp [Clean, Call.err]
          · simp [executeCommandAndPrint, traced, h1, h2, logFatal, Process.print]
      | none =>
        have hstep : executeCommandAndPrint (traced d) containerID done (ticks + 1) p =
            executeCommandAndPrint (traced d) containerID done ticks
              (Process.print
                { p with world := (w2, p.world.2 ++
                  [.GenerateExecInstance containerID
                    (some [lit "/bin/sh", lit "-c", lit "top -b -n 1 | head -4 | tail -2"])
                    (execID, none), .StartExecInstance execID (output, none)]) }
                (.screen (Sprintf "Type \"e\" and press ENTER to finish\n%s" [output]))) := by
          simp [executeCommandAndPrint, traced, h1, h2]
        obtain ⟨new, hcalls, hno, hend⟩ := ih
          (Process.print
            { p with world := (w2, p.world.2 ++
              [.GenerateExecInstance containerID
                (some [lit "/bin/sh", lit "-c", lit "top -b -n 1 | head -4 | tail -2"])
                (execID, none), .StartExecInstance execID (output, none)]) }
            (.screen (Sprintf "Type \"e\" and press ENTER to finish\n%s" [output])))
        rw [hstep]
        refine ⟨.GenerateExecInstance containerID
            (some [lit "/bin/sh", lit "-c", lit "top -b -n 1 | head -4 | tail -2"])
            (execID, none) :: .StartExecInstance execID (output, none) :: new, ?_, ?_, ?_⟩
        · rw [hcalls]
          simp [Process.print]
        · intro c hc
          rcases List.mem_cons.mp hc with h | h
          · subst h
            rfl
          · rcases List.mem_cons.mp h with h | h
            · subst h
              rfl
            · exact hno c h
        · rcases hend with ⟨hnext, rounds, hr, hl⟩ | ⟨o, ho, hne, hclean⟩
          · exact Or.inl ⟨hnext, (execID, output) :: rounds,
              by rw [execRounds_cons, hr], by simp [hl]⟩
          · refine Or.inr ⟨o, ho, hne, ?_⟩
            rcases hclean with ⟨horun, rounds, hr⟩ | ⟨hf, hfail⟩
            · exact Or.inl ⟨horun, (execID, output) :: rounds, by rw [execRounds_cons, hr]⟩
            · refine Or.inr ⟨hf, ?_⟩
              have := FailedAt_append (a := [.GenerateExecInstance containerID
                  (some [lit "/bin/sh", lit "-c", lit "top -b -n 1 | head -4 | tail -2"])
                  (execID, none), .StartExecInstance execID (output, none)])
                (by simp [Clean, Call.err]) hfail
              simpa using this

/-- The calls of `callsUntilStarted` are clean. -/
theorem Clean_callsUntilStarted (found : Bool) (containerID : GoString) :
    Clean (callsUntilStarted found containerID) := by
  cases found <;> simp [callsUntilStarted, Clean, Call.err]

/-- Checks that found the container not running are clean. -/
theorem Clean_replicate_waiting (containerID : GoString) (n : Nat) :
    Clean (List.replicate n (.CheckIfContainerIsReady containerID (false, none))) := by
  intro c hc
  rw [List.eq_of_mem_replicate hc]
  rfl

/-- The calls of `callsUntilShutdown` are clean. -/
theorem Clean_callsUntilShutdown (found : Bool) (containerID : GoString) (n : Nat)
    (rounds : List (GoString × GoString)) :
    Clean (callsUntilShutdown found containerID n rounds) := by
  unfold callsUntilShutdown
  refine Clean_append.mpr ⟨Clean_append.mpr ⟨Clean_callsUntilStarted found containerID,
    Clean_append.mpr ⟨Clean_replicate_waiting containerID n, ?_⟩⟩,
    Clean_execRounds containerID rounds⟩
  simp [Clean, Call.err]

/-- A list of calls that failed at its last call is not clean. -/
theorem not_Clean_of_FailedAt {calls : List Call} {output : List Output}
    (h : FailedAt calls output) : ¬ Clean calls := by
  obtain ⟨before, c, err, h1, _, h3, _⟩ := h
  intro hc
  have := hc c (by simp [h1])
  rw [h3] at this
  cases this

/-- The calls of a whole run.  Either the run ends before the teardown, and
then no call of the teardown is made: it is waiting or timed out in the
readiness loop, or still in the display loop, or it failed at its last call.
Or it reaches the teardown after the calls of `callsUntilShutdown`, stops the
container and, if that went well, removes it. -/
theorem mainBody_traced {σ : Type} (d : Docker σ) (sched : Schedule)
    (p : Process (σ × List Call)) (hp : p.world.2 = []) :
    ((∀ c ∈ (mainBody (traced d) sched p).2.world.2, c.isTeardown = false) ∧
      (mainBody (traced d) sched p).1 ≠ .returned ∧
      ((∃ found containerID n, (mainBody (traced d) sched p).2.world.2 =
          callsUntilStarted found containerID ++
            List.replicate n (.CheckIfContainerIsReady containerID (false, none))) ∨
        (∃ found containerID n rounds, (mainBody (traced d) sched p).2.world.2 =
          callsUntilShutdown found containerID n rounds) ∨
        ((mainBody (traced d) sched p).1 = .fatal ∧
          FailedAt (mainBody (traced d) sched p).2.world.2
            (mainBody (traced d) sched p).2.output))) ∨
    (∃ found containerID n rounds result later,
      (mainBody (traced d) sched p).2.world.2 =
        callsUntilShutdown found containerID n rounds ++
          .StopContainer containerID result :: later ∧
      rounds.length = sched.ticks ∧
      ((∃ err, result.2 = some err ∧ later = [] ∧
          (mainBody (traced d) sched p).1 = .fatal ∧
          (mainBody (traced d) sched p).2.output.getLast? = some (.logError err)) ∨
        (result.2 = none ∧ ∃ err, later = [.RemoveContainer containerID (some err)] ∧
          (mainBody (traced d) sched p).1 = .fatal ∧
          (mainBody (traced d) sched p).2.output.getLast? = some (.logError err)) ∨
        (result.2 = none ∧ later = [.RemoveContainer containerID none] ∧
          (mainBody (traced d) sched p).1 = .returned))) := by
  obtain ⟨new1, hc1, hn1, he1⟩ := ensureImage_traced d p
  rcases hr1 : ensureImage (traced d) p with ⟨f1, p1⟩
  rw [hr1] at hc1 he1
  simp only [hp, List.nil_append] at hc1 he1
  rcases he1 with ⟨hf1, found, hnew1⟩ | ⟨hf1, hfail1⟩
  swap
  · subst hf1
    left
    have hm : mainBody (traced d) sched p = (.fatal, p1) := by simp [mainBody, hr1]
    rw [hm]
    simp only [hc1]
    exact ⟨hn1, by simp, Or.inr (Or.inr ⟨trivial, hfail1⟩)⟩
  subst hf1
  have hclean1 : Clean new1 := by
    rw [hnew1]
    cases found <;> simp [Clean, Call.err]
  obtain ⟨new2, hc2, hn2, he2⟩ := createAndRun_traced d p1
  rcases hr2 : createAndRun (traced d) p1 with ⟨f2, p2⟩
  rw [hr2] at hc2 he2
  simp only [hc1] at hc2 he2
  rcases he2 with ⟨containerID, hf2, hnew2⟩ | ⟨hf2, hfail2⟩
  swap
  · subst hf2
    left
    have hm : mainBody (traced d) sched p = (.fatal, p2) := by simp [mainBody, hr1, hr2]
    rw [hm]
    simp only [hc2]
    refine ⟨?_, by simp, Or.inr (Or.inr ⟨trivial, FailedAt_append hclean1 hfail2⟩)⟩
    intro c hc
    rcases List.mem_append.mp hc with h | h
    · exact hn1 c h
    · exact hn2 c h
  subst hf2
  have hstarted : new1 ++ new2 = callsUntilStarted found containerID := by
    rw [hnew1, hnew2]
    simp [callsUntilStarted]
  have hclean2 : Clean (new1 ++ new2) := by
    rw [hstarted]
    exact Clean_callsUntilStarted found containerID
  have hno2 : ∀ c ∈ new1 ++ new2, c.isTeardown = false := by
    intro c hc
    rcases List.mem_append.mp hc with h | h
    · exact hn1 c h
    · exact hn2 c h
  obtain ⟨new3, hc3, hn3, he3⟩ := waitReady_traced d containerID sched.ready p2
  rcases hr3 : waitReady (traced d) containerID sched.ready p2 with ⟨f3, p3⟩
  rw [hr3] at hc3 he3
  simp only [hc2] at hc3 he3
  rcases he3 with ⟨hf3, n, hnew3⟩ | ⟨o, hf3, hne3, hend3⟩
  swap
  · subst hf3
    left
    have hm : mainBody (traced d) sched p = (o, p3) := by simp [mainBody, hr1, hr2, hr3]
    rw [hm]
    simp only [hc3]
    refine ⟨?_, hne3, ?_⟩
    · intro c hc
      rcases List.mem_append.mp hc with h | h
      · exact hno2 c h
      · exact hn3 c h
    · rcases hend3 with ⟨n, hn⟩ | ⟨ho, h⟩
      · exact Or.inl ⟨found, containerID, n, by rw [hstarted, hn]⟩
      · exact Or.inr (Or.inr ⟨ho, FailedAt_append hclean2 h⟩)
  subst hf3
  have hclean3 : Clean (new1 ++ new2 ++ new3) := by
    refine Clean_append.mpr ⟨hclean2, ?_⟩
    rw [hnew3]
    refine Clean_append.mpr ⟨Clean_replicate_waiting containerID n, ?_⟩
    simp [Clean, Call.err]
  have hno3 : ∀ c ∈ new1 ++ new2 ++ new3, c.isTeardown = false := by
    intro c hc
    rcases List.mem_append.mp hc with h | h
    · exact hno2 c h
    · exact hn3 c h
  obtain ⟨new4, hc4, hn4, he4⟩ := executeCommandAndPrint_traced d containerID
    (readKeyboardEvent sched.stdin).1 sched.ticks p3
  rcases hr4 : executeCommandAndPrint (traced d) containerID
    (readKeyboardEvent sched.stdin).1 sched.ticks p3 with ⟨f4, p4⟩
  rw [hr4] at hc4 he4
  simp only [hc3] at hc4 he4
  rcases he4 with ⟨hf4, rounds, hnew4, hlen⟩ | ⟨o, hf4, hne4, hend4⟩
  swap
  · subst hf4
    left
    have hm : mainBody (traced d) sched p = (o, p4) := by
      simp [mainBody, hr1, hr2, hr3, interactive, hr4]
    rw [hm]
    simp only [hc4]
    refine ⟨?_, hne4, ?_⟩
    · intro c hc
      rcases List.mem_append.mp hc with h | h
      · exact hno3 c h
      · exact hn4 c h
    · rcases hend4 with ⟨_, rounds, hr⟩ | ⟨ho, h⟩
      · exact Or.inr (Or.inl ⟨found, containerID, n, rounds,
          by rw [hstarted, hnew3, hr, callsUntilShutdown]⟩)
      · exact Or.inr (Or.inr ⟨ho, FailedAt_append hclean3 h⟩)
  subst hf4
  right
  have hm : mainBody (traced d) sched p = teardown (traced d) containerID p4 := by
    simp [mainBody, hr1, hr2, hr3, interactive, hr4]
  obtain ⟨result, later, hc5, he5⟩ := teardown_traced d containerID p4
  rw [hm]
  refine ⟨found, containerID, n, rounds, result, later, ?_, hlen, he5⟩
  rw [hc5, hc4, hstarted, hnew3, hnew4, callsUntilShutdown]

/-- No call of the display loop is a call of the teardown. -/
theorem noTeardown_execRounds (containerID : GoString) (rounds : List (GoString × GoString)) :
    ∀ c ∈ execRounds containerID rounds, c.isTeardown = false := by
  intro c hc
  simp only [execRounds, List.mem_flatMap, List.mem_cons, List.mem_singleton] at hc
  obtain ⟨r, _, h | h | h⟩ := hc
  · subst h
    rfl
  · subst h
    rfl
  · cases h

/-- No call of `callsUntilStarted` is a call of the teardown. -/
theorem noTeardown_callsUntilStarted (found : Bool) (containerID : GoString) :
    ∀ c ∈ callsUntilStarted found containerID, c.isTeardown = false := by
  intro c hc
  cases found
  · simp only [callsUntilStarted, Bool.false_eq_true, ↓reduceIte, List.cons_append,
      List.nil_append, List.mem_cons, List.mem_singleton] at hc
    rcases hc with h | h | h | h | h
    · subst h
      rfl
    · subst h
      rfl
    · subst h
      rfl
    · subst h
      rfl
    · cases h
  · simp only [callsUntilStarted, ↓reduceIte, List.cons_append, List.nil_append,
      List.mem_cons, List.mem_singleton] at hc
    rcases hc with h | h | h | h
    · subst h
      rfl
    · subst h
      rfl
    · subst h
      rfl
    · cases h

/-- No call of `callsUntilShutdown` is a call of the teardown. -/
theorem noTeardown_callsUntilShutdown (found : Bool) (containerID : GoString) (n : Nat)
    (rounds : List (GoString × GoString)) :
    ∀ c ∈ callsUntilShutdown found containerID n rounds, c.isTeardown = false := by
  intro c hc
  unfold callsUntilShutdown at hc
  rcases List.mem_append.mp hc with h | h
  · rcases List.mem_append.mp h with h | h
    · exact noTeardown_callsUntilStarted found containerID c h
    · rcases List.mem_append.mp h with h | h
      · rw [List.eq_of_mem_replicate h]
        rfl
      · rw [List.mem_singleton.mp h]
        rfl
  · exact noTeardown_execRounds containerID rounds c h

/-- The display loop returns only when a value was sent on `done`. -/
theorem executeCommandAndPrint_next {σ : Type} (d : Docker σ) (containerID : GoString)
    (done : List Bool) (ticks : Nat) (p : Process σ)
    (h : (executeCommandAndPrint d containerID done ticks p).1 = .next ()) : done ≠ [] := by
  induction ticks generalizing p with
  | zero =>
    cases done with
    | nil => simp [executeCommandAndPrint] at h
    | cons v vs => simp
  | succ ticks ih =>
    rcases h1 : d.GenerateExecInstance containerID
        (some [lit "/bin/sh", lit "-c", lit "top -b -n 1 | head -4 | tail -2"]) p.world with
      ⟨⟨execID, err⟩, w1⟩
    cases err with
    | some err => simp [executeCommandAndPrint, h1, logFatal] at h
    | none =>
      rcases h2 : d.StartExecInstance execID w1 with ⟨⟨output, err⟩, w2⟩
      cases err with
      | some err => simp [executeCommandAndPrint, h1, h2, logFatal] at h
      | none =>
        simp only [executeCommandAndPrint, h1, h2] at h
        exact ih _ h

/-- The keyboard loop sends a value only when a line is `e`. -/
theorem readKeyboardEvent_sent (lines : List GoString)
    (h : (readKeyboardEvent lines).1 ≠ []) : lit "e" ∈ lines := by
  induction lines with
  | nil => simp [readKeyboardEvent] at h
  | cons text rest ih =>
    by_cases h1 : text = lit "e"
    · simp [h1]
    · simp only [readKeyboardEvent, h1, ↓reduceIte] at h
      exact List.mem_cons_of_mem _ (ih h)

/-- C14. If a call to the client returns an error that is not `nil`, the
process exits through `log.Fatal` at that call and no later call is made: in
the list of the calls of a run, a call that returned an error is the last one,
the calls before it returned none, the outcome of the run is the fatal exit
and the error is the last thing logged.  In particular, when `StopContainer`
returns an error, `RemoveContainer` is never called. -/
theorem fatal_at_first_error {σ : Type} (d : Docker σ) (sched : Schedule)
    (p : Process (σ × List Call)) (hp : p.world.2 = []) :
    (∀ before c after, (mainBody (traced d) sched p).2.world.2 = before ++ c :: after →
      c.err ≠ none →
      after = [] ∧ (mainBody (traced d) sched p).1 = .fatal ∧ Clean before ∧
        ∃ err, c.err = some err ∧
          (mainBody (traced d) sched p).2.output.getLast? = some (.logError err)) ∧
    (∀ containerID result,
      Call.StopContainer containerID result ∈ (mainBody (traced d) sched p).2.world.2 →
      result.2 ≠ none →
      ∀ containerID2 err,
        Call.RemoveContainer containerID2 err ∉ (mainBody (traced d) sched p).2.world.2) := by
  rcases mainBody_traced d sched p hp with
    ⟨hno, _, hshape⟩ | ⟨found, cid, n, rounds, result, later, hcalls, _, hend⟩
  · constructor
    · have hinv : Clean (mainBody (traced d) sched p).2.world.2 ∨
          ((mainBody (traced d) sched p).1 = .fatal ∧
            FailedAt (mainBody (traced d) sched p).2.world.2
              (mainBody (traced d) sched p).2.output) := by
        rcases hshape with ⟨found, cid, n, h⟩ | ⟨found, cid, n, rounds, h⟩ | h
        · left
          rw [h]
          exact Clean_append.mpr ⟨Clean_callsUntilStarted found cid,
            Clean_replicate_waiting cid n⟩
        · left
          rw [h]
          exact Clean_callsUntilShutdown found cid n rounds
        · exact Or.inr h
      exact fun before c after hc he => error_is_last hinv before c after hc he
    · intro containerID res hmem
      exact absurd (hno _ hmem) (by simp [Call.isTeardown])
  · have hU := Clean_callsUntilShutdown found cid n rounds
    have hnoU := noTeardown_callsUntilShutdown found cid n rounds
    constructor
    · have hinv : Clean (mainBody (traced d) sched p).2.world.2 ∨
          ((mainBody (traced d) sched p).1 = .fatal ∧
            FailedAt (mainBody (traced d) sched p).2.world.2
              (mainBody (traced d) sched p).2.output) := by
        rcases hend with ⟨err, hres, hlater, hout, hlog⟩ | ⟨hres, err, hlater, hout, hlog⟩ |
          ⟨hres, hlater, hout⟩
        · right
          refine ⟨hout, callsUntilShutdown found cid n rounds, .StopContainer cid result, err,
            ?_, hU, hres, hlog⟩
          rw [hcalls, hlater]
        · right
          refine ⟨hout, callsUntilShutdown found cid n rounds ++ [.StopContainer cid result],
            .RemoveContainer cid (some err), err, ?_, Clean_append.mpr ⟨hU, ?_⟩, rfl, hlog⟩
          · rw [hcalls, hlater]
            simp
          · simp [Clean, Call.err, hres]
        · left
          rw [hcalls, hlater]
          refine Clean_append.mpr ⟨hU, ?_⟩
          simp [Clean, Call.err, hres]
      exact fun before c after hc he => error_is_last hinv before c after hc he
    · intro containerID res hmem hres containerID2 err2 hmem2
      rw [hcalls] at hmem hmem2
      have hstop : res = result := by
        rcases List.mem_append.mp hmem with h | h
        · exact absurd (hnoU _ h) (by simp [Call.isTeardown])
        · rcases List.mem_cons.mp h with h | h
          · simp only [Call.StopContainer.injEq] at h
            exact h.2
          · rcases hend with ⟨_, _, hlater, _⟩ | ⟨_, _, hlater, _⟩ | ⟨_, hlater, _⟩ <;>
              simp [hlater] at h
      subst hstop
      rcases hend with ⟨err, _, hlater, _⟩ | ⟨hnone, _⟩ | ⟨hnone, _⟩
      · rw [hlater] at hmem2
        rcases List.mem_append.mp hmem2 with h | h
        · exact absurd (hnoU _ h) (by simp [Call.isTeardown])
        · simp at h
      · exact hres hnone
      · exact hres hnone

/-- Witness of C14: the daemon answers the stop with 404; `StopContainer`
returns an error and `RemoveContainer` is not called. -/
theorem fatal_at_first_error_witness :
    atStart.world.2 = [] ∧
    Call.StopContainer (lit "e90e34656806") (false, some ErrContainerDoesNotExist) ∈
      (mainBody (traced (asDocker goJson (NewSimpeDocker DefaultDockerEndpoint
        (recorder (scripted failingStopScript))))) oneTickSchedule atStart).2.world.2 ∧
    Call.RemoveContainer (lit "e90e34656806") none ∉
      (mainBody (traced (asDocker goJson (NewSimpeDocker DefaultDockerEndpoint
        (recorder (scripted failingStopScript))))) oneTickSchedule atStart).2.world.2 :=
  ⟨rfl, by decide,
    (fatal_at_first_error (asDocker goJson (NewSimpeDocker DefaultDockerEndpoint
        (recorder (scripted failingStopScript)))) oneTickSchedule atStart rfl).2
      (lit "e90e34656806") (false, some ErrContainerDoesNotExist) (by decide) (by decide)
      (lit "e90e34656806") none⟩

/-- C16. On a run in which no call to the client returns an error, the calls
are made in this order: `CheckIfImageAlreadyExists("ubuntu", "20.04")`;
`PullImageFromRegistry` exactly when that check returned false;
`CreateContainer`; `RunContainer`; one or more `CheckIfContainerIsReady`; zero
or more pairs of `GenerateExecInstance` and `StartExecInstance`;
`StopContainer`; `RemoveContainer`.  The container ID handed to
`RunContainer`, `CheckIfContainerIsReady`, `GenerateExecInstance`,
`StopContainer` and `RemoveContainer` is the one `CreateContainer` returned,
and each `StartExecInstance` gets the exec ID the `GenerateExecInstance`
before it returned.  The calls of a run that returns are the whole sequence;
those of a run that is still waiting, or timed out waiting for the container,
are a beginning of it.  A run that returns is a run without error. -/
theorem calls_in_order {σ : Type} (d : Docker σ) (sched : Schedule)
    (p : Process (σ × List Call)) (hp : p.world.2 = []) :
    (Clean (mainBody (traced d) sched p).2.world.2 →
      ∃ found containerID n rounds stopped,
        (∃ rest, (mainBody (traced d) sched p).2.world.2 ++ rest =
          callsUntilShutdown found containerID n rounds ++
            [.StopContainer containerID (stopped, none), .RemoveContainer containerID none]) ∧
        ((mainBody (traced d) sched p).1 = .returned →
          (mainBody (traced d) sched p).2.world.2 =
            callsUntilShutdown found containerID n rounds ++
              [.StopContainer containerID (stopped, none),
                .RemoveContainer containerID none] ∧
          rounds.length = sched.ticks)) ∧
    ((mainBody (traced d) sched p).1 = .returned →
      Clean (mainBody (traced d) sched p).2.world.2) ∧
    (∀ found containerID n rounds,
      callsUntilShutdown found containerID n rounds =
        [.CheckIfImageAlreadyExists (lit "ubuntu") (lit "20.04") (found, none)] ++
        (if found then []
          else [.PullImageFromRegistry (lit "ubuntu") (lit "20.04") (lit "x86-64") none]) ++
        [.CreateContainer (lit "ubuntu2004") (lit "ubuntu") (lit "20.04")
            (some [lit "sleep", lit "infinity"]) (containerID, none),
          .RunContainer containerID none] ++
        List.replicate n (.CheckIfContainerIsReady containerID (false, none)) ++
        [.CheckIfContainerIsReady containerID (true, none)] ++
        rounds.flatMap fun r =>
          [.GenerateExecInstance containerID
              (some [lit "/bin/sh", lit "-c", lit "top -b -n 1 | head -4 | tail -2"])
              (r.1, none),
            .StartExecInstance r.1 (r.2, none)]) := by
  refine ⟨?_, ?_, ?_⟩
  · intro hclean
    rcases mainBody_traced d sched p hp with
      ⟨_, hne, hshape⟩ | ⟨found, cid, n, rounds, result, later, hcalls, hlen, hend⟩
    · rcases hshape with ⟨found, cid, n, h⟩ | ⟨found, cid, n, rounds, h⟩ | ⟨_, h⟩
      · refine ⟨found, cid, n, [], false,
          ⟨.CheckIfContainerIsReady cid (true, none) ::
            [.StopContainer cid (false, none), .RemoveContainer cid none], ?_⟩,
          fun hret => absurd hret hne⟩
        rw [h]
        simp [callsUntilShutdown, execRounds]
      · refine ⟨found, cid, n, rounds, false,
          ⟨[.StopContainer cid (false, none), .RemoveContainer cid none], ?_⟩,
          fun hret => absurd hret hne⟩
        rw [h]
      · exact absurd hclean (not_Clean_of_FailedAt h)
    · rcases hend with ⟨err, hres, _⟩ | ⟨_, err, hlater, _⟩ | ⟨hres, hlater, _⟩
      · exfalso
        have := hclean (.StopContainer cid result) (by simp [hcalls])
        simp [Call.err, hres] at this
      · exfalso
        have := hclean (.RemoveContainer cid (some err)) (by simp [hcalls, hlater])
        simp [Call.err] at this
      · have hresult : result = (result.1, none) := by
          rw [← hres]
        refine ⟨found, cid, n, rounds, result.1, ⟨[], ?_⟩, fun _ => ⟨?_, hlen⟩⟩
        · rw [hcalls, hlater, ← hresult]
          simp
        · rw [hcalls, hlater, ← hresult]
  · intro hret
    rcases mainBody_traced d sched p hp with
      ⟨_, hne, _⟩ | ⟨found, cid, n, rounds, result, later, hcalls, _, hend⟩
    · exact absurd hret hne
    · rcases hend with ⟨_, _, _, hout, _⟩ | ⟨_, _, _, hout, _⟩ | ⟨hres, hlater, _⟩
      · rw [hret] at hout
        cases hout
      · rw [hret] at hout
        cases hout
      · rw [hcalls, hlater]
        refine Clean_append.mpr ⟨Clean_callsUntilShutdown found cid n rounds, ?_⟩
        simp [Clean, Call.err, hres]
  · intro found containerID n rounds
    simp [callsUntilShutdown, callsUntilStarted, execRounds, DockerImage, DockerImageTag,
      DockerImageArch, DockerContainerName]

/-- Witness of C16: the calls of the run on `fullScript`, which returns. -/
theorem calls_in_order_witness :
    ∃ found containerID n rounds stopped,
      (∃ rest, (mainBody (scriptedDocker DefaultDockerEndpoint fullScript) oneTickSchedule
          atStart).2.world.2 ++ rest =
        callsUntilShutdown found containerID n rounds ++
          [.StopContainer containerID (stopped, none), .RemoveContainer containerID none]) ∧
      ((mainBody (scriptedDocker DefaultDockerEndpoint fullScript) oneTickSchedule atStart).1 =
          .returned →
        (mainBody (scriptedDocker DefaultDockerEndpoint fullScript) oneTickSchedule
            atStart).2.world.2 =
          callsUntilShutdown found containerID n rounds ++
            [.StopContainer containerID (stopped, none), .RemoveContainer containerID none] ∧
        rounds.length = oneTickSchedule.ticks) :=
  (calls_in_order (asDocker goJson (NewSimpeDocker DefaultDockerEndpoint
      (recorder (scripted fullScript)))) oneTickSchedule atStart rfl).1
    ((calls_in_order (asDocker goJson (NewSimpeDocker DefaultDockerEndpoint
      (recorder (scripted fullScript)))) oneTickSchedule atStart rfl).2.1 rfl)

/-- The calls of the run on `fullScript`, written out. -/
theorem fullScript_calls :
    (mainBody (scriptedDocker DefaultDockerEndpoint fullScript) oneTickSchedule atStart).1 =
      .returned ∧
    (mainBody (scriptedDocker DefaultDockerEndpoint fullScript) oneTickSchedule
        atStart).2.world.2 =
      [.CheckIfImageAlreadyExists (lit "ubuntu") (lit "20.04") (true, none),
        .CreateContainer (lit "ubuntu2004") (lit "ubuntu") (lit "20.04")
          (some [lit "sleep", lit "infinity"]) (lit "e90e34656806", none),
        .RunContainer (lit "e90e34656806") none,
        .CheckIfContainerIsReady (lit "e90e34656806") (true, none),
        .GenerateExecInstance (lit "e90e34656806")
          (some [lit "/bin/sh", lit "-c", lit "top -b -n 1 | head -4 | tail -2"])
          (lit "29a8f3b1", none),
        .StartExecInstance (lit "29a8f3b1") (topOutput, none),
        .StopContainer (lit "e90e34656806") (true, none),
        .RemoveContainer (lit "e90e34656806") none] := by
  constructor
  · rfl
  · decide

/-- C12, as stated, fails.  On the run below the container is found running,
so the interactive loop is entered; the daemon then answers the creation of
the first exec instance with status 500, `GenerateExecInstance` returns an
error, and the process exits there: five calls are made to the client, five
requests are sent, and `StopContainer` and `RemoveContainer` are not among
them. -/
theorem no_teardown_after_display_error :
    (mainBody (scriptedDocker DefaultDockerEndpoint failingExecScript) oneTickSchedule
        atStart).1 = .fatal ∧
    (mainBody (scriptedDocker DefaultDockerEndpoint failingExecScript) oneTickSchedule
        atStart).2.world.2 =
      [.CheckIfImageAlreadyExists (lit "ubuntu") (lit "20.04") (true, none),
        .CreateContainer (lit "ubuntu2004") (lit "ubuntu") (lit "20.04")
          (some [lit "sleep", lit "infinity"]) (lit "e90e34656806", none),
        .RunContainer (lit "e90e34656806") none,
        .CheckIfContainerIsReady (lit "e90e34656806") (true, none),
        .GenerateExecInstance (lit "e90e34656806")
          (some [lit "/bin/sh", lit "-c", lit "top -b -n 1 | head -4 | tail -2"])
          (lit "", some ErrDockerInternalServerError)] ∧
    (main goJson (recorder (scripted failingExecScript)) { h := false, e := none, env := none }
        oneTickSchedule []).1 = .fatal ∧
    (main goJson (recorder (scripted failingExecScript)) { h := false, e := none, env := none }
        oneTickSchedule []).2.world =
      [.Get (lit "http://localhost:2375/images/ubuntu:20.04/json") [],
        .Post (lit "http://localhost:2375/containers/create?name=ubuntu2004")
          [(lit "Content-Type", lit "application/json")]
          (lit "\x7b\"Cmd\":[\"sleep\",\"infinity\"],\"Image\":\"ubuntu:20.04\"\x7d"),
        .Post (lit "http://localhost:2375/containers/e90e34656806/start") [] (lit ""),
        .Get (lit "http://localhost:2375/containers/e90e34656806/json") [],
        .Post (lit "http://localhost:2375/containers/e90e34656806/exec")
          [(lit "Content-Type", lit "application/json")]
          (lit "\x7b\"AttachStdin\":false,\"AttachStdout\":true,\"AttachStderr\":true,\"Tty\":true,\"Cmd\":[\"/bin/sh\",\"-c\",\"top -b -n 1 | head -4 | tail -2\"]\x7d")] := by
  refine ⟨rfl, ?_, rfl, ?_⟩
  · decide
  · decide

/-- C12, amended.  For every run that has entered the interactive loop: if
that loop ends on the shutdown signal, which takes a line `e` on standard
input, then `StopContainer` is called on the container next, and
`RemoveContainer` is called on it after that when `StopContainer` returned no
error, and not called when it returned one; if the loop ends otherwise, by an
error of `GenerateExecInstance` or `StartExecInstance` at which the process
exits, or because the run is still in the loop, the run ends there and
neither `StopContainer` nor `RemoveContainer` is called. -/
theorem teardown_after_shutdown_signal {σ : Type} (d : Docker σ) (sched : Schedule)
    (p0 p1 p2 p3 : Process (σ × List Call)) (containerID : GoString)
    (h0 : p0.world.2 = [])
    (h1 : ensureImage (traced d) p0 = (.next (), p1))
    (h2 : createAndRun (traced d) p1 = (.next containerID, p2))
    (h3 : waitReady (traced d) containerID sched.ready p2 = (.next (), p3)) :
    (∀ p4, interactive (traced d) containerID sched p3 = (.next (), p4) →
      lit "e" ∈ sched.stdin ∧
      (∀ c ∈ p4.world.2, c.isTeardown = false) ∧
      ∃ result later, (mainBody (traced d) sched p0).2.world.2 =
          p4.world.2 ++ .StopContainer containerID result :: later ∧
        ((result.2 = none ∧ ∃ err, later = [.RemoveContainer containerID err]) ∨
          (result.2 ≠ none ∧ later = []))) ∧
    (∀ o p4, interactive (traced d) containerID sched p3 = (.halt o, p4) →
      mainBody (traced d) sched p0 = (o, p4) ∧ o ≠ .returned ∧
      (∀ c ∈ p4.world.2, c.isTeardown = false) ∧
      (o = .fatal → ∃ before c err, p4.world.2 = before ++ [c] ∧ c.err = some err ∧
        p4.output.getLast? = some (.logError err))) := by
  obtain ⟨new1, hc1, hn1, _⟩ := ensureImage_traced d p0
  rw [h1] at hc1
  simp only [h0, List.nil_append] at hc1
  obtain ⟨new2, hc2, hn2, _⟩ := createAndRun_traced d p1
  rw [h2] at hc2
  simp only [hc1] at hc2
  obtain ⟨new3, hc3, hn3, _⟩ := waitReady_traced d containerID sched.ready p2
  rw [h3] at hc3
  simp only [hc2] at hc3
  obtain ⟨new4, hc4, hn4, he4⟩ := executeCommandAndPrint_traced d containerID
    (readKeyboardEvent sched.stdin).1 sched.ticks p3
  have hno : ∀ p4 : Process (σ × List Call), p4.world.2 = p3.world.2 ++ new4 →
      ∀ c ∈ p4.world.2, c.isTeardown = false := by
    intro p4 h4 c hc
    rw [h4, hc3] at hc
    rcases List.mem_append.mp hc with h | h
    · rcases List.mem_append.mp h with h | h
      · rcases List.mem_append.mp h with h | h
        · exact hn1 c h
        · exact hn2 c h
      · exact hn3 c h
    · exact hn4 c h
  constructor
  · intro p4 h4
    have h4' : executeCommandAndPrint (traced d) containerID (readKeyboardEvent sched.stdin).1
        sched.ticks p3 = (.next (), p4) := h4
    rw [h4'] at hc4
    refine ⟨?_, hno p4 hc4, ?_⟩
    · apply readKeyboardEvent_sent
      apply executeCommandAndPrint_next (traced d) containerID _ sched.ticks p3
      rw [h4']
    · have hm : mainBody (traced d) sched p0 = teardown (traced d) containerID p4 := by
        simp [mainBody, h1, h2, h3, h4]
      obtain ⟨result, later, hc5, he5⟩ := teardown_traced d containerID p4
      rw [hm]
      refine ⟨result, later, hc5, ?_⟩
      rcases he5 with ⟨err, hres, hlater, _⟩ | ⟨hres, err, hlater, _⟩ | ⟨hres, hlater, _⟩
      · exact Or.inr ⟨by simp [hres], hlater⟩
      · exact Or.inl ⟨hres, _, hlater⟩
      · exact Or.inl ⟨hres, _, hlater⟩
  · intro o p4 h4
    have h4' : executeCommandAndPrint (traced d) containerID (readKeyboardEvent sched.stdin).1
        sched.ticks p3 = (.halt o, p4) := h4
    rw [h4'] at hc4 he4
    refine ⟨by simp [mainBody, h1, h2, h3, h4], ?_, hno p4 hc4, ?_⟩
    · rcases he4 with ⟨hnext, _⟩ | ⟨o2, ho2, hne, _⟩
      · simp at hnext
      · simp only [Flow.halt.injEq] at ho2
        rw [ho2]
        exact hne
    · intro hfatal
      rcases he4 with ⟨hnext, _⟩ | ⟨o2, ho2, _, hshape⟩
      · simp at hnext
      · simp only [Flow.halt.injEq] at ho2
        rcases hshape with ⟨horun, _⟩ | ⟨_, before, c, err, hb, _, hc, hlog⟩
        · exfalso
          rw [← ho2, hfatal] at horun
          cases horun
        · exact ⟨p3.world.2 ++ before, c, err, by rw [hc4, hb, List.append_assoc], hc, hlog⟩

/-- Witness of the amended C12: on the run on `fullScript` the display loop
ends on the signal, and the container is stopped and then removed. -/
theorem teardown_after_shutdown_signal_witness :
    lit "e" ∈ oneTickSchedule.stdin ∧
    (∀ c ∈ fullRun4.world.2, c.isTeardown = false) ∧
    ∃ result later,
      (mainBody (traced (asDocker goJson (NewSimpeDocker DefaultDockerEndpoint
        (recorder (scripted fullScript))))) oneTickSchedule atStart).2.world.2 =
        fullRun4.world.2 ++ .StopContainer (lit "e90e34656806") result :: later ∧
      ((result.2 = none ∧ ∃ err, later = [.RemoveContainer (lit "e90e34656806") err]) ∨
        (result.2 ≠ none ∧ later = [])) :=
  (teardown_after_shutdown_signal
    (asDocker goJson (NewSimpeDocker DefaultDockerEndpoint (recorder (scripted fullScript))))
    oneTickSchedule atStart fullRun1 fullRun2 fullRun3 (lit "e90e34656806")
    rfl rfl rfl rfl).1 fullRun4 rfl

end dockermanager
